import Mathlib

/-!
# OpenXR tutorial, chapter 3: session lifecycle and frame protocol

A shallow embedding of the class `OpenXRTutorial` of `Chapter3/main.cpp`.

* The members of the class that the event poll, the frame loop, the negotiation
  of view configuration and blend mode, and the teardown read or write are the
  fields of the structure `OpenXRTutorial`.
* Calls into the OpenXR runtime are recorded, in program order, in the field
  `trace`.  What the runtime answers (the events it delivers, the frame state,
  the result of `xrLocateViews`, the acquired image indices) is an explicit
  argument of the function that receives it.
* Floating point values (poses, fields of view) are only copied by the code that
  is modelled here, so they are carried as bit patterns.
* Log output and the drawing done on the GPU are left out.
* What is declared outside `main.cpp` and decides a branch is a parameter: the
  format functions of the graphics library (`TextureFormatTable`) and what the
  macro `DEBUG_BREAK` does (`DEBUG_BREAK`).
-/

/-! ## Types of the OpenXR API used by the class -/

/-- Handle type `XrSession`. -/
abbrev XrSession := Nat

/-- Handle type `XrSwapchain`. -/
abbrev XrSwapchain := Nat

/-- Handle type `XrSpace`. -/
abbrev XrSpace := Nat

/-- The null handle `XR_NULL_HANDLE`. -/
def XR_NULL_HANDLE : Nat := 0

/-- Type `XrTime`, a signed 64 bit count of nanoseconds. -/
abbrev XrTime := Int

/-- Type `XrResult`: a signed result code. -/
abbrev XrResult := Int

/-- The result code `XR_SUCCESS`. -/
def XR_SUCCESS : XrResult := 0

/-- The timeout `XR_INFINITE_DURATION`. -/
def XR_INFINITE_DURATION : Int := 0x7fffffffffffffff

/-- Enumeration `XrSessionState`. -/
inductive XrSessionState where
  | XR_SESSION_STATE_UNKNOWN
  | XR_SESSION_STATE_IDLE
  | XR_SESSION_STATE_READY
  | XR_SESSION_STATE_SYNCHRONIZED
  | XR_SESSION_STATE_VISIBLE
  | XR_SESSION_STATE_FOCUSED
  | XR_SESSION_STATE_STOPPING
  | XR_SESSION_STATE_LOSS_PENDING
  | XR_SESSION_STATE_EXITING
  | XR_SESSION_STATE_MAX_ENUM
  deriving DecidableEq, Repr, Inhabited

/-- Enumeration `XrViewConfigurationType`. -/
inductive XrViewConfigurationType where
  | XR_VIEW_CONFIGURATION_TYPE_PRIMARY_MONO
  | XR_VIEW_CONFIGURATION_TYPE_PRIMARY_STEREO
  | XR_VIEW_CONFIGURATION_TYPE_MAX_ENUM
  deriving DecidableEq, Repr, Inhabited

/-- Enumeration `XrEnvironmentBlendMode`. -/
inductive XrEnvironmentBlendMode where
  | XR_ENVIRONMENT_BLEND_MODE_OPAQUE
  | XR_ENVIRONMENT_BLEND_MODE_ADDITIVE
  | XR_ENVIRONMENT_BLEND_MODE_ALPHA_BLEND
  | XR_ENVIRONMENT_BLEND_MODE_MAX_ENUM
  deriving DecidableEq, Repr, Inhabited

/-- Structure `XrPosef` (orientation and position), carried as a bit pattern. -/
structure XrPosef where
  bits : Nat
  deriving DecidableEq, Repr, Inhabited

/-- Structure `XrFovf` (four field of view angles), carried as a bit pattern. -/
structure XrFovf where
  bits : Nat
  deriving DecidableEq, Repr, Inhabited

/-- Structure `XrView`: what `xrLocateViews` writes for one view. -/
structure XrView where
  pose : XrPosef
  fov : XrFovf
  deriving DecidableEq, Repr, Inhabited

/-- Structure `XrViewConfigurationView`, the fields read by the class (all `uint32_t`). -/
structure XrViewConfigurationView where
  recommendedImageRectWidth : Nat
  recommendedImageRectHeight : Nat
  recommendedSwapchainSampleCount : Nat
  deriving DecidableEq, Repr, Inhabited

/-- A texture view (`Diligent::ITextureView`) created over image `image` of the
image array of `swapchain`. -/
structure ITextureView where
  swapchain : XrSwapchain
  image : Nat
  deriving DecidableEq, Repr, Inhabited

/-- Structure `SwapchainInfo` of the class.  An entry of `views` is `none` while the
reference counted pointer at that position is null. -/
structure SwapchainInfo where
  swapchain : XrSwapchain
  swapchainFormat : Int
  views : List (Option ITextureView)
  deriving DecidableEq, Repr

/-- Member initialisers of `SwapchainInfo`. -/
instance : Inhabited SwapchainInfo := ⟨⟨XR_NULL_HANDLE, 0, []⟩⟩

/-- Enumeration `Diligent::TEXTURE_FORMAT`, by its numeric value. -/
abbrev TEXTURE_FORMAT := Nat

/-- The value `Diligent::TEX_FORMAT_UNKNOWN`. -/
def TEX_FORMAT_UNKNOWN : TEXTURE_FORMAT := 0

/-- Flag `XR_SWAPCHAIN_USAGE_COLOR_ATTACHMENT_BIT`. -/
def XR_SWAPCHAIN_USAGE_COLOR_ATTACHMENT_BIT : Nat := 0x1

/-- Flag `XR_SWAPCHAIN_USAGE_DEPTH_STENCIL_ATTACHMENT_BIT`. -/
def XR_SWAPCHAIN_USAGE_DEPTH_STENCIL_ATTACHMENT_BIT : Nat := 0x2

/-- Flag `XR_SWAPCHAIN_USAGE_SAMPLED_BIT`. -/
def XR_SWAPCHAIN_USAGE_SAMPLED_BIT : Nat := 0x20

/-- Structure `XrSwapchainCreateInfo`. -/
structure XrSwapchainCreateInfo where
  createFlags : Nat
  usageFlags : Nat
  format : Int
  sampleCount : Nat
  width : Nat
  height : Nat
  faceCount : Nat
  arraySize : Nat
  mipCount : Nat
  deriving DecidableEq, Repr

/-- Structure `XrCompositionLayerProjectionView`, with the sub image flattened. -/
structure XrCompositionLayerProjectionView where
  pose : XrPosef
  fov : XrFovf
  subImage_swapchain : XrSwapchain
  subImage_imageRect_offset_x : Int
  subImage_imageRect_offset_y : Int
  subImage_imageRect_extent_width : Int
  subImage_imageRect_extent_height : Int
  subImage_imageArrayIndex : Nat
  deriving DecidableEq, Repr

/-- The value `{XR_TYPE_COMPOSITION_LAYER_PROJECTION_VIEW}`: every other member zero. -/
instance : Inhabited XrCompositionLayerProjectionView :=
  ⟨⟨⟨0⟩, ⟨0⟩, XR_NULL_HANDLE, 0, 0, 0, 0, 0⟩⟩

/-- Structure `XrCompositionLayerProjection`; the pointer `views` and the count
`viewCount` are the list `views` and its length. -/
structure XrCompositionLayerProjection where
  layerFlags : Nat
  space : XrSpace
  views : List XrCompositionLayerProjectionView
  deriving DecidableEq, Repr

/-- The value `{XR_TYPE_COMPOSITION_LAYER_PROJECTION}`. -/
instance : Inhabited XrCompositionLayerProjection := ⟨⟨0, XR_NULL_HANDLE, []⟩⟩

/-- Handle type `XrInstance`. -/
abbrev XrInstance := Nat

/-- Handle type `XrDebugUtilsMessengerEXT`. -/
abbrev XrDebugUtilsMessengerEXT := Nat

/-- Enumeration `XrReferenceSpaceType`. -/
inductive XrReferenceSpaceType where
  | XR_REFERENCE_SPACE_TYPE_VIEW
  | XR_REFERENCE_SPACE_TYPE_LOCAL
  | XR_REFERENCE_SPACE_TYPE_STAGE
  deriving DecidableEq, Repr

/-- Flag `XR_COMPOSITION_LAYER_CORRECT_CHROMATIC_ABERRATION_BIT`. -/
def XR_COMPOSITION_LAYER_CORRECT_CHROMATIC_ABERRATION_BIT : Nat := 1

/-- Flag `XR_COMPOSITION_LAYER_BLEND_TEXTURE_SOURCE_ALPHA_BIT`. -/
def XR_COMPOSITION_LAYER_BLEND_TEXTURE_SOURCE_ALPHA_BIT : Nat := 2

/-- Structure `XrFrameEndInfo`; `layerCount` is the length of `layers`, and each
layer pointer is represented by the projection layer it points to. -/
structure XrFrameEndInfo where
  displayTime : XrTime
  environmentBlendMode : XrEnvironmentBlendMode
  layers : List XrCompositionLayerProjection
  deriving DecidableEq, Repr

/-- Structure `RenderLayerInfo` of the class. -/
structure RenderLayerInfo where
  predictedDisplayTime : XrTime
  layers : List XrCompositionLayerProjection
  layerProjection : XrCompositionLayerProjection
  layerProjectionViews : List XrCompositionLayerProjectionView
  deriving DecidableEq, Repr

/-- Member initialisers of `RenderLayerInfo`. -/
instance : Inhabited RenderLayerInfo := ⟨⟨0, [], default, []⟩⟩

/-- An event returned by `xrPollEvent` in the `XrEventDataBuffer`, by its `type`,
with the members the code reads. -/
inductive XrEventDataBuffer where
  | XR_TYPE_EVENT_DATA_EVENTS_LOST (lostEventCount : Nat)
  | XR_TYPE_EVENT_DATA_INSTANCE_LOSS_PENDING (lossTime : XrTime)
  | XR_TYPE_EVENT_DATA_INTERACTION_PROFILE_CHANGED (session : XrSession)
  | XR_TYPE_EVENT_DATA_REFERENCE_SPACE_CHANGE_PENDING (session : XrSession)
  | XR_TYPE_EVENT_DATA_SESSION_STATE_CHANGED (session : XrSession) (state : XrSessionState)
  | otherType (type : Nat)
  deriving DecidableEq, Repr

/-- The two messages that `CreateSwapchains` writes to `std::cerr` when the format
scan found no color format, or no depth format. -/
inductive FormatNegotiationError where
  | noColorFormat
  | noDepthFormat
  deriving DecidableEq, Repr

/-- A call recorded in the trace, with the arguments the code passes.  The entry
`views_clear` stands for `views.clear()` on the `SwapchainInfo` with the given
swapchain handle: it releases the texture views the vector held. -/
inductive Call where
  | xrBeginSession (session : XrSession)
      (primaryViewConfigurationType : XrViewConfigurationType)
  | xrEndSession (session : XrSession)
  | xrWaitFrame (session : XrSession)
  | xrBeginFrame (session : XrSession)
  | xrEndFrame (session : XrSession) (frameEndInfo : XrFrameEndInfo)
  | xrLocateViews (session : XrSession) (viewConfigurationType : XrViewConfigurationType)
      (displayTime : XrTime) (space : XrSpace) (viewCapacityInput : Nat)
  | xrAcquireSwapchainImage (swapchain : XrSwapchain)
  | xrWaitSwapchainImage (swapchain : XrSwapchain) (timeout : Int)
  | xrReleaseSwapchainImage (swapchain : XrSwapchain)
  | SetRenderTargets (rtv dsv : Option ITextureView)
  | xrEnumerateSwapchainFormats (session : XrSession) (formatCapacityInput : Nat)
  | xrCreateSwapchain (session : XrSession) (createInfo : XrSwapchainCreateInfo)
  | xrEnumerateSwapchainImages (swapchain : XrSwapchain) (imageCapacityInput : Nat)
  | xrDestroySwapchain (swapchain : XrSwapchain)
  | views_clear (swapchain : XrSwapchain) (views : List (Option ITextureView))
  | cerr (message : FormatNegotiationError)
  | xrEnumerateViewConfigurations (viewConfigurationTypeCapacityInput : Nat)
  | xrEnumerateViewConfigurationViews (viewConfigurationType : XrViewConfigurationType)
      (viewCapacityInput : Nat)
  | xrEnumerateEnvironmentBlendModes (viewConfigurationType : XrViewConfigurationType)
      (environmentBlendModeCapacityInput : Nat)
  | xrCreateReferenceSpace (session : XrSession) (referenceSpaceType : XrReferenceSpaceType)
  | xrDestroySpace (space : XrSpace)
  | xrDestroySession (session : XrSession)
  | DestroyOpenXRDebugUtilsMessenger (xrInstance : XrInstance)
      (debugUtilsMessenger : XrDebugUtilsMessengerEXT)
  | xrDestroyInstance (xrInstance : XrInstance)
  deriving DecidableEq, Repr

/-- What the runtime answers during one call of `RenderFrame`.

* `predictedDisplayTime`, `shouldRender`: the `XrFrameState` written by `xrWaitFrame`.
* `viewStateFlags`: the `viewStateFlags` of the `XrViewState` that `xrLocateViews`
  writes.
* `locateResult`, `views`: the result code of `xrLocateViews` and the views it
  wrote; `viewCount` is the length of `views`.
* `acquired`: for view `i`, the image indices written by the two calls of
  `xrAcquireSwapchainImage` (color, depth). -/
structure XrFrameAnswers where
  predictedDisplayTime : XrTime
  shouldRender : Bool
  locateResult : XrResult
  viewStateFlags : Nat
  views : List XrView
  acquired : List (Nat × Nat)
  deriving DecidableEq, Repr

/-- What the environment answers during one tick of the loop of `Run`.

* `destroyRequested`: what `PollSystemEvents` finds (always `false` off Android).
* `events`: the events `xrPollEvent` delivers with `XR_SUCCESS` during `PollEvents`,
  in order, before the first other result code.
* `frame`: the answers for `RenderFrame`, used only if it is called. -/
structure TickAnswers where
  destroyRequested : Bool
  events : List XrEventDataBuffer
  frame : XrFrameAnswers
  deriving DecidableEq, Repr

/-- What the runtime answers for view `i` during `CreateSwapchains`: the handles
written by the two calls of `xrCreateSwapchain` and the image counts written by
`xrEnumerateSwapchainImages` for the color and for the depth swapchain. -/
structure SwapchainAnswers where
  colorSwapchain : XrSwapchain
  depthSwapchain : XrSwapchain
  colorSwapchainImageCount : Nat
  depthSwapchainImageCount : Nat
  deriving DecidableEq, Repr, Inhabited

/-- What the runtime answers during `CreateSwapchains`: the format list written by
`xrEnumerateSwapchainFormats`, in the order of the runtime, and the answers per
view. -/
structure CreateSwapchainsAnswers where
  formats : List Int
  swapchains : List SwapchainAnswers
  deriving DecidableEq, Repr

/-- The two functions of the graphics library that the format scan calls:
`Diligent::GetTextureFormatFromNative` for the graphics API in `m_apiType`, and
`IsDepthStencil` of the attributes that `Diligent::GetTextureFormatAttribs` returns
for a format.  They are declared outside `main.cpp` and are parameters here. -/
structure TextureFormatTable where
  GetTextureFormatFromNative : Int → TEXTURE_FORMAT
  IsDepthStencil : TEXTURE_FORMAT → Bool

/-- What the macro `DEBUG_BREAK` does when control reaches it.  The macro is declared
in a header outside `main.cpp`: a breakpoint trap either ends the program there
(`stops`) or, when a debugger resumes the program, hands control back (`returns`).
It is a parameter of the functions that execute it. -/
inductive DEBUG_BREAK where
  | stops
  | returns
  deriving DecidableEq, Repr

/-! ## The class -/

/-- The members of class `OpenXRTutorial` read or written by the event poll and
the frame loop, and the trace of calls made so far. -/
structure OpenXRTutorial where
  m_xrInstance : XrInstance
  m_debugUtilsMessenger : XrDebugUtilsMessengerEXT
  m_session : XrSession
  m_sessionState : XrSessionState
  m_applicationRunning : Bool
  m_sessionRunning : Bool
  m_viewConfiguration : XrViewConfigurationType
  m_viewConfigurationViews : List XrViewConfigurationView
  m_colorSwapchainInfos : List SwapchainInfo
  m_depthSwapchainInfos : List SwapchainInfo
  m_colorFormat : TEXTURE_FORMAT
  m_depthFormat : TEXTURE_FORMAT
  m_environmentBlendMode : XrEnvironmentBlendMode
  m_localSpace : XrSpace
  trace : List Call
  deriving DecidableEq, Repr

namespace OpenXRTutorial

open XrSessionState XrEventDataBuffer

/-- The member initialisers of the class (lines 1265-1306), with an empty trace. -/
def initial : OpenXRTutorial where
  m_xrInstance := XR_NULL_HANDLE
  m_debugUtilsMessenger := XR_NULL_HANDLE
  m_session := 0
  m_sessionState := XR_SESSION_STATE_UNKNOWN
  m_applicationRunning := true
  m_sessionRunning := false
  m_viewConfiguration := .XR_VIEW_CONFIGURATION_TYPE_MAX_ENUM
  m_viewConfigurationViews := []
  m_colorSwapchainInfos := []
  m_depthSwapchainInfos := []
  m_colorFormat := TEX_FORMAT_UNKNOWN
  m_depthFormat := TEX_FORMAT_UNKNOWN
  m_environmentBlendMode := .XR_ENVIRONMENT_BLEND_MODE_MAX_ENUM
  m_localSpace := XR_NULL_HANDLE
  trace := []

/-- Record calls in the trace.  A call wrapped in `OPENXR_CHECK` is recorded like
any other: the result code of such a call is consumed by that check, which is
declared in a header outside `main.cpp`, and no statement of `main.cpp` reads it.
The model describes the executions in which the check hands control back. -/
def emit (app : OpenXRTutorial) (calls : List Call) : OpenXRTutorial :=
  { app with trace := app.trace ++ calls }

/-- The body of the `switch` in `PollEvents` (lines 700-773) for one event. -/
def PollEvents_event (app : OpenXRTutorial) (eventData : XrEventDataBuffer) : OpenXRTutorial :=
  match eventData with
  | XR_TYPE_EVENT_DATA_EVENTS_LOST _ => app
  | XR_TYPE_EVENT_DATA_INSTANCE_LOSS_PENDING _ =>
      { app with m_sessionRunning := false, m_applicationRunning := false }
  | XR_TYPE_EVENT_DATA_INTERACTION_PROFILE_CHANGED session =>
      if session ≠ app.m_session then app else app
  | XR_TYPE_EVENT_DATA_REFERENCE_SPACE_CHANGE_PENDING session =>
      if session ≠ app.m_session then app else app
  | XR_TYPE_EVENT_DATA_SESSION_STATE_CHANGED session state =>
      if session ≠ app.m_session then app
      else
        let app :=
          if state = XR_SESSION_STATE_READY then
            { app.emit [.xrBeginSession app.m_session app.m_viewConfiguration] with
              m_sessionRunning := true }
          else app
        let app :=
          if state = XR_SESSION_STATE_STOPPING then
            { app.emit [.xrEndSession app.m_session] with m_sessionRunning := false }
          else app
        let app :=
          if state = XR_SESSION_STATE_EXITING then
            { app with m_sessionRunning := false, m_applicationRunning := false }
          else app
        let app :=
          if state = XR_SESSION_STATE_LOSS_PENDING then
            { app with m_sessionRunning := false, m_applicationRunning := false }
          else app
        { app with m_sessionState := state }
  | otherType _ => app

/-- Function `PollEvents` (lines 690-776): the `while` loop handles every event that
`xrPollEvent` delivers, in order, until the queue is drained. -/
def PollEvents (app : OpenXRTutorial) (events : List XrEventDataBuffer) : OpenXRTutorial :=
  events.foldl PollEvents_event app

/-- Function `PollSystemEvents` (lines 1235-1262).  Off Android it returns at once;
on Android it clears `m_applicationRunning` when the activity asked to be
destroyed, and otherwise only updates the Android application state. -/
def PollSystemEvents (app : OpenXRTutorial) (destroyRequested : Bool) : OpenXRTutorial :=
  if destroyRequested then { app with m_applicationRunning := false } else app

/-- Conversion `static_cast<int32_t>` applied to a `uint32_t` value. -/
def static_cast_int32_t (x : Nat) : Int :=
  if x % 2 ^ 32 < 2 ^ 31 then ((x % 2 ^ 32 : Nat) : Int) else ((x % 2 ^ 32 : Nat) : Int) - 2 ^ 32

/-- Operation `std::vector::resize(n, v)`. -/
def vector_resize {α : Type} (xs : List α) (n : Nat) (v : α) : List α :=
  xs.take n ++ List.replicate (n - xs.length) v

/-- The body of the per view loop of `RenderLayer` (lines 1077-1164) for view `i`.
Clears, draw calls and the matrices computed from the pose are not part of the
model.

The function describes the source where every access of the pass is defined, which
is what `RenderLayer_view_defined` tests.  Elsewhere the source has no defined
behaviour: it indexes a vector outside its bounds (lines 1078-1079, 1095-1096,
1113) or calls through a null `rtv` or `dsv` (lines 1100-1101), so that no run
binds a null target and goes on to the release calls.  There the value of this
function is a stand-in that marks the point: it reads the default value of the
element type, which for `views[...]` of a swapchain is the null pointer `none`, and
records `SetRenderTargets` with it. -/
def RenderLayer_view (rt : XrFrameAnswers) (s : OpenXRTutorial × RenderLayerInfo) (i : Nat) :
    OpenXRTutorial × RenderLayerInfo :=
  let app := s.1
  let renderLayerInfo := s.2
  let colorSwapchainInfo := app.m_colorSwapchainInfos.getD i default
  let depthSwapchainInfo := app.m_depthSwapchainInfos.getD i default
  let colorImageIndex := (rt.acquired.getD i (0, 0)).1
  let depthImageIndex := (rt.acquired.getD i (0, 0)).2
  let app := app.emit
    [.xrAcquireSwapchainImage colorSwapchainInfo.swapchain,
     .xrAcquireSwapchainImage depthSwapchainInfo.swapchain]
  let app := app.emit
    [.xrWaitSwapchainImage colorSwapchainInfo.swapchain XR_INFINITE_DURATION,
     .xrWaitSwapchainImage depthSwapchainInfo.swapchain XR_INFINITE_DURATION]
  let rtv := colorSwapchainInfo.views.getD colorImageIndex none
  let dsv := depthSwapchainInfo.views.getD depthImageIndex none
  let app := app.emit [.SetRenderTargets rtv dsv]
  let width := (app.m_viewConfigurationViews.getD i default).recommendedImageRectWidth
  let height := (app.m_viewConfigurationViews.getD i default).recommendedImageRectHeight
  let view := rt.views.getD i default
  let projectionView : XrCompositionLayerProjectionView :=
    { pose := view.pose
      fov := view.fov
      subImage_swapchain := colorSwapchainInfo.swapchain
      subImage_imageRect_offset_x := 0
      subImage_imageRect_offset_y := 0
      subImage_imageRect_extent_width := static_cast_int32_t width
      subImage_imageRect_extent_height := static_cast_int32_t height
      subImage_imageArrayIndex := 0 }
  let renderLayerInfo :=
    { renderLayerInfo with
      layerProjectionViews := renderLayerInfo.layerProjectionViews.set i projectionView }
  let app := app.emit
    [.xrReleaseSwapchainImage colorSwapchainInfo.swapchain,
     .xrReleaseSwapchainImage depthSwapchainInfo.swapchain]
  (app, renderLayerInfo)

/-- Whether every access of one pass through the per view loop of `RenderLayer` is
defined in the source, for view `i`: `m_colorSwapchainInfos[i]` and
`m_depthSwapchainInfos[i]` (lines 1078-1079) and `m_viewConfigurationViews[i]`
(line 1113) are inside their vectors, and `views[colorImageIndex]` and
`views[depthImageIndex]` (lines 1095-1096) are inside the view vectors and are not
null, as the calls through `rtv` and `dsv` in lines 1100-1101 need. -/
def RenderLayer_view_defined (app : OpenXRTutorial) (rt : XrFrameAnswers) (i : Nat) : Bool :=
  decide (i < app.m_colorSwapchainInfos.length) &&
  decide (i < app.m_depthSwapchainInfos.length) &&
  decide (i < app.m_viewConfigurationViews.length) &&
  ((app.m_colorSwapchainInfos.getD i default).views.getD
    (rt.acquired.getD i (0, 0)).1 none).isSome &&
  ((app.m_depthSwapchainInfos.getD i default).views.getD
    (rt.acquired.getD i (0, 0)).2 none).isSome

/-- What `RenderLayer` leaves behind: its return value, the object and the
`RenderLayerInfo` it received by reference. -/
structure RenderLayerOutcome where
  returned : Bool
  app : OpenXRTutorial
  renderLayerInfo : RenderLayerInfo

/-- Function `RenderLayer` (lines 1054-1181): locate the views, return `false` when
`xrLocateViews` did not return `XR_SUCCESS`, otherwise run the per view loop over
the `viewCount` located views and fill in the projection layer.  The local
`viewState` is handed to `xrLocateViews` and not read afterwards, so no statement
here reads `rt.viewStateFlags`.  The calls on the renderer and on the device
context around the loop are not part of the model. -/
def RenderLayer (app : OpenXRTutorial) (rt : XrFrameAnswers) (renderLayerInfo : RenderLayerInfo) :
    RenderLayerOutcome :=
  let app := app.emit
    [.xrLocateViews app.m_session app.m_viewConfiguration renderLayerInfo.predictedDisplayTime
      app.m_localSpace (app.m_viewConfigurationViews.length % 2 ^ 32)]
  if rt.locateResult ≠ XR_SUCCESS then
    { returned := false, app := app, renderLayerInfo := renderLayerInfo }
  else
    let viewCount := rt.views.length
    let renderLayerInfo :=
      { renderLayerInfo with
        layerProjectionViews := vector_resize renderLayerInfo.layerProjectionViews viewCount default }
    let s := (List.range viewCount).foldl (RenderLayer_view rt) (app, renderLayerInfo)
    let app := s.1
    let renderLayerInfo := s.2
    let renderLayerInfo :=
      { renderLayerInfo with
        layerProjection :=
          { layerFlags := XR_COMPOSITION_LAYER_BLEND_TEXTURE_SOURCE_ALPHA_BIT |||
              XR_COMPOSITION_LAYER_CORRECT_CHROMATIC_ABERRATION_BIT
            space := app.m_localSpace
            views := renderLayerInfo.layerProjectionViews } }
    { returned := true, app := app, renderLayerInfo := renderLayerInfo }

/-- The test `sessionActive` of `RenderFrame` (line 1034). -/
def sessionActive (app : OpenXRTutorial) : Bool :=
  app.m_sessionState = XR_SESSION_STATE_SYNCHRONIZED ||
    app.m_sessionState = XR_SESSION_STATE_VISIBLE ||
    app.m_sessionState = XR_SESSION_STATE_FOCUSED

/-- The part of `RenderFrame` between `xrBeginFrame` and `xrEndFrame`
(lines 1028-1041): the object and the `RenderLayerInfo` after it. -/
def RenderFrame_layers (app : OpenXRTutorial) (rt : XrFrameAnswers) :
    OpenXRTutorial × RenderLayerInfo :=
  let renderLayerInfo : RenderLayerInfo :=
    { predictedDisplayTime := rt.predictedDisplayTime
      layers := []
      layerProjection := default
      layerProjectionViews := [] }
  if app.sessionActive && rt.shouldRender then
    let r := app.RenderLayer rt renderLayerInfo
    if r.returned then
      (r.app, { r.renderLayerInfo with
                layers := r.renderLayerInfo.layers ++ [r.renderLayerInfo.layerProjection] })
    else (r.app, r.renderLayerInfo)
  else (app, renderLayerInfo)

/-- Function `RenderFrame` (lines 1016-1052). -/
def RenderFrame (app : OpenXRTutorial) (rt : XrFrameAnswers) : OpenXRTutorial :=
  let app := app.emit [.xrWaitFrame app.m_session]
  let app := app.emit [.xrBeginFrame app.m_session]
  let s := app.RenderFrame_layers rt
  let app := s.1
  let renderLayerInfo := s.2
  let frameEndInfo : XrFrameEndInfo :=
    { displayTime := rt.predictedDisplayTime
      environmentBlendMode := app.m_environmentBlendMode
      layers := renderLayerInfo.layers }
  app.emit [.xrEndFrame app.m_session frameEndInfo]

/-- One pass through the body of the `while` loop of `Run` (lines 170-174). -/
def Run_tick (app : OpenXRTutorial) (t : TickAnswers) : OpenXRTutorial :=
  let app := app.PollSystemEvents t.destroyRequested
  let app := app.PollEvents t.events
  if app.m_sessionRunning then app.RenderFrame t.frame else app

/-- The loop `while (m_applicationRunning)` of `Run` (lines 169-175), run against
the answers of the environment for the next ticks: it stops when
`m_applicationRunning` is false at the loop test, or after the last tick given. -/
def Run_loop : List TickAnswers → OpenXRTutorial → OpenXRTutorial
  | [], app => app
  | t :: ticks, app =>
      if app.m_applicationRunning then Run_loop ticks (app.Run_tick t) else app

/-! ## Swapchain creation and destruction -/

/-- The variables of the format scan of `CreateSwapchains` (lines 803-822): the
members `m_colorFormat` and `m_depthFormat`, the locals `nativeColorFormat` and
`nativeDepthFormat`, and the number of loop iterations begun so far. -/
structure FormatScan where
  m_colorFormat : TEXTURE_FORMAT
  m_depthFormat : TEXTURE_FORMAT
  nativeColorFormat : Int
  nativeDepthFormat : Int
  iterations : Nat
  deriving DecidableEq, Repr

/-- The body of the format scan (lines 806-818) for one entry of the format list. -/
def CreateSwapchains_scan_body (table : TextureFormatTable) (s : FormatScan)
    (nativeFormat : Int) : FormatScan :=
  let s := { s with iterations := s.iterations + 1 }
  let format := table.GetTextureFormatFromNative nativeFormat
  if table.IsDepthStencil format then
    if s.nativeDepthFormat = 0 then
      { s with m_depthFormat := format, nativeDepthFormat := nativeFormat }
    else s
  else
    if s.nativeColorFormat = 0 then
      { s with m_colorFormat := format, nativeColorFormat := nativeFormat }
    else s

/-- The format scan (lines 805-822): the loop over the format list, left by `break`
as soon as both native formats are different from zero. -/
def CreateSwapchains_scan (table : TextureFormatTable) : List Int → FormatScan → FormatScan
  | [], s => s
  | nativeFormat :: formats, s =>
      let s := CreateSwapchains_scan_body table s nativeFormat
      if s.nativeColorFormat ≠ 0 ∧ s.nativeDepthFormat ≠ 0 then s
      else CreateSwapchains_scan table formats s

/-- The loops that create the image views of one swapchain (lines 894-911 and
913-930): for every `j` below the image count, a view over image `j` is stored in
`views[j]`.  C++ leaves a store outside the vector undefined; the model drops it. -/
def CreateSwapchains_views (swapchain : XrSwapchain) (imageCount : Nat)
    (views : List (Option ITextureView)) : List (Option ITextureView) :=
  (List.range imageCount).foldl (fun views j => views.set j (some ⟨swapchain, j⟩)) views

/-- The `XrSwapchainCreateInfo` that `CreateSwapchains` fills in for a view
(lines 849-858 and 863-871), given the usage flags and the native format. -/
def CreateSwapchains_createInfo (usageFlags : Nat) (format : Int)
    (view : XrViewConfigurationView) : XrSwapchainCreateInfo :=
  { createFlags := 0
    usageFlags := usageFlags
    format := format
    sampleCount := view.recommendedSwapchainSampleCount
    width := view.recommendedImageRectWidth
    height := view.recommendedImageRectHeight
    faceCount := 1
    arraySize := 1
    mipCount := 1 }

/-- The body of the per view loop of `CreateSwapchains` (lines 843-931) for view `i`. -/
def CreateSwapchains_view (rt : CreateSwapchainsAnswers) (nativeColorFormat nativeDepthFormat : Int)
    (app : OpenXRTutorial) (i : Nat) : OpenXRTutorial :=
  let answers := rt.swapchains.getD i default
  let view := app.m_viewConfigurationViews.getD i default
  let colorSwapchainInfo := app.m_colorSwapchainInfos.getD i default
  let depthSwapchainInfo := app.m_depthSwapchainInfos.getD i default
  let app := app.emit
    [.xrCreateSwapchain app.m_session
      (CreateSwapchains_createInfo
        (XR_SWAPCHAIN_USAGE_SAMPLED_BIT ||| XR_SWAPCHAIN_USAGE_COLOR_ATTACHMENT_BIT)
        nativeColorFormat view)]
  let colorSwapchainInfo :=
    { colorSwapchainInfo with
      swapchain := answers.colorSwapchain, swapchainFormat := nativeColorFormat }
  let app := app.emit
    [.xrCreateSwapchain app.m_session
      (CreateSwapchains_createInfo
        (XR_SWAPCHAIN_USAGE_SAMPLED_BIT ||| XR_SWAPCHAIN_USAGE_DEPTH_STENCIL_ATTACHMENT_BIT)
        nativeDepthFormat view)]
  let depthSwapchainInfo :=
    { depthSwapchainInfo with
      swapchain := answers.depthSwapchain, swapchainFormat := nativeDepthFormat }
  let colorSwapchainImageCount := answers.colorSwapchainImageCount
  let app := app.emit
    [.xrEnumerateSwapchainImages colorSwapchainInfo.swapchain 0,
     .xrEnumerateSwapchainImages colorSwapchainInfo.swapchain colorSwapchainImageCount]
  let depthSwapchainImageCount := answers.depthSwapchainImageCount
  let app := app.emit
    [.xrEnumerateSwapchainImages depthSwapchainInfo.swapchain 0,
     .xrEnumerateSwapchainImages depthSwapchainInfo.swapchain depthSwapchainImageCount]
  let colorSwapchainInfo :=
    { colorSwapchainInfo with
      views := CreateSwapchains_views colorSwapchainInfo.swapchain colorSwapchainImageCount
        (vector_resize colorSwapchainInfo.views colorSwapchainImageCount none) }
  let depthSwapchainInfo :=
    { depthSwapchainInfo with
      views := CreateSwapchains_views depthSwapchainInfo.swapchain depthSwapchainImageCount
        (vector_resize depthSwapchainInfo.views colorSwapchainImageCount none) }
  { app with
    m_colorSwapchainInfos := app.m_colorSwapchainInfos.set i colorSwapchainInfo
    m_depthSwapchainInfos := app.m_depthSwapchainInfos.set i depthSwapchainInfo }

/-- The part of `CreateSwapchains` after the format checks (lines 837-932): both
vectors of `SwapchainInfo` are resized to the number of views, then the per view
loop runs. -/
def CreateSwapchains_loop (rt : CreateSwapchainsAnswers) (nativeColorFormat nativeDepthFormat : Int)
    (app : OpenXRTutorial) : OpenXRTutorial :=
  let app :=
    { app with
      m_colorSwapchainInfos :=
        vector_resize app.m_colorSwapchainInfos app.m_viewConfigurationViews.length default
      m_depthSwapchainInfos :=
        vector_resize app.m_depthSwapchainInfos app.m_viewConfigurationViews.length default }
  (List.range app.m_viewConfigurationViews.length).foldl
    (CreateSwapchains_view rt nativeColorFormat nativeDepthFormat) app

/-- How `CreateSwapchains` ends: `stopped = some e` when the program ended in the
`DEBUG_BREAK` that follows message `e`, and the object at that point. -/
structure CreateSwapchainsOutcome where
  stopped : Option FormatNegotiationError
  app : OpenXRTutorial
  deriving DecidableEq, Repr

/-- The part of `CreateSwapchains` after the format scan (lines 824-932): the two
checks of the native formats, each followed by `DEBUG_BREAK`, and then the creation
of the swapchains. -/
def CreateSwapchains_create (debugBreak : DEBUG_BREAK) (rt : CreateSwapchainsAnswers)
    (nativeColorFormat nativeDepthFormat : Int) (app : OpenXRTutorial) :
    CreateSwapchainsOutcome :=
  let app := if nativeColorFormat = 0 then app.emit [.cerr .noColorFormat] else app
  if nativeColorFormat = 0 ∧ debugBreak = .stops then
    { stopped := some .noColorFormat, app := app }
  else
    let app := if nativeDepthFormat = 0 then app.emit [.cerr .noDepthFormat] else app
    if nativeDepthFormat = 0 ∧ debugBreak = .stops then
      { stopped := some .noDepthFormat, app := app }
    else
      { stopped := none
        app := CreateSwapchains_loop rt nativeColorFormat nativeDepthFormat app }

/-- The result of the format scan that `CreateSwapchains` runs (lines 803-822): it
starts from the values the two members have and from zero in both locals. -/
def CreateSwapchains_scanned (table : TextureFormatTable) (app : OpenXRTutorial)
    (rt : CreateSwapchainsAnswers) : FormatScan :=
  CreateSwapchains_scan table rt.formats
    { m_colorFormat := app.m_colorFormat
      m_depthFormat := app.m_depthFormat
      nativeColorFormat := 0
      nativeDepthFormat := 0
      iterations := 0 }

/-- Function `CreateSwapchains` (lines 795-933). -/
def CreateSwapchains (debugBreak : DEBUG_BREAK) (table : TextureFormatTable)
    (app : OpenXRTutorial) (rt : CreateSwapchainsAnswers) : CreateSwapchainsOutcome :=
  let formatCount := rt.formats.length
  let scan := CreateSwapchains_scanned table app rt
  let app := app.emit
    [.xrEnumerateSwapchainFormats app.m_session 0,
     .xrEnumerateSwapchainFormats app.m_session formatCount]
  let app := { app with m_colorFormat := scan.m_colorFormat, m_depthFormat := scan.m_depthFormat }
  CreateSwapchains_create debugBreak rt scan.nativeColorFormat scan.nativeDepthFormat app

/-- The body of the loop of `DestroySwapchains` (lines 939-948) for view `i`. -/
def DestroySwapchains_view (app : OpenXRTutorial) (i : Nat) : OpenXRTutorial :=
  let colorSwapchainInfo := app.m_colorSwapchainInfos.getD i default
  let depthSwapchainInfo := app.m_depthSwapchainInfos.getD i default
  let app := app.emit
    [.views_clear colorSwapchainInfo.swapchain colorSwapchainInfo.views,
     .views_clear depthSwapchainInfo.swapchain depthSwapchainInfo.views]
  let app :=
    { app with
      m_colorSwapchainInfos :=
        app.m_colorSwapchainInfos.set i { colorSwapchainInfo with views := [] }
      m_depthSwapchainInfos :=
        app.m_depthSwapchainInfos.set i { depthSwapchainInfo with views := [] } }
  app.emit
    [.xrDestroySwapchain colorSwapchainInfo.swapchain,
     .xrDestroySwapchain depthSwapchainInfo.swapchain]

/-- Function `DestroySwapchains` (lines 935-951). -/
def DestroySwapchains (app : OpenXRTutorial) : OpenXRTutorial :=
  (List.range app.m_viewConfigurationViews.length).foldl DestroySwapchains_view app

/-! ## Negotiation of view configuration and blend mode, reference space, teardown -/

/-- Member `m_applicationViewConfigurations` (line 1286); no function assigns it. -/
def m_applicationViewConfigurations : List XrViewConfigurationType :=
  [.XR_VIEW_CONFIGURATION_TYPE_PRIMARY_STEREO, .XR_VIEW_CONFIGURATION_TYPE_PRIMARY_MONO]

/-- Member `m_applicationEnvironmentBlendModes` (line 1302); no function assigns it. -/
def m_applicationEnvironmentBlendModes : List XrEnvironmentBlendMode :=
  [.XR_ENVIRONMENT_BLEND_MODE_OPAQUE, .XR_ENVIRONMENT_BLEND_MODE_ADDITIVE]

/-- The loops of lines 343-348 and 365-370: go through the list of the application
in its order, and at the first entry that `std::find` finds in the list of the
runtime assign it to the member and `break`; `current` is the value the member has
when no entry is found. -/
def pickFirstSupported {α : Type} [DecidableEq α] (runtime : List α) : List α → α → α
  | [], current => current
  | candidate :: rest, current =>
      if candidate ∈ runtime then candidate else pickFirstSupported runtime rest current

/-- What the runtime answers during `GetViewConfigurationViews`: the view
configuration types written by `xrEnumerateViewConfigurations` and the views written
by `xrEnumerateViewConfigurationViews`. -/
structure ViewConfigurationAnswers where
  viewConfigurations : List XrViewConfigurationType
  viewConfigurationViews : List XrViewConfigurationView
  deriving DecidableEq, Repr

/-- Function `GetViewConfigurationViews` (lines 356-381).  The arguments
`m_xrInstance` and `m_systemID` of the calls are not recorded. -/
def GetViewConfigurationViews (app : OpenXRTutorial) (rt : ViewConfigurationAnswers) :
    OpenXRTutorial :=
  let viewConfigurationCount := rt.viewConfigurations.length
  let app := app.emit
    [.xrEnumerateViewConfigurations 0, .xrEnumerateViewConfigurations viewConfigurationCount]
  let app :=
    { app with
      m_viewConfiguration :=
        pickFirstSupported rt.viewConfigurations m_applicationViewConfigurations
          app.m_viewConfiguration }
  let app :=
    if app.m_viewConfiguration = .XR_VIEW_CONFIGURATION_TYPE_MAX_ENUM then
      { app with m_viewConfiguration := .XR_VIEW_CONFIGURATION_TYPE_PRIMARY_STEREO }
    else app
  let viewConfigurationViewCount := rt.viewConfigurationViews.length
  let app := app.emit
    [.xrEnumerateViewConfigurationViews app.m_viewConfiguration 0,
     .xrEnumerateViewConfigurationViews app.m_viewConfiguration viewConfigurationViewCount]
  { app with m_viewConfigurationViews := rt.viewConfigurationViews }

/-- Function `GetEnvironmentBlendModes` (lines 334-354); `environmentBlendModes` is
the list written by `xrEnumerateEnvironmentBlendModes`. -/
def GetEnvironmentBlendModes (app : OpenXRTutorial)
    (environmentBlendModes : List XrEnvironmentBlendMode) : OpenXRTutorial :=
  let environmentBlendModeCount := environmentBlendModes.length
  let app := app.emit
    [.xrEnumerateEnvironmentBlendModes app.m_viewConfiguration 0,
     .xrEnumerateEnvironmentBlendModes app.m_viewConfiguration environmentBlendModeCount]
  let app :=
    { app with
      m_environmentBlendMode :=
        pickFirstSupported environmentBlendModes m_applicationEnvironmentBlendModes
          app.m_environmentBlendMode }
  if app.m_environmentBlendMode = .XR_ENVIRONMENT_BLEND_MODE_MAX_ENUM then
    { app with m_environmentBlendMode := .XR_ENVIRONMENT_BLEND_MODE_OPAQUE }
  else app

/-- Function `CreateReferenceSpace` (lines 778-786); `space` is the handle written by
`xrCreateReferenceSpace`, and the identity pose of the create info is not recorded. -/
def CreateReferenceSpace (app : OpenXRTutorial) (space : XrSpace) : OpenXRTutorial :=
  { app.emit [.xrCreateReferenceSpace app.m_session .XR_REFERENCE_SPACE_TYPE_LOCAL] with
    m_localSpace := space }

/-- Function `DestroyReferenceSpace` (lines 788-793). -/
def DestroyReferenceSpace (app : OpenXRTutorial) : OpenXRTutorial :=
  app.emit [.xrDestroySpace app.m_localSpace]

/-- Function `DestroySession` (lines 481-486). -/
def DestroySession (app : OpenXRTutorial) : OpenXRTutorial :=
  app.emit [.xrDestroySession app.m_session]

/-- Function `DestroyDebugMessenger` (lines 300-307). -/
def DestroyDebugMessenger (app : OpenXRTutorial) : OpenXRTutorial :=
  if app.m_debugUtilsMessenger ≠ XR_NULL_HANDLE then
    app.emit [.DestroyOpenXRDebugUtilsMessenger app.m_xrInstance app.m_debugUtilsMessenger]
  else app

/-- Function `DestroyInstance` (lines 285-290). -/
def DestroyInstance (app : OpenXRTutorial) : OpenXRTutorial :=
  app.emit [.xrDestroyInstance app.m_xrInstance]

/-- The part of `Run` after its loop (lines 178-197).  `Flush`, `IdleGPU` and
`DestroyResources` act on the graphics device only and are left out. -/
def Run_teardown (app : OpenXRTutorial) : OpenXRTutorial :=
  let app := app.DestroySwapchains
  let app := app.DestroyReferenceSpace
  let app := app.DestroySession
  let app := app.DestroyDebugMessenger
  app.DestroyInstance

/-- The part of `Run` from its loop on (lines 168-198), for an object on which the
setup part of `Run` has run: the loop against the answers for the ticks, then the
teardown. -/
def Run_after_setup (ticks : List TickAnswers) (app : OpenXRTutorial) : OpenXRTutorial :=
  (Run_loop ticks app).Run_teardown

/-- The calls of one pass through the per view loop of `RenderLayer`, for view `i`. -/
def RenderLayer_view_emitted (app : OpenXRTutorial) (rt : XrFrameAnswers) (i : Nat) :
    List Call :=
  [.xrAcquireSwapchainImage (app.m_colorSwapchainInfos.getD i default).swapchain,
   .xrAcquireSwapchainImage (app.m_depthSwapchainInfos.getD i default).swapchain,
   .xrWaitSwapchainImage (app.m_colorSwapchainInfos.getD i default).swapchain
      XR_INFINITE_DURATION,
   .xrWaitSwapchainImage (app.m_depthSwapchainInfos.getD i default).swapchain
      XR_INFINITE_DURATION,
   .SetRenderTargets
      ((app.m_colorSwapchainInfos.getD i default).views.getD (rt.acquired.getD i (0, 0)).1 none)
      ((app.m_depthSwapchainInfos.getD i default).views.getD (rt.acquired.getD i (0, 0)).2 none),
   .xrReleaseSwapchainImage (app.m_colorSwapchainInfos.getD i default).swapchain,
   .xrReleaseSwapchainImage (app.m_depthSwapchainInfos.getD i default).swapchain]

/-- The projection view that one pass through the per view loop of `RenderLayer`
stores for view `i` (lines 1119-1127). -/
def RenderLayer_projectionView (app : OpenXRTutorial) (rt : XrFrameAnswers) (i : Nat) :
    XrCompositionLayerProjectionView :=
  { pose := (rt.views.getD i default).pose
    fov := (rt.views.getD i default).fov
    subImage_swapchain := (app.m_colorSwapchainInfos.getD i default).swapchain
    subImage_imageRect_offset_x := 0
    subImage_imageRect_offset_y := 0
    subImage_imageRect_extent_width :=
      static_cast_int32_t (app.m_viewConfigurationViews.getD i default).recommendedImageRectWidth
    subImage_imageRect_extent_height :=
      static_cast_int32_t (app.m_viewConfigurationViews.getD i default).recommendedImageRectHeight
    subImage_imageArrayIndex := 0 }

/-! ## Classification of recorded calls -/

/-- The frame calls: `xrWaitFrame`, `xrBeginFrame`, `xrEndFrame`. -/
def isFrameCall : Call → Bool
  | .xrWaitFrame _ => true
  | .xrBeginFrame _ => true
  | .xrEndFrame _ _ => true
  | _ => false

/-- The calls of `xrBeginFrame`. -/
def isBeginFrame : Call → Bool
  | .xrBeginFrame _ => true
  | _ => false

/-- The calls of `xrEndFrame`. -/
def isEndFrame : Call → Bool
  | .xrEndFrame _ _ => true
  | _ => false

/-- The calls of `xrBeginSession`. -/
def isBeginSession : Call → Bool
  | .xrBeginSession _ _ => true
  | _ => false

/-- The swapchain image calls: acquire, wait, release. -/
def isSwapchainImageCall : Call → Bool
  | .xrAcquireSwapchainImage _ => true
  | .xrWaitSwapchainImage _ _ => true
  | .xrReleaseSwapchainImage _ => true
  | _ => false

/-- The three frame calls of one frame, in order. -/
def frameTriple (session : XrSession) (info : XrFrameEndInfo) : List Call :=
  [.xrWaitFrame session, .xrBeginFrame session, .xrEndFrame session info]

/-! ## Values used in scenarios and in the statements -/

/-- An object of the shape the setup part of `Run` leaves behind: a session, the
stereo view configuration with two views of 1024 by 1024, a reference space, and
per view a color swapchain and a depth swapchain of three images each. -/
def sample : OpenXRTutorial where
  m_xrInstance := 5
  m_debugUtilsMessenger := 6
  m_session := 1
  m_sessionState := XR_SESSION_STATE_UNKNOWN
  m_applicationRunning := true
  m_sessionRunning := false
  m_viewConfiguration := .XR_VIEW_CONFIGURATION_TYPE_PRIMARY_STEREO
  m_viewConfigurationViews := [⟨1024, 1024, 1⟩, ⟨1024, 1024, 1⟩]
  m_colorSwapchainInfos :=
    [⟨10, 1, [some ⟨10, 0⟩, some ⟨10, 1⟩, some ⟨10, 2⟩]⟩,
     ⟨11, 1, [some ⟨11, 0⟩, some ⟨11, 1⟩, some ⟨11, 2⟩]⟩]
  m_depthSwapchainInfos :=
    [⟨20, 2, [some ⟨20, 0⟩, some ⟨20, 1⟩, some ⟨20, 2⟩]⟩,
     ⟨21, 2, [some ⟨21, 0⟩, some ⟨21, 1⟩, some ⟨21, 2⟩]⟩]
  m_colorFormat := 28
  m_depthFormat := 55
  m_environmentBlendMode := .XR_ENVIRONMENT_BLEND_MODE_OPAQUE
  m_localSpace := 2
  trace := []

/-- The event stream of the scenario of C4, addressed to `session`. -/
def lifecycleEvents (session : XrSession) : List XrEventDataBuffer :=
  [XR_TYPE_EVENT_DATA_SESSION_STATE_CHANGED session XR_SESSION_STATE_READY,
   XR_TYPE_EVENT_DATA_SESSION_STATE_CHANGED session XR_SESSION_STATE_SYNCHRONIZED,
   XR_TYPE_EVENT_DATA_SESSION_STATE_CHANGED session XR_SESSION_STATE_VISIBLE,
   XR_TYPE_EVENT_DATA_SESSION_STATE_CHANGED session XR_SESSION_STATE_STOPPING,
   XR_TYPE_EVENT_DATA_SESSION_STATE_CHANGED session XR_SESSION_STATE_EXITING]

/-- The state of the session in which `RenderFrame` renders. -/
def activeState (state : XrSessionState) : Prop :=
  state = XR_SESSION_STATE_SYNCHRONIZED ∨ state = XR_SESSION_STATE_VISIBLE ∨
    state = XR_SESSION_STATE_FOCUSED

instance (state : XrSessionState) : Decidable (activeState state) := by
  unfold activeState; infer_instance

/-! ## Values and tests used in the statements on swapchains -/

/-- The calls of the per view loop of `RenderLayer`. -/
def isViewLoopCall : Call → Bool
  | .xrAcquireSwapchainImage _ => true
  | .xrWaitSwapchainImage _ _ => true
  | .xrReleaseSwapchainImage _ => true
  | .SetRenderTargets _ _ => true
  | _ => false

/-- The object with another trace. -/
def setTrace (app : OpenXRTutorial) (trace : List Call) : OpenXRTutorial :=
  { app with trace := trace }

/-- The object `sample` while the session is visible. -/
def sampleVisible : OpenXRTutorial :=
  { sample with m_sessionState := XR_SESSION_STATE_VISIBLE, m_sessionRunning := true }

/-- A format table for four Vulkan formats: the native codes 37, 44, 124 and 126
(`R8G8B8A8_UNORM`, `B8G8R8A8_UNORM`, `D16_UNORM`, `D32_SFLOAT`) and the texture
formats 28, 87, 55 and 40 they stand for, of which 55 and 40 are depth formats. -/
def sampleTable : TextureFormatTable where
  GetTextureFormatFromNative := fun nativeFormat =>
    if nativeFormat = 37 then 28
    else if nativeFormat = 44 then 87
    else if nativeFormat = 124 then 55
    else if nativeFormat = 126 then 40
    else TEX_FORMAT_UNKNOWN
  IsDepthStencil := fun format => format = 55 || format = 40

/-- The test of the scan for a depth format: a native code other than zero whose
texture format is a depth-stencil format. -/
def isDepthEntry (table : TextureFormatTable) (nativeFormat : Int) : Bool :=
  decide (nativeFormat ≠ 0) &&
    table.IsDepthStencil (table.GetTextureFormatFromNative nativeFormat)

/-- The test of the scan for a color format: a native code other than zero whose
texture format is not a depth-stencil format. -/
def isColorEntry (table : TextureFormatTable) (nativeFormat : Int) : Bool :=
  decide (nativeFormat ≠ 0) &&
    !table.IsDepthStencil (table.GetTextureFormatFromNative nativeFormat)

/-- The calls of `xrCreateSwapchain`. -/
def isCreateSwapchain : Call → Bool
  | .xrCreateSwapchain _ _ => true
  | _ => false

/-- The calls that the per view loop of `CreateSwapchains` makes for one view. -/
def CreateSwapchains_view_calls (session : XrSession) (nativeColorFormat nativeDepthFormat : Int)
    (view : XrViewConfigurationView) (answers : SwapchainAnswers) : List Call :=
  [.xrCreateSwapchain session
      (CreateSwapchains_createInfo
        (XR_SWAPCHAIN_USAGE_SAMPLED_BIT ||| XR_SWAPCHAIN_USAGE_COLOR_ATTACHMENT_BIT)
        nativeColorFormat view),
   .xrCreateSwapchain session
      (CreateSwapchains_createInfo
        (XR_SWAPCHAIN_USAGE_SAMPLED_BIT ||| XR_SWAPCHAIN_USAGE_DEPTH_STENCIL_ATTACHMENT_BIT)
        nativeDepthFormat view),
   .xrEnumerateSwapchainImages answers.colorSwapchain 0,
   .xrEnumerateSwapchainImages answers.colorSwapchain answers.colorSwapchainImageCount,
   .xrEnumerateSwapchainImages answers.depthSwapchain 0,
   .xrEnumerateSwapchainImages answers.depthSwapchain answers.depthSwapchainImageCount]

/-- The object `sample` before `CreateSwapchains` has run: no swapchains yet and
both texture formats unknown. -/
def sampleSetup : OpenXRTutorial :=
  { sample with
    m_colorSwapchainInfos := []
    m_depthSwapchainInfos := []
    m_colorFormat := TEX_FORMAT_UNKNOWN
    m_depthFormat := TEX_FORMAT_UNKNOWN }

/-- The message after which `CreateSwapchains` executes `DEBUG_BREAK` first, if any. -/
def firstFormatError (nativeColorFormat nativeDepthFormat : Int) :
    Option FormatNegotiationError :=
  if nativeColorFormat = 0 then some .noColorFormat
  else if nativeDepthFormat = 0 then some .noDepthFormat
  else none

/-- The messages that `CreateSwapchains` writes for the native formats it is left
with after the scan. -/
def CreateSwapchains_messages (nativeColorFormat nativeDepthFormat : Int) : List Call :=
  (if nativeColorFormat = 0 then [Call.cerr .noColorFormat] else []) ++
    (if nativeDepthFormat = 0 then [Call.cerr .noDepthFormat] else [])

/-- The object after the scan of `CreateSwapchains`: the two calls that enumerate
the formats are recorded and the chosen texture formats are stored. -/
def CreateSwapchains_stored (table : TextureFormatTable) (app : OpenXRTutorial)
    (rt : CreateSwapchainsAnswers) : OpenXRTutorial :=
  { app with
    m_colorFormat := (CreateSwapchains_scanned table app rt).m_colorFormat
    m_depthFormat := (CreateSwapchains_scanned table app rt).m_depthFormat
    trace := app.trace ++
      [.xrEnumerateSwapchainFormats app.m_session 0,
       .xrEnumerateSwapchainFormats app.m_session rt.formats.length] }

/-- The calls of `xrDestroySwapchain`. -/
def isDestroySwapchain : Call → Bool
  | .xrDestroySwapchain _ => true
  | _ => false

/-- A list of `SwapchainInfo` after the views of its first `k` entries were cleared. -/
def clearViewsPrefix : Nat → List SwapchainInfo → List SwapchainInfo
  | 0, infos => infos
  | _ + 1, [] => []
  | k + 1, info :: infos => { info with views := [] } :: clearViewsPrefix k infos

/-- The calls of one pass through the loop of `DestroySwapchains`, for the color
and the depth `SwapchainInfo` of a view. -/
def DestroySwapchains_view_calls (color depth : SwapchainInfo) : List Call :=
  [.views_clear color.swapchain color.views, .views_clear depth.swapchain depth.views,
   .xrDestroySwapchain color.swapchain, .xrDestroySwapchain depth.swapchain]

/-! ## Values and tests used in the statements on frames, events and teardown -/

/-- Answers for a frame of `sample`: two located views, color image 1 and depth
image 2 for the first view, image 0 of both swapchains for the second. -/
def sampleFrame : XrFrameAnswers :=
  ⟨100, true, 0, 3, [⟨⟨1⟩, ⟨2⟩⟩, ⟨⟨3⟩, ⟨4⟩⟩], [(1, 2), (0, 0)]⟩

/-- The object `sampleVisible` with a first view whose recommended width is 2^31. -/
def sampleWide : OpenXRTutorial :=
  { sampleVisible with
    m_viewConfigurationViews := [⟨2147483648, 1024, 1⟩, ⟨1024, 1024, 1⟩] }

/-- The calls that `RenderFrame` can make. -/
def isRenderFrameCall : Call → Bool
  | .xrWaitFrame _ => true
  | .xrBeginFrame _ => true
  | .xrEndFrame _ _ => true
  | .xrLocateViews _ _ _ _ _ => true
  | .xrAcquireSwapchainImage _ => true
  | .xrWaitSwapchainImage _ _ => true
  | .xrReleaseSwapchainImage _ => true
  | .SetRenderTargets _ _ => true
  | _ => false

/-- The calls of `xrDestroySpace`. -/
def isDestroySpace : Call → Bool
  | .xrDestroySpace _ => true
  | _ => false

/-- The calls of `xrCreateReferenceSpace`. -/
def isCreateReferenceSpace : Call → Bool
  | .xrCreateReferenceSpace _ _ => true
  | _ => false

/-- The calls of `xrEndSession`. -/
def isEndSession : Call → Bool
  | .xrEndSession _ => true
  | _ => false

/-! ## Auxiliary lemmas: what each function appends to the trace -/

theorem emit_nil (app : OpenXRTutorial) : app.emit [] = app := by
  cases app; simp [emit]

theorem emit_emit (app : OpenXRTutorial) (a b : List Call) :
    (app.emit a).emit b = app.emit (a ++ b) := by
  simp [emit, List.append_assoc]

theorem emit_trace (app : OpenXRTutorial) (a : List Call) :
    (app.emit a).trace = app.trace ++ a := rfl

theorem emit_m_session (app : OpenXRTutorial) (a : List Call) :
    (app.emit a).m_session = app.m_session := rfl

theorem emit_m_sessionState (app : OpenXRTutorial) (a : List Call) :
    (app.emit a).m_sessionState = app.m_sessionState := rfl

theorem emit_m_environmentBlendMode (app : OpenXRTutorial) (a : List Call) :
    (app.emit a).m_environmentBlendMode = app.m_environmentBlendMode := rfl

theorem PollEvents_event_m_session (app : OpenXRTutorial) (e : XrEventDataBuffer) :
    (PollEvents_event app e).m_session = app.m_session := by
  cases e with
  | XR_TYPE_EVENT_DATA_SESSION_STATE_CHANGED s1 state =>
      by_cases h : s1 = app.m_session
      · cases state <;> simp [PollEvents_event, emit, h]
      · simp [PollEvents_event, h]
  | _ => simp [PollEvents_event]

theorem PollEvents_event_trace (app : OpenXRTutorial) (e : XrEventDataBuffer) :
    ∃ calls, (PollEvents_event app e).trace = app.trace ++ calls ∧
      ∀ c ∈ calls, isFrameCall c = false ∧ isSwapchainImageCall c = false := by
  cases e with
  | XR_TYPE_EVENT_DATA_SESSION_STATE_CHANGED s1 state =>
      by_cases h : s1 = app.m_session
      · by_cases hr : state = XR_SESSION_STATE_READY
        · refine ⟨[.xrBeginSession app.m_session app.m_viewConfiguration], ?_, ?_⟩
          · simp [PollEvents_event, emit, h, hr]
          · simp [isFrameCall, isSwapchainImageCall]
        · by_cases hs : state = XR_SESSION_STATE_STOPPING
          · refine ⟨[.xrEndSession app.m_session], ?_, ?_⟩
            · simp [PollEvents_event, emit, h, hs]
            · simp [isFrameCall, isSwapchainImageCall]
          · refine ⟨[], ?_, ?_⟩
            · cases state <;> simp [PollEvents_event, emit, h] at hr hs ⊢
            · simp
      · exact ⟨[], by simp [PollEvents_event, h], by simp⟩
  | _ => exact ⟨[], by simp [PollEvents_event], by simp⟩

theorem PollEvents_m_session (evs : List XrEventDataBuffer) (app : OpenXRTutorial) :
    (app.PollEvents evs).m_session = app.m_session := by
  induction evs generalizing app with
  | nil => rfl
  | cons e evs ih =>
      simp only [PollEvents, List.foldl_cons] at ih ⊢
      rw [ih, PollEvents_event_m_session]

theorem PollEvents_trace (evs : List XrEventDataBuffer) (app : OpenXRTutorial) :
    ∃ calls, (app.PollEvents evs).trace = app.trace ++ calls ∧
      ∀ c ∈ calls, isFrameCall c = false ∧ isSwapchainImageCall c = false := by
  induction evs generalizing app with
  | nil => exact ⟨[], by simp [PollEvents], by simp⟩
  | cons e evs ih =>
      obtain ⟨c1, h1, p1⟩ := PollEvents_event_trace app e
      obtain ⟨c2, h2, p2⟩ := ih (PollEvents_event app e)
      refine ⟨c1 ++ c2, ?_, ?_⟩
      · simp only [PollEvents, List.foldl_cons] at h2 ⊢
        rw [h2, h1, List.append_assoc]
      · intro c hc
        rcases List.mem_append.mp hc with h | h
        · exact p1 c h
        · exact p2 c h

theorem RenderLayer_view_app (rt : XrFrameAnswers) (app : OpenXRTutorial)
    (info : RenderLayerInfo) (i : Nat) :
    ∃ calls, (RenderLayer_view rt (app, info) i).1 = app.emit calls ∧
      ∀ c ∈ calls, isFrameCall c = false := by
  refine ⟨[.xrAcquireSwapchainImage (app.m_colorSwapchainInfos.getD i default).swapchain,
      .xrAcquireSwapchainImage (app.m_depthSwapchainInfos.getD i default).swapchain,
      .xrWaitSwapchainImage (app.m_colorSwapchainInfos.getD i default).swapchain
        XR_INFINITE_DURATION,
      .xrWaitSwapchainImage (app.m_depthSwapchainInfos.getD i default).swapchain
        XR_INFINITE_DURATION,
      .SetRenderTargets
        ((app.m_colorSwapchainInfos.getD i default).views.getD (rt.acquired.getD i (0, 0)).1 none)
        ((app.m_depthSwapchainInfos.getD i default).views.getD (rt.acquired.getD i (0, 0)).2 none),
      .xrReleaseSwapchainImage (app.m_colorSwapchainInfos.getD i default).swapchain,
      .xrReleaseSwapchainImage (app.m_depthSwapchainInfos.getD i default).swapchain], ?_, ?_⟩
  · simp only [RenderLayer_view, emit_emit]
    rfl
  · simp [isFrameCall]

theorem RenderLayer_loop_app (rt : XrFrameAnswers) (is : List Nat) (app : OpenXRTutorial)
    (info : RenderLayerInfo) :
    ∃ calls, (is.foldl (RenderLayer_view rt) (app, info)).1 = app.emit calls ∧
      ∀ c ∈ calls, isFrameCall c = false := by
  induction is generalizing app info with
  | nil => exact ⟨[], by simp [emit_nil], by simp⟩
  | cons i is ih =>
      obtain ⟨c1, h1, p1⟩ := RenderLayer_view_app rt app info i
      obtain ⟨c2, h2, p2⟩ := ih (RenderLayer_view rt (app, info) i).1
        (RenderLayer_view rt (app, info) i).2
      refine ⟨c1 ++ c2, ?_, ?_⟩
      · rw [List.foldl_cons, ← emit_emit, ← h1]
        exact h2
      · intro c hc
        rcases List.mem_append.mp hc with h | h
        · exact p1 c h
        · exact p2 c h

theorem RenderLayer_app (app : OpenXRTutorial) (rt : XrFrameAnswers) (info : RenderLayerInfo) :
    ∃ calls, (app.RenderLayer rt info).app = app.emit calls ∧
      ∀ c ∈ calls, isFrameCall c = false := by
  by_cases h : rt.locateResult = XR_SUCCESS
  · obtain ⟨c2, h2, p2⟩ := RenderLayer_loop_app rt (List.range rt.views.length)
      (app.emit [.xrLocateViews app.m_session app.m_viewConfiguration info.predictedDisplayTime
        app.m_localSpace (app.m_viewConfigurationViews.length % 2 ^ 32)])
      { info with layerProjectionViews := vector_resize info.layerProjectionViews rt.views.length default }
    refine ⟨[.xrLocateViews app.m_session app.m_viewConfiguration info.predictedDisplayTime
        app.m_localSpace (app.m_viewConfigurationViews.length % 2 ^ 32)] ++ c2, ?_, ?_⟩
    · simp only [RenderLayer, h, ne_eq, not_true_eq_false, if_false]
      rw [h2, emit_emit]
    · intro c hc
      rcases List.mem_append.mp hc with h | h
      · simp at h; subst h; rfl
      · exact p2 c h
  · refine ⟨[.xrLocateViews app.m_session app.m_viewConfiguration info.predictedDisplayTime
        app.m_localSpace (app.m_viewConfigurationViews.length % 2 ^ 32)], ?_, ?_⟩
    · simp only [RenderLayer, h, ne_eq, not_false_eq_true, if_true]
    · simp [isFrameCall]

theorem RenderFrame_layers_app (app : OpenXRTutorial) (rt : XrFrameAnswers) :
    ∃ calls, (app.RenderFrame_layers rt).1 = app.emit calls ∧
      ∀ c ∈ calls, isFrameCall c = false := by
  unfold RenderFrame_layers
  obtain ⟨c, h, p⟩ := RenderLayer_app app rt
    { predictedDisplayTime := rt.predictedDisplayTime
      layers := []
      layerProjection := default
      layerProjectionViews := [] }
  by_cases ha : (app.sessionActive && rt.shouldRender) = true
  · refine ⟨c, ?_, p⟩
    simp only [ha, if_true]
    split <;> exact h
  · exact ⟨[], by simp [ha, emit_nil], by simp⟩

/-- The calls of one frame: `xrWaitFrame`, `xrBeginFrame`, calls that are not frame
calls, `xrEndFrame`. -/
theorem RenderFrame_shape (app : OpenXRTutorial) (rt : XrFrameAnswers) :
    ∃ mid info,
      app.RenderFrame rt = app.emit
        ([.xrWaitFrame app.m_session, .xrBeginFrame app.m_session] ++ mid ++
          [.xrEndFrame app.m_session info]) ∧
      ∀ c ∈ mid, isFrameCall c = false := by
  obtain ⟨mid, h, p⟩ := RenderFrame_layers_app
    ((app.emit [.xrWaitFrame app.m_session]).emit [.xrBeginFrame app.m_session]) rt
  refine ⟨mid,
    { displayTime := rt.predictedDisplayTime
      environmentBlendMode := app.m_environmentBlendMode
      layers := (((app.emit [.xrWaitFrame app.m_session]).emit
        [.xrBeginFrame app.m_session]).RenderFrame_layers rt).2.layers }, ?_, p⟩
  simp only [RenderFrame, emit_m_session]
  rw [h]
  simp [emit]

theorem filter_isFrameCall_eq_nil (l : List Call) (h : ∀ c ∈ l, isFrameCall c = false) :
    l.filter isFrameCall = [] := by
  rw [List.filter_eq_nil_iff]
  intro c hc
  simp [h c hc]

theorem RenderFrame_m_session (app : OpenXRTutorial) (rt : XrFrameAnswers) :
    (app.RenderFrame rt).m_session = app.m_session := by
  obtain ⟨mid, info, h, _⟩ := RenderFrame_shape app rt
  rw [h, emit_m_session]

theorem PollSystemEvents_m_session (app : OpenXRTutorial) (d : Bool) :
    (app.PollSystemEvents d).m_session = app.m_session := by
  cases d <;> rfl

theorem PollSystemEvents_trace (app : OpenXRTutorial) (d : Bool) :
    (app.PollSystemEvents d).trace = app.trace := by
  cases d <;> rfl

theorem Run_tick_m_session (app : OpenXRTutorial) (t : TickAnswers) :
    (app.Run_tick t).m_session = app.m_session := by
  unfold Run_tick
  simp only
  split
  · rw [RenderFrame_m_session, PollEvents_m_session, PollSystemEvents_m_session]
  · rw [PollEvents_m_session, PollSystemEvents_m_session]

/-- The frame calls emitted by one tick. -/
theorem Run_tick_frames (app : OpenXRTutorial) (t : TickAnswers) :
    ∃ calls, (app.Run_tick t).trace = app.trace ++ calls ∧
      ((((app.PollSystemEvents t.destroyRequested).PollEvents t.events).m_sessionRunning = true ∧
        ∃ info, calls.filter isFrameCall = frameTriple app.m_session info) ∨
       (((app.PollSystemEvents t.destroyRequested).PollEvents t.events).m_sessionRunning = false ∧
        calls.filter isFrameCall = [])) := by
  obtain ⟨pre, hpre, ppre⟩ := PollEvents_trace t.events (app.PollSystemEvents t.destroyRequested)
  have hs : ((app.PollSystemEvents t.destroyRequested).PollEvents t.events).m_session
      = app.m_session := by
    rw [PollEvents_m_session, PollSystemEvents_m_session]
  rw [PollSystemEvents_trace] at hpre
  have hpre0 := filter_isFrameCall_eq_nil pre (fun c hc => (ppre c hc).1)
  cases hr : ((app.PollSystemEvents t.destroyRequested).PollEvents t.events).m_sessionRunning with
  | true =>
      obtain ⟨mid, info, h, pmid⟩ := RenderFrame_shape
        ((app.PollSystemEvents t.destroyRequested).PollEvents t.events) t.frame
      refine ⟨pre ++ ([.xrWaitFrame app.m_session, .xrBeginFrame app.m_session] ++ mid ++
          [.xrEndFrame app.m_session info]), ?_, Or.inl ⟨rfl, info, ?_⟩⟩
      · simp only [Run_tick, hr, if_true]
        rw [h, emit_trace, hpre, hs, List.append_assoc]
      · simp [List.filter_append, hpre0, filter_isFrameCall_eq_nil mid pmid, isFrameCall,
          frameTriple]
  | false =>
      refine ⟨pre, ?_, Or.inr ⟨rfl, hpre0⟩⟩
      simp [Run_tick, hr, hpre]

/-- The frame calls emitted by the loop are whole frames, one after another. -/
theorem Run_loop_frames (ticks : List TickAnswers) (app : OpenXRTutorial) :
    ∃ (calls : List Call) (frames : List XrFrameEndInfo),
      (Run_loop ticks app).trace = app.trace ++ calls ∧
      calls.filter isFrameCall = frames.flatMap (frameTriple app.m_session) := by
  induction ticks generalizing app with
  | nil => exact ⟨[], [], by simp [Run_loop], by simp⟩
  | cons t ticks ih =>
      cases ha : app.m_applicationRunning with
      | false => exact ⟨[], [], by simp [Run_loop, ha], by simp⟩
      | true =>
          obtain ⟨c1, h1, p1⟩ := Run_tick_frames app t
          obtain ⟨c2, f2, h2, p2⟩ := ih (app.Run_tick t)
          rw [Run_tick_m_session] at p2
          rcases p1 with ⟨_, info, p1⟩ | ⟨_, p1⟩
          · refine ⟨c1 ++ c2, info :: f2, ?_, ?_⟩
            · simp only [Run_loop, ha, if_true]
              rw [h2, h1, List.append_assoc]
            · rw [List.filter_append, p1, p2, List.flatMap_cons]
          · refine ⟨c1 ++ c2, f2, ?_, ?_⟩
            · simp only [Run_loop, ha, if_true]
              rw [h2, h1, List.append_assoc]
            · rw [List.filter_append, p1, p2, List.nil_append]

theorem isBeginFrame_isFrameCall (c : Call) (h : isBeginFrame c = true) : isFrameCall c = true := by
  cases c <;> simp_all [isBeginFrame, isFrameCall]

theorem isEndFrame_isFrameCall (c : Call) (h : isEndFrame c = true) : isFrameCall c = true := by
  cases c <;> simp_all [isEndFrame, isFrameCall]

theorem countP_filter_isFrameCall (p : Call → Bool)
    (hp : ∀ c, p c = true → isFrameCall c = true) (l : List Call) :
    (l.filter isFrameCall).countP p = l.countP p := by
  induction l with
  | nil => rfl
  | cons c l ih =>
      cases hf : isFrameCall c with
      | true => simp [List.filter_cons, hf, List.countP_cons, ih]
      | false =>
          have hpc : p c = false := by
            cases hpc : p c with
            | false => rfl
            | true => rw [hp c hpc] at hf; cases hf
          simp [List.filter_cons, hf, List.countP_cons, ih, hpc]

theorem countP_isBeginFrame_frames (s : XrSession) (frames : List XrFrameEndInfo) :
    (frames.flatMap (frameTriple s)).countP isBeginFrame = frames.length := by
  induction frames with
  | nil => rfl
  | cons f fs ih =>
      rw [List.flatMap_cons, List.countP_append, ih]
      simp [frameTriple, List.countP_cons, isBeginFrame]
      omega

theorem countP_isEndFrame_frames (s : XrSession) (frames : List XrFrameEndInfo) :
    (frames.flatMap (frameTriple s)).countP isEndFrame = frames.length := by
  induction frames with
  | nil => rfl
  | cons f fs ih =>
      rw [List.flatMap_cons, List.countP_append, ih]
      simp [frameTriple, List.countP_cons, isEndFrame]
      omega

theorem PollEvents_append (app : OpenXRTutorial) (evs : List XrEventDataBuffer)
    (e : XrEventDataBuffer) :
    app.PollEvents (evs ++ [e]) = PollEvents_event (app.PollEvents evs) e := by
  simp [PollEvents, List.foldl_append]

/-! ## Auxiliary lemmas: the session flags and the layers of a frame -/

theorem PollEvents_event_applicationRunning (app : OpenXRTutorial) (e : XrEventDataBuffer)
    (h : app.m_applicationRunning = false) :
    (PollEvents_event app e).m_applicationRunning = false := by
  cases e with
  | XR_TYPE_EVENT_DATA_SESSION_STATE_CHANGED s1 state =>
      by_cases hs : s1 = app.m_session
      · cases state <;> simp [PollEvents_event, emit, hs, h]
      · simp [PollEvents_event, hs, h]
  | _ => simp [PollEvents_event, h]

theorem PollEvents_applicationRunning (evs : List XrEventDataBuffer) (app : OpenXRTutorial)
    (h : app.m_applicationRunning = false) :
    (app.PollEvents evs).m_applicationRunning = false := by
  induction evs generalizing app with
  | nil => exact h
  | cons e evs ih => exact ih _ (PollEvents_event_applicationRunning app e h)

theorem PollEvents_event_sessionRunning (app : OpenXRTutorial) (e : XrEventDataBuffer)
    (h : app.m_sessionRunning = false)
    (he : e ≠ XR_TYPE_EVENT_DATA_SESSION_STATE_CHANGED app.m_session XR_SESSION_STATE_READY) :
    (PollEvents_event app e).m_sessionRunning = false := by
  cases e with
  | XR_TYPE_EVENT_DATA_SESSION_STATE_CHANGED s1 state =>
      by_cases hs : s1 = app.m_session
      · subst hs
        cases state <;> simp_all [PollEvents_event, emit]
      · simp [PollEvents_event, hs, h]
  | _ => simp [PollEvents_event, h]

theorem PollEvents_sessionRunning (evs : List XrEventDataBuffer) (app : OpenXRTutorial)
    (h : app.m_sessionRunning = false)
    (he : ∀ e ∈ evs,
      e ≠ XR_TYPE_EVENT_DATA_SESSION_STATE_CHANGED app.m_session XR_SESSION_STATE_READY) :
    (app.PollEvents evs).m_sessionRunning = false := by
  induction evs generalizing app with
  | nil => exact h
  | cons e evs ih =>
      refine ih _ (PollEvents_event_sessionRunning app e h (he e (List.mem_cons_self _ _))) ?_
      intro e1 h1
      rw [PollEvents_event_m_session]
      exact he e1 (List.mem_cons_of_mem _ h1)

theorem PollEvents_event_sessionState (app : OpenXRTutorial) (e : XrEventDataBuffer)
    (he : ∀ state, e ≠ XR_TYPE_EVENT_DATA_SESSION_STATE_CHANGED app.m_session state) :
    (PollEvents_event app e).m_sessionState = app.m_sessionState := by
  cases e with
  | XR_TYPE_EVENT_DATA_SESSION_STATE_CHANGED s1 state =>
      by_cases hs : s1 = app.m_session
      · subst hs
        exact absurd rfl (he state)
      · simp [PollEvents_event, hs]
  | _ => simp [PollEvents_event]

theorem PollEvents_sessionState (evs : List XrEventDataBuffer) (app : OpenXRTutorial)
    (he : ∀ e ∈ evs, ∀ state,
      e ≠ XR_TYPE_EVENT_DATA_SESSION_STATE_CHANGED app.m_session state) :
    (app.PollEvents evs).m_sessionState = app.m_sessionState := by
  induction evs generalizing app with
  | nil => rfl
  | cons e evs ih =>
      have h1 := PollEvents_event_sessionState app e (he e (List.mem_cons_self _ _))
      have h2 := ih (PollEvents_event app e) (by
        intro e1 h1 state
        rw [PollEvents_event_m_session]
        exact he e1 (List.mem_cons_of_mem _ h1) state)
      simp only [PollEvents, List.foldl_cons] at h2 ⊢
      rw [h2, h1]

theorem RenderLayer_loop_layers (rt : XrFrameAnswers) (is : List Nat) (app : OpenXRTutorial)
    (info : RenderLayerInfo) :
    (is.foldl (RenderLayer_view rt) (app, info)).2.layers = info.layers := by
  induction is generalizing app info with
  | nil => rfl
  | cons i is ih =>
      rw [List.foldl_cons]
      exact ih (RenderLayer_view rt (app, info) i).1 (RenderLayer_view rt (app, info) i).2

theorem RenderLayer_failure (app : OpenXRTutorial) (rt : XrFrameAnswers) (info : RenderLayerInfo)
    (h : rt.locateResult ≠ XR_SUCCESS) :
    (app.RenderLayer rt info).returned = false ∧
    (app.RenderLayer rt info).renderLayerInfo = info ∧
    (app.RenderLayer rt info).app = app.emit
      [.xrLocateViews app.m_session app.m_viewConfiguration info.predictedDisplayTime
        app.m_localSpace (app.m_viewConfigurationViews.length % 2 ^ 32)] := by
  simp [RenderLayer, h]

theorem RenderLayer_success (app : OpenXRTutorial) (rt : XrFrameAnswers) (info : RenderLayerInfo)
    (h : rt.locateResult = XR_SUCCESS) :
    (app.RenderLayer rt info).returned = true ∧
    (app.RenderLayer rt info).renderLayerInfo.layers = info.layers := by
  simp [RenderLayer, h, RenderLayer_loop_layers]

theorem vector_resize_length {α : Type} (xs : List α) (n : Nat) (v : α) :
    (vector_resize xs n v).length = n := by
  simp [vector_resize]
  omega

theorem RenderLayer_loop_length (rt : XrFrameAnswers) (is : List Nat) (app : OpenXRTutorial)
    (info : RenderLayerInfo) :
    (is.foldl (RenderLayer_view rt) (app, info)).2.layerProjectionViews.length =
      info.layerProjectionViews.length := by
  induction is generalizing app info with
  | nil => rfl
  | cons i is ih =>
      rw [List.foldl_cons,
        ih (RenderLayer_view rt (app, info) i).1 (RenderLayer_view rt (app, info) i).2]
      simp [RenderLayer_view]

theorem RenderLayer_success_layer (app : OpenXRTutorial) (rt : XrFrameAnswers)
    (info : RenderLayerInfo) (h : rt.locateResult = XR_SUCCESS) :
    (app.RenderLayer rt info).renderLayerInfo.layerProjection.space = app.m_localSpace ∧
    (app.RenderLayer rt info).renderLayerInfo.layerProjection.views.length = rt.views.length := by
  obtain ⟨calls, hc, _⟩ := RenderLayer_loop_app rt (List.range rt.views.length)
    (app.emit [.xrLocateViews app.m_session app.m_viewConfiguration info.predictedDisplayTime
      app.m_localSpace (app.m_viewConfigurationViews.length % 2 ^ 32)])
    { info with
      layerProjectionViews := vector_resize info.layerProjectionViews rt.views.length default }
  constructor
  · simp only [RenderLayer, h, ne_eq, not_true_eq_false, if_false]
    rw [hc]
    rfl
  · simp only [RenderLayer, h, ne_eq, not_true_eq_false, if_false]
    rw [RenderLayer_loop_length, vector_resize_length]

theorem sessionActive_iff (app : OpenXRTutorial) :
    app.sessionActive = true ↔ activeState app.m_sessionState := by
  simp [sessionActive, activeState, or_assoc]

theorem RenderFrame_layers_cases (app : OpenXRTutorial) (rt : XrFrameAnswers) :
    ∃ calls : List Call,
      (app.RenderFrame_layers rt).1 = app.emit calls ∧
      (∀ c ∈ calls, isFrameCall c = false) ∧
      if activeState app.m_sessionState ∧ rt.shouldRender = true ∧ rt.locateResult = XR_SUCCESS
      then
        (app.RenderFrame_layers rt).2.layers =
          [(app.RenderLayer rt ⟨rt.predictedDisplayTime, [], default, []⟩).renderLayerInfo.layerProjection]
      else
        (app.RenderFrame_layers rt).2.layers = [] ∧
          ∀ c ∈ calls, isSwapchainImageCall c = false := by
  by_cases ha : activeState app.m_sessionState ∧ rt.shouldRender = true
  · have hcond : (app.sessionActive && rt.shouldRender) = true := by
      rw [Bool.and_eq_true]
      exact ⟨(sessionActive_iff app).mpr ha.1, ha.2⟩
    by_cases hl : rt.locateResult = XR_SUCCESS
    · obtain ⟨calls, h, p⟩ := RenderLayer_app app rt ⟨rt.predictedDisplayTime, [], default, []⟩
      obtain ⟨hr, hlay⟩ := RenderLayer_success app rt ⟨rt.predictedDisplayTime, [], default, []⟩ hl
      refine ⟨calls, ?_, p, ?_⟩
      · simp only [RenderFrame_layers, hcond, if_true, hr]
        exact h
      · rw [if_pos ⟨ha.1, ha.2, hl⟩]
        simp only [RenderFrame_layers, hcond, if_true, hr, hlay]
        rfl
    · obtain ⟨hr, hinfo, happ⟩ := RenderLayer_failure app rt ⟨rt.predictedDisplayTime, [], default, []⟩ hl
      refine ⟨[.xrLocateViews app.m_session app.m_viewConfiguration rt.predictedDisplayTime
        app.m_localSpace (app.m_viewConfigurationViews.length % 2 ^ 32)], ?_, ?_, ?_⟩
      · simp only [RenderFrame_layers, hcond, if_true, hr]
        exact happ
      · simp [isFrameCall]
      · rw [if_neg (fun h => hl h.2.2)]
        refine ⟨?_, by simp [isSwapchainImageCall]⟩
        simp only [RenderFrame_layers, hcond, if_true, hr, hinfo]
        rfl
  · have hcond : (app.sessionActive && rt.shouldRender) = false := by
      rw [Bool.and_eq_false_iff]
      by_cases h1 : activeState app.m_sessionState
      · right
        cases hsr : rt.shouldRender with
        | false => rfl
        | true => exact absurd ⟨h1, hsr⟩ ha
      · left
        cases hsa : app.sessionActive with
        | false => rfl
        | true => exact absurd ((sessionActive_iff app).mp hsa) h1
    refine ⟨[], ?_, by simp, ?_⟩
    · simp [RenderFrame_layers, hcond, emit_nil]
    · rw [if_neg (fun h => ha ⟨h.1, h.2.1⟩)]
      refine ⟨?_, by simp⟩
      simp only [RenderFrame_layers, hcond]
      rfl

/-! ## Auxiliary lemmas: frames, the format scan, swapchain creation and destruction -/

theorem emit_eq_setTrace (app : OpenXRTutorial) (calls : List Call) :
    app.emit calls = app.setTrace (app.trace ++ calls) := rfl

theorem PollEvents_event_setTrace (app : OpenXRTutorial) (tr : List Call)
    (e : XrEventDataBuffer) :
    ∃ tr1, PollEvents_event (app.setTrace tr) e = (PollEvents_event app e).setTrace tr1 := by
  cases e with
  | XR_TYPE_EVENT_DATA_SESSION_STATE_CHANGED s1 state =>
      by_cases hs : s1 = app.m_session
      · by_cases hr : state = XR_SESSION_STATE_READY
        · refine ⟨tr ++ [.xrBeginSession app.m_session app.m_viewConfiguration], ?_⟩
          simp [PollEvents_event, setTrace, emit, hs, hr]
        · by_cases hst : state = XR_SESSION_STATE_STOPPING
          · refine ⟨tr ++ [.xrEndSession app.m_session], ?_⟩
            simp [PollEvents_event, setTrace, emit, hs, hst]
          · refine ⟨tr, ?_⟩
            cases state <;> simp [PollEvents_event, setTrace, emit, hs] at hr hst ⊢
      · exact ⟨tr, by simp [PollEvents_event, setTrace, hs]⟩
  | _ => exact ⟨tr, by simp [PollEvents_event, setTrace]⟩

theorem PollEvents_setTrace (evs : List XrEventDataBuffer) (app : OpenXRTutorial)
    (tr : List Call) :
    ∃ tr1, (app.setTrace tr).PollEvents evs = (app.PollEvents evs).setTrace tr1 := by
  induction evs generalizing app tr with
  | nil => exact ⟨tr, rfl⟩
  | cons e evs ih =>
      obtain ⟨tr1, h1⟩ := PollEvents_event_setTrace app tr e
      obtain ⟨tr2, h2⟩ := ih (PollEvents_event app e) tr1
      refine ⟨tr2, ?_⟩
      simp only [PollEvents, List.foldl_cons] at h2 ⊢
      rw [h1, h2]

theorem PollSystemEvents_setTrace (app : OpenXRTutorial) (tr : List Call) (d : Bool) :
    (app.setTrace tr).PollSystemEvents d = (app.PollSystemEvents d).setTrace tr := by
  cases d <;> rfl

theorem RenderLayer_view_calls (rt : XrFrameAnswers) (app : OpenXRTutorial)
    (info : RenderLayerInfo) (i : Nat) :
    ∃ calls, (RenderLayer_view rt (app, info) i).1 = app.emit calls ∧
      ∀ c ∈ calls, isViewLoopCall c = true := by
  refine ⟨[.xrAcquireSwapchainImage (app.m_colorSwapchainInfos.getD i default).swapchain,
      .xrAcquireSwapchainImage (app.m_depthSwapchainInfos.getD i default).swapchain,
      .xrWaitSwapchainImage (app.m_colorSwapchainInfos.getD i default).swapchain
        XR_INFINITE_DURATION,
      .xrWaitSwapchainImage (app.m_depthSwapchainInfos.getD i default).swapchain
        XR_INFINITE_DURATION,
      .SetRenderTargets
        ((app.m_colorSwapchainInfos.getD i default).views.getD (rt.acquired.getD i (0, 0)).1 none)
        ((app.m_depthSwapchainInfos.getD i default).views.getD (rt.acquired.getD i (0, 0)).2 none),
      .xrReleaseSwapchainImage (app.m_colorSwapchainInfos.getD i default).swapchain,
      .xrReleaseSwapchainImage (app.m_depthSwapchainInfos.getD i default).swapchain], ?_, ?_⟩
  · simp only [RenderLayer_view, emit_emit]
    rfl
  · simp [isViewLoopCall]

theorem RenderLayer_loop_calls (rt : XrFrameAnswers) (is : List Nat) (app : OpenXRTutorial)
    (info : RenderLayerInfo) :
    ∃ calls, (is.foldl (RenderLayer_view rt) (app, info)).1 = app.emit calls ∧
      ∀ c ∈ calls, isViewLoopCall c = true := by
  induction is generalizing app info with
  | nil => exact ⟨[], by simp [emit_nil], by simp⟩
  | cons i is ih =>
      obtain ⟨c1, h1, p1⟩ := RenderLayer_view_calls rt app info i
      obtain ⟨c2, h2, p2⟩ := ih (RenderLayer_view rt (app, info) i).1
        (RenderLayer_view rt (app, info) i).2
      refine ⟨c1 ++ c2, ?_, ?_⟩
      · rw [List.foldl_cons, ← emit_emit, ← h1]
        exact h2
      · intro c hc
        rcases List.mem_append.mp hc with h | h
        · exact p1 c h
        · exact p2 c h

/-- What `RenderLayer` appends: one `xrLocateViews` at the display time of the
`RenderLayerInfo`, then only calls of the per view loop. -/
theorem RenderLayer_calls (app : OpenXRTutorial) (rt : XrFrameAnswers) (info : RenderLayerInfo) :
    ∃ rest, (app.RenderLayer rt info).app = app.emit
        (.xrLocateViews app.m_session app.m_viewConfiguration info.predictedDisplayTime
          app.m_localSpace (app.m_viewConfigurationViews.length % 2 ^ 32) :: rest) ∧
      ∀ c ∈ rest, isViewLoopCall c = true := by
  by_cases h : rt.locateResult = XR_SUCCESS
  · obtain ⟨c2, h2, p2⟩ := RenderLayer_loop_calls rt (List.range rt.views.length)
      (app.emit [.xrLocateViews app.m_session app.m_viewConfiguration info.predictedDisplayTime
        app.m_localSpace (app.m_viewConfigurationViews.length % 2 ^ 32)])
      { info with
        layerProjectionViews := vector_resize info.layerProjectionViews rt.views.length default }
    refine ⟨c2, ?_, p2⟩
    simp only [RenderLayer, h, ne_eq, not_true_eq_false, if_false]
    rw [h2, emit_emit]
    rfl
  · exact ⟨[], by simp only [RenderLayer, h, ne_eq, not_false_eq_true, if_true], by simp⟩

theorem RenderFrame_layers_calls (app : OpenXRTutorial) (rt : XrFrameAnswers) :
    ∃ calls, (app.RenderFrame_layers rt).1 = app.emit calls ∧
      (calls = [] ∨ ∃ rest, calls =
          .xrLocateViews app.m_session app.m_viewConfiguration rt.predictedDisplayTime
            app.m_localSpace (app.m_viewConfigurationViews.length % 2 ^ 32) :: rest ∧
        ∀ c ∈ rest, isViewLoopCall c = true) := by
  unfold RenderFrame_layers
  obtain ⟨rest, h, p⟩ := RenderLayer_calls app rt ⟨rt.predictedDisplayTime, [], default, []⟩
  by_cases ha : (app.sessionActive && rt.shouldRender) = true
  · refine ⟨_, ?_, Or.inr ⟨rest, rfl, p⟩⟩
    simp only [ha, if_true]
    split <;> exact h
  · exact ⟨[], by simp [ha, emit_nil], Or.inl rfl⟩

theorem scan_body_depth_frozen (table : TextureFormatTable) (s : FormatScan) (f : Int)
    (h : s.nativeDepthFormat ≠ 0) :
    (CreateSwapchains_scan_body table s f).nativeDepthFormat = s.nativeDepthFormat ∧
    (CreateSwapchains_scan_body table s f).m_depthFormat = s.m_depthFormat := by
  unfold CreateSwapchains_scan_body
  simp only
  split <;> (try split) <;> simp_all

theorem scan_body_color_frozen (table : TextureFormatTable) (s : FormatScan) (f : Int)
    (h : s.nativeColorFormat ≠ 0) :
    (CreateSwapchains_scan_body table s f).nativeColorFormat = s.nativeColorFormat ∧
    (CreateSwapchains_scan_body table s f).m_colorFormat = s.m_colorFormat := by
  unfold CreateSwapchains_scan_body
  simp only
  split <;> (try split) <;> simp_all

theorem scan_depth_frozen (table : TextureFormatTable) (formats : List Int) (s : FormatScan)
    (h : s.nativeDepthFormat ≠ 0) :
    (CreateSwapchains_scan table formats s).nativeDepthFormat = s.nativeDepthFormat ∧
    (CreateSwapchains_scan table formats s).m_depthFormat = s.m_depthFormat := by
  induction formats generalizing s with
  | nil => exact ⟨rfl, rfl⟩
  | cons f formats ih =>
      obtain ⟨h1, h2⟩ := scan_body_depth_frozen table s f h
      simp only [CreateSwapchains_scan]
      split
      · exact ⟨h1, h2⟩
      · obtain ⟨h3, h4⟩ := ih (CreateSwapchains_scan_body table s f) (by rw [h1]; exact h)
        exact ⟨h3.trans h1, h4.trans h2⟩

theorem scan_color_frozen (table : TextureFormatTable) (formats : List Int) (s : FormatScan)
    (h : s.nativeColorFormat ≠ 0) :
    (CreateSwapchains_scan table formats s).nativeColorFormat = s.nativeColorFormat ∧
    (CreateSwapchains_scan table formats s).m_colorFormat = s.m_colorFormat := by
  induction formats generalizing s with
  | nil => exact ⟨rfl, rfl⟩
  | cons f formats ih =>
      obtain ⟨h1, h2⟩ := scan_body_color_frozen table s f h
      simp only [CreateSwapchains_scan]
      split
      · exact ⟨h1, h2⟩
      · obtain ⟨h3, h4⟩ := ih (CreateSwapchains_scan_body table s f) (by rw [h1]; exact h)
        exact ⟨h3.trans h1, h4.trans h2⟩

theorem scan_depth_first (table : TextureFormatTable) (formats : List Int) (s : FormatScan)
    (h : s.nativeDepthFormat = 0) :
    match formats.find? (isDepthEntry table) with
    | some d =>
        (CreateSwapchains_scan table formats s).nativeDepthFormat = d ∧
        (CreateSwapchains_scan table formats s).m_depthFormat =
          table.GetTextureFormatFromNative d
    | none => (CreateSwapchains_scan table formats s).nativeDepthFormat = 0 := by
  induction formats generalizing s with
  | nil => simpa using h
  | cons f formats ih =>
      by_cases hp : isDepthEntry table f = true
      · have hf : f ≠ 0 := by
          simp [isDepthEntry] at hp; exact hp.1
        have hds : table.IsDepthStencil (table.GetTextureFormatFromNative f) = true := by
          simp [isDepthEntry] at hp; exact hp.2
        have hb : (CreateSwapchains_scan_body table s f).nativeDepthFormat = f ∧
            (CreateSwapchains_scan_body table s f).m_depthFormat =
              table.GetTextureFormatFromNative f := by
          simp [CreateSwapchains_scan_body, hds, h]
        simp only [List.find?_cons, hp, CreateSwapchains_scan]
        split
        · exact hb
        · obtain ⟨h3, h4⟩ := scan_depth_frozen table formats
            (CreateSwapchains_scan_body table s f) (by rw [hb.1]; exact hf)
          exact ⟨h3.trans hb.1, h4.trans hb.2⟩
      · have hb : (CreateSwapchains_scan_body table s f).nativeDepthFormat = 0 := by
          unfold CreateSwapchains_scan_body
          simp only
          split
          · rename_i hds
            have hf : f = 0 := by
              by_contra hne
              exact hp (by simp [isDepthEntry, hne, hds])
            simp [h, hf]
          · split <;> simp [h]
        have hnb : ¬ ((CreateSwapchains_scan_body table s f).nativeColorFormat ≠ 0 ∧
            (CreateSwapchains_scan_body table s f).nativeDepthFormat ≠ 0) := by
          intro hh; exact hh.2 hb
        simp only [List.find?_cons, hp, CreateSwapchains_scan, hnb, if_false]
        exact ih (CreateSwapchains_scan_body table s f) hb

theorem scan_color_first (table : TextureFormatTable) (formats : List Int) (s : FormatScan)
    (h : s.nativeColorFormat = 0) :
    match formats.find? (isColorEntry table) with
    | some c =>
        (CreateSwapchains_scan table formats s).nativeColorFormat = c ∧
        (CreateSwapchains_scan table formats s).m_colorFormat =
          table.GetTextureFormatFromNative c
    | none => (CreateSwapchains_scan table formats s).nativeColorFormat = 0 := by
  induction formats generalizing s with
  | nil => simpa using h
  | cons f formats ih =>
      by_cases hp : isColorEntry table f = true
      · have hf : f ≠ 0 := by
          simp [isColorEntry] at hp; exact hp.1
        have hds : table.IsDepthStencil (table.GetTextureFormatFromNative f) = false := by
          simp [isColorEntry] at hp; exact hp.2
        have hb : (CreateSwapchains_scan_body table s f).nativeColorFormat = f ∧
            (CreateSwapchains_scan_body table s f).m_colorFormat =
              table.GetTextureFormatFromNative f := by
          simp [CreateSwapchains_scan_body, hds, h]
        simp only [List.find?_cons, hp, CreateSwapchains_scan]
        split
        · exact hb
        · obtain ⟨h3, h4⟩ := scan_color_frozen table formats
            (CreateSwapchains_scan_body table s f) (by rw [hb.1]; exact hf)
          exact ⟨h3.trans hb.1, h4.trans hb.2⟩
      · have hb : (CreateSwapchains_scan_body table s f).nativeColorFormat = 0 := by
          unfold CreateSwapchains_scan_body
          simp only
          split
          · split <;> simp [h]
          · rename_i hds
            have hf : f = 0 := by
              by_contra hne
              exact hp (by simp [isColorEntry, hne, hds])
            simp [h, hf]
        have hnb : ¬ ((CreateSwapchains_scan_body table s f).nativeColorFormat ≠ 0 ∧
            (CreateSwapchains_scan_body table s f).nativeDepthFormat ≠ 0) := by
          intro hh; exact hh.1 hb
        simp only [List.find?_cons, hp, CreateSwapchains_scan, hnb, if_false]
        exact ih (CreateSwapchains_scan_body table s f) hb

theorem range_flatMap_getD {α β : Type} [Inhabited α] (l : List α) (g : α → List β) :
    (List.range l.length).flatMap (fun i => g (l.getD i default)) = l.flatMap g := by
  induction l with
  | nil => rfl
  | cons a l ih =>
      rw [List.length_cons, List.range_succ_eq_map, List.flatMap_cons, List.flatMap_map]
      simp [← ih]

theorem CreateSwapchains_view_shape (rt : CreateSwapchainsAnswers) (nc nd : Int)
    (app : OpenXRTutorial) (i : Nat) :
    (CreateSwapchains_view rt nc nd app i).trace =
      app.trace ++ CreateSwapchains_view_calls app.m_session nc nd
        (app.m_viewConfigurationViews.getD i default) (rt.swapchains.getD i default) ∧
    (CreateSwapchains_view rt nc nd app i).m_session = app.m_session ∧
    (CreateSwapchains_view rt nc nd app i).m_viewConfigurationViews =
      app.m_viewConfigurationViews ∧
    (CreateSwapchains_view rt nc nd app i).m_colorSwapchainInfos.length =
      app.m_colorSwapchainInfos.length ∧
    (CreateSwapchains_view rt nc nd app i).m_depthSwapchainInfos.length =
      app.m_depthSwapchainInfos.length := by
  simp [CreateSwapchains_view, CreateSwapchains_view_calls, emit]

theorem CreateSwapchains_fold_shape (rt : CreateSwapchainsAnswers) (nc nd : Int)
    (is : List Nat) (app : OpenXRTutorial) :
    (is.foldl (CreateSwapchains_view rt nc nd) app).trace =
      app.trace ++ is.flatMap (fun i => CreateSwapchains_view_calls app.m_session nc nd
        (app.m_viewConfigurationViews.getD i default) (rt.swapchains.getD i default)) ∧
    (is.foldl (CreateSwapchains_view rt nc nd) app).m_session = app.m_session ∧
    (is.foldl (CreateSwapchains_view rt nc nd) app).m_viewConfigurationViews =
      app.m_viewConfigurationViews ∧
    (is.foldl (CreateSwapchains_view rt nc nd) app).m_colorSwapchainInfos.length =
      app.m_colorSwapchainInfos.length ∧
    (is.foldl (CreateSwapchains_view rt nc nd) app).m_depthSwapchainInfos.length =
      app.m_depthSwapchainInfos.length := by
  induction is generalizing app with
  | nil => simp
  | cons i is ih =>
      obtain ⟨h1, h2, h3, h4, h5⟩ := CreateSwapchains_view_shape rt nc nd app i
      obtain ⟨k1, k2, k3, k4, k5⟩ := ih (CreateSwapchains_view rt nc nd app i)
      rw [List.foldl_cons]
      refine ⟨?_, k2.trans h2, k3.trans h3, k4.trans h4, k5.trans h5⟩
      rw [k1, h1, h2, h3, List.flatMap_cons, List.append_assoc]

/-- What the part of `CreateSwapchains` after the format checks does to the trace
and to the sizes of the two vectors. -/
theorem CreateSwapchains_loop_shape (rt : CreateSwapchainsAnswers) (nc nd : Int)
    (app : OpenXRTutorial) :
    (CreateSwapchains_loop rt nc nd app).trace =
      app.trace ++ (List.range app.m_viewConfigurationViews.length).flatMap
        (fun i => CreateSwapchains_view_calls app.m_session nc nd
          (app.m_viewConfigurationViews.getD i default) (rt.swapchains.getD i default)) ∧
    (CreateSwapchains_loop rt nc nd app).m_colorSwapchainInfos.length =
      app.m_viewConfigurationViews.length ∧
    (CreateSwapchains_loop rt nc nd app).m_depthSwapchainInfos.length =
      app.m_viewConfigurationViews.length := by
  obtain ⟨k1, _, _, k4, k5⟩ := CreateSwapchains_fold_shape rt nc nd
    (List.range app.m_viewConfigurationViews.length)
    { app with
      m_colorSwapchainInfos :=
        vector_resize app.m_colorSwapchainInfos app.m_viewConfigurationViews.length default
      m_depthSwapchainInfos :=
        vector_resize app.m_depthSwapchainInfos app.m_viewConfigurationViews.length default }
  refine ⟨k1, ?_, ?_⟩
  · exact k4.trans (vector_resize_length _ _ _)
  · exact k5.trans (vector_resize_length _ _ _)

theorem CreateSwapchains_loop_creates (rt : CreateSwapchainsAnswers) (nc nd : Int)
    (app : OpenXRTutorial) :
    ∃ calls : List Call,
      (CreateSwapchains_loop rt nc nd app).trace = app.trace ++ calls ∧
      calls.filter isCreateSwapchain =
        app.m_viewConfigurationViews.flatMap (fun view =>
          [Call.xrCreateSwapchain app.m_session
              (CreateSwapchains_createInfo
                (XR_SWAPCHAIN_USAGE_SAMPLED_BIT ||| XR_SWAPCHAIN_USAGE_COLOR_ATTACHMENT_BIT)
                nc view),
           Call.xrCreateSwapchain app.m_session
              (CreateSwapchains_createInfo
                (XR_SWAPCHAIN_USAGE_SAMPLED_BIT |||
                  XR_SWAPCHAIN_USAGE_DEPTH_STENCIL_ATTACHMENT_BIT)
                nd view)]) := by
  refine ⟨_, (CreateSwapchains_loop_shape rt nc nd app).1, ?_⟩
  rw [List.filter_flatMap]
  simp only [CreateSwapchains_view_calls, List.filter, isCreateSwapchain]
  exact range_flatMap_getD app.m_viewConfigurationViews (fun view =>
    [Call.xrCreateSwapchain app.m_session
        (CreateSwapchains_createInfo
          (XR_SWAPCHAIN_USAGE_SAMPLED_BIT ||| XR_SWAPCHAIN_USAGE_COLOR_ATTACHMENT_BIT)
          nc view),
     Call.xrCreateSwapchain app.m_session
        (CreateSwapchains_createInfo
          (XR_SWAPCHAIN_USAGE_SAMPLED_BIT |||
            XR_SWAPCHAIN_USAGE_DEPTH_STENCIL_ATTACHMENT_BIT)
          nd view)])

theorem CreateSwapchains_create_stops (rt : CreateSwapchainsAnswers) (nc nd : Int)
    (app : OpenXRTutorial) (e : FormatNegotiationError)
    (he : firstFormatError nc nd = some e) :
    CreateSwapchains_create .stops rt nc nd app =
      { stopped := some e, app := app.emit [.cerr e] } := by
  by_cases hc : nc = 0 <;> by_cases hd : nd = 0 <;>
    simp [firstFormatError, hc, hd] at he <;>
    subst he <;>
    simp [CreateSwapchains_create, hc, hd]

theorem CreateSwapchains_eq (debugBreak : DEBUG_BREAK) (table : TextureFormatTable)
    (app : OpenXRTutorial) (rt : CreateSwapchainsAnswers) :
    CreateSwapchains debugBreak table app rt =
      CreateSwapchains_create debugBreak rt
        (CreateSwapchains_scanned table app rt).nativeColorFormat
        (CreateSwapchains_scanned table app rt).nativeDepthFormat
        (CreateSwapchains_stored table app rt) := rfl

theorem CreateSwapchains_messages_filter (nc nd : Int) :
    (CreateSwapchains_messages nc nd).filter isCreateSwapchain = [] := by
  by_cases hc : nc = 0 <;> by_cases hd : nd = 0 <;>
    simp [CreateSwapchains_messages, hc, hd, isCreateSwapchain]

theorem CreateSwapchains_create_returns (rt : CreateSwapchainsAnswers) (nc nd : Int)
    (app : OpenXRTutorial) :
    CreateSwapchains_create .returns rt nc nd app =
      { stopped := none
        app := CreateSwapchains_loop rt nc nd (app.emit (CreateSwapchains_messages nc nd)) } := by
  by_cases hc : nc = 0 <;> by_cases hd : nd = 0 <;>
    simp [CreateSwapchains_create, CreateSwapchains_messages, hc, hd, emit_emit, emit_nil]

theorem CreateSwapchains_create_found (debugBreak : DEBUG_BREAK)
    (rt : CreateSwapchainsAnswers) (nc nd : Int) (app : OpenXRTutorial)
    (hc : nc ≠ 0) (hd : nd ≠ 0) :
    CreateSwapchains_create debugBreak rt nc nd app =
      { stopped := none, app := CreateSwapchains_loop rt nc nd app } := by
  simp [CreateSwapchains_create, hc, hd]

/-- When `CreateSwapchains_create` is not stopped, it has run the per view loop,
after writing at most the two messages. -/
theorem CreateSwapchains_create_completed (debugBreak : DEBUG_BREAK)
    (rt : CreateSwapchainsAnswers) (nc nd : Int) (app : OpenXRTutorial)
    (h : (CreateSwapchains_create debugBreak rt nc nd app).stopped = none) :
    ∃ messages : List Call,
      messages.filter isCreateSwapchain = [] ∧
      (CreateSwapchains_create debugBreak rt nc nd app).app =
        CreateSwapchains_loop rt nc nd (app.emit messages) := by
  cases debugBreak with
  | returns =>
      exact ⟨CreateSwapchains_messages nc nd, CreateSwapchains_messages_filter nc nd,
        by rw [CreateSwapchains_create_returns]⟩
  | stops =>
      by_cases hc : nc = 0
      · simp [CreateSwapchains_create, hc] at h
      · by_cases hd : nd = 0
        · simp [CreateSwapchains_create, hc, hd] at h
        · exact ⟨[], by simp, by rw [CreateSwapchains_create_found _ _ _ _ _ hc hd, emit_nil]⟩

theorem scanned_no_color (table : TextureFormatTable) (app : OpenXRTutorial)
    (rt : CreateSwapchainsAnswers)
    (h : ∀ f ∈ rt.formats, table.IsDepthStencil (table.GetTextureFormatFromNative f) = true) :
    (CreateSwapchains_scanned table app rt).nativeColorFormat = 0 := by
  have hfind : rt.formats.find? (isColorEntry table) = none := by
    rw [List.find?_eq_none]
    intro f hf
    simp [isColorEntry, h f hf]
  have := scan_color_first table rt.formats
    ⟨app.m_colorFormat, app.m_depthFormat, 0, 0, 0⟩ rfl
  rw [hfind] at this
  exact this

theorem scanned_no_depth (table : TextureFormatTable) (app : OpenXRTutorial)
    (rt : CreateSwapchainsAnswers)
    (h : ∀ f ∈ rt.formats, table.IsDepthStencil (table.GetTextureFormatFromNative f) = false) :
    (CreateSwapchains_scanned table app rt).nativeDepthFormat = 0 := by
  have hfind : rt.formats.find? (isDepthEntry table) = none := by
    rw [List.find?_eq_none]
    intro f hf
    simp [isDepthEntry, h f hf]
  have := scan_depth_first table rt.formats
    ⟨app.m_colorFormat, app.m_depthFormat, 0, 0, 0⟩ rfl
  rw [hfind] at this
  exact this

theorem clearViewsPrefix_getD_self (k : Nat) (infos : List SwapchainInfo) :
    (clearViewsPrefix k infos).getD k default = infos.getD k default := by
  induction k generalizing infos with
  | zero => rfl
  | succ k ih =>
      cases infos with
      | nil => rfl
      | cons info infos => simpa [clearViewsPrefix] using ih infos

theorem clearViewsPrefix_set (k : Nat) (infos : List SwapchainInfo) :
    (clearViewsPrefix k infos).set k { (infos.getD k default) with views := [] } =
      clearViewsPrefix (k + 1) infos := by
  induction k generalizing infos with
  | zero =>
      cases infos with
      | nil => rfl
      | cons info infos => simp [clearViewsPrefix]
  | succ k ih =>
      cases infos with
      | nil => rfl
      | cons info infos => simpa [clearViewsPrefix] using ih infos

theorem clearViewsPrefix_getD_lt (k i : Nat) (infos : List SwapchainInfo) (h : i < k) :
    (clearViewsPrefix k infos).getD i default =
      { (infos.getD i default) with views := [] } := by
  induction k generalizing infos i with
  | zero => omega
  | succ k ih =>
      cases infos with
      | nil => rfl
      | cons info infos =>
          cases i with
          | zero => simp [clearViewsPrefix]
          | succ i => simpa [clearViewsPrefix] using ih i infos (by omega)

theorem clearViewsPrefix_idem (k : Nat) (infos : List SwapchainInfo) :
    clearViewsPrefix k (clearViewsPrefix k infos) = clearViewsPrefix k infos := by
  induction k generalizing infos with
  | zero => rfl
  | succ k ih =>
      cases infos with
      | nil => rfl
      | cons info infos => simp [clearViewsPrefix, ih]

theorem clearViewsPrefix_all (k : Nat) (infos : List SwapchainInfo) (h : infos.length ≤ k) :
    ∀ info ∈ clearViewsPrefix k infos, info.views = [] := by
  induction k generalizing infos with
  | zero =>
      cases infos with
      | nil => simp [clearViewsPrefix]
      | cons info infos => simp at h
  | succ k ih =>
      cases infos with
      | nil => simp [clearViewsPrefix]
      | cons info infos =>
          intro x hx
          simp only [clearViewsPrefix, List.mem_cons] at hx
          rcases hx with rfl | hx
          · rfl
          · exact ih infos (by simpa using h) x hx

/-- What the first `k` passes of the loop of `DestroySwapchains` do. -/
theorem DestroySwapchains_fold (k : Nat) (app : OpenXRTutorial) :
    (List.range k).foldl DestroySwapchains_view app =
      { app with
        m_colorSwapchainInfos := clearViewsPrefix k app.m_colorSwapchainInfos
        m_depthSwapchainInfos := clearViewsPrefix k app.m_depthSwapchainInfos
        trace := app.trace ++ (List.range k).flatMap (fun i =>
          DestroySwapchains_view_calls (app.m_colorSwapchainInfos.getD i default)
            (app.m_depthSwapchainInfos.getD i default)) } := by
  induction k with
  | zero => simp [clearViewsPrefix]
  | succ k ih =>
      rw [List.range_succ, List.foldl_append, ih, List.flatMap_append]
      simp only [DestroySwapchains_view, emit, clearViewsPrefix_getD_self, clearViewsPrefix_set,
        DestroySwapchains_view_calls, List.append_assoc, List.foldl_cons, List.foldl_nil,
        List.flatMap_cons, List.flatMap_nil, List.append_nil, List.cons_append, List.nil_append]

theorem DestroySwapchains_eq (app : OpenXRTutorial) :
    app.DestroySwapchains =
      { app with
        m_colorSwapchainInfos :=
          clearViewsPrefix app.m_viewConfigurationViews.length app.m_colorSwapchainInfos
        m_depthSwapchainInfos :=
          clearViewsPrefix app.m_viewConfigurationViews.length app.m_depthSwapchainInfos
        trace := app.trace ++ (List.range app.m_viewConfigurationViews.length).flatMap (fun i =>
          DestroySwapchains_view_calls (app.m_colorSwapchainInfos.getD i default)
            (app.m_depthSwapchainInfos.getD i default)) } :=
  DestroySwapchains_fold app.m_viewConfigurationViews.length app

/-- In the calls of the loop of `DestroySwapchains`, every `xrDestroySwapchain`
comes after a `views_clear` for the same swapchain. -/
theorem DestroySwapchains_calls_order (color depth : Nat → SwapchainInfo) (is : List Nat)
    (pre post : List Call) (swapchain : XrSwapchain)
    (h : is.flatMap (fun i => DestroySwapchains_view_calls (color i) (depth i)) =
      pre ++ .xrDestroySwapchain swapchain :: post) :
    ∃ views, Call.views_clear swapchain views ∈ pre := by
  induction is generalizing pre with
  | nil => simp at h
  | cons i is ih =>
      rw [List.flatMap_cons] at h
      rcases pre with _ | ⟨p1, _ | ⟨p2, _ | ⟨p3, _ | ⟨p4, pre⟩⟩⟩⟩
      · simp [DestroySwapchains_view_calls] at h
      · simp [DestroySwapchains_view_calls] at h
      · simp only [DestroySwapchains_view_calls, List.cons_append, List.nil_append,
          List.cons.injEq, Call.xrDestroySwapchain.injEq] at h
        obtain ⟨h1, _, h3, _⟩ := h
        exact ⟨(color i).views, by rw [← h1, h3]; simp⟩
      · simp only [DestroySwapchains_view_calls, List.cons_append, List.nil_append,
          List.cons.injEq, Call.xrDestroySwapchain.injEq] at h
        obtain ⟨_, h2, _, h4, _⟩ := h
        exact ⟨(depth i).views, by rw [← h2, h4]; simp⟩
      · simp only [DestroySwapchains_view_calls, List.cons_append, List.nil_append,
          List.cons.injEq] at h
        obtain ⟨_, _, _, _, h5⟩ := h
        obtain ⟨views, hv⟩ := ih pre h5
        exact ⟨views, by simp [hv]⟩

/-! ## Auxiliary lemmas: the calls and the layer of a frame, negotiation, teardown -/

theorem foldl_set_range {α : Type} (f : Nat → α) (k : Nat) (l : List α) (h : k ≤ l.length) :
    (List.range k).foldl (fun l i => l.set i (f i)) l = (List.range k).map f ++ l.drop k := by
  induction k with
  | zero => simp
  | succ k ih =>
      have hk : k < l.length := by omega
      rw [List.range_succ, List.foldl_append, ih (by omega)]
      simp only [List.foldl_cons, List.foldl_nil, List.map_append, List.map_cons, List.map_nil]
      rw [List.set_append_right _ _ (by simp)]
      simp only [List.length_map, List.length_range, Nat.sub_self, List.append_assoc]
      rw [List.drop_eq_getElem_cons hk]
      rfl

theorem RenderLayer_view_eq (rt : XrFrameAnswers) (app : OpenXRTutorial)
    (info : RenderLayerInfo) (i : Nat) :
    RenderLayer_view rt (app, info) i =
      (app.emit (RenderLayer_view_emitted app rt i),
       { info with
         layerProjectionViews :=
           info.layerProjectionViews.set i (RenderLayer_projectionView app rt i) }) := by
  simp only [RenderLayer_view, emit_emit]
  rfl

theorem RenderLayer_fold (rt : XrFrameAnswers) (is : List Nat) (app : OpenXRTutorial)
    (info : RenderLayerInfo) :
    is.foldl (RenderLayer_view rt) (app, info) =
      (app.emit (is.flatMap (RenderLayer_view_emitted app rt)),
       { info with
         layerProjectionViews :=
           is.foldl (fun l i => l.set i (RenderLayer_projectionView app rt i))
             info.layerProjectionViews }) := by
  induction is generalizing app info with
  | nil => simp [emit_nil]
  | cons i is ih =>
      rw [List.foldl_cons, RenderLayer_view_eq, ih, emit_emit]
      rfl

theorem RenderLayer_eq (app : OpenXRTutorial) (rt : XrFrameAnswers) (info : RenderLayerInfo)
    (h : rt.locateResult = XR_SUCCESS) :
    app.RenderLayer rt info =
      { returned := true
        app := app.emit
          (.xrLocateViews app.m_session app.m_viewConfiguration info.predictedDisplayTime
              app.m_localSpace (app.m_viewConfigurationViews.length % 2 ^ 32) ::
            (List.range rt.views.length).flatMap (RenderLayer_view_emitted app rt))
        renderLayerInfo :=
          { info with
            layerProjectionViews :=
              (List.range rt.views.length).map (RenderLayer_projectionView app rt)
            layerProjection :=
              { layerFlags := XR_COMPOSITION_LAYER_BLEND_TEXTURE_SOURCE_ALPHA_BIT |||
                  XR_COMPOSITION_LAYER_CORRECT_CHROMATIC_ABERRATION_BIT
                space := app.m_localSpace
                views := (List.range rt.views.length).map (RenderLayer_projectionView app rt) } } } := by
  simp only [RenderLayer, h, ne_eq, not_true_eq_false, if_false]
  rw [RenderLayer_fold]
  have hset := foldl_set_range
    (RenderLayer_projectionView (app.emit
      [.xrLocateViews app.m_session app.m_viewConfiguration info.predictedDisplayTime
        app.m_localSpace (app.m_viewConfigurationViews.length % 2 ^ 32)]) rt)
    rt.views.length (vector_resize info.layerProjectionViews rt.views.length default)
    (by rw [vector_resize_length])
  rw [List.drop_of_length_le (by rw [vector_resize_length]), List.append_nil] at hset
  simp only [hset, emit_emit]
  rfl

theorem RenderFrame_calls_kind (app : OpenXRTutorial) (rt : XrFrameAnswers) :
    ∃ calls, app.RenderFrame rt = app.emit calls ∧
      ∀ c ∈ calls, isRenderFrameCall c = true := by
  obtain ⟨mid, h, p⟩ := RenderFrame_layers_calls
    ((app.emit [.xrWaitFrame app.m_session]).emit [.xrBeginFrame app.m_session]) rt
  refine ⟨[.xrWaitFrame app.m_session, .xrBeginFrame app.m_session] ++ mid ++
    [.xrEndFrame app.m_session
      { displayTime := rt.predictedDisplayTime
        environmentBlendMode := app.m_environmentBlendMode
        layers := (((app.emit [.xrWaitFrame app.m_session]).emit
          [.xrBeginFrame app.m_session]).RenderFrame_layers rt).2.layers }], ?_, ?_⟩
  · simp only [RenderFrame, emit_m_session]
    rw [h]
    simp [emit]
  · intro c hc
    simp only [List.mem_append, List.mem_cons, List.mem_singleton, List.not_mem_nil,
      or_false] at hc
    rcases hc with (((hc | hc) | hc) | hc)
    · subst hc; rfl
    · subst hc; rfl
    · rcases p with p | ⟨rest, hrest, p⟩
      · subst p; simp at hc
      · subst hrest
        rcases List.mem_cons.mp hc with hc | hc
        · subst hc; rfl
        · have := p c hc
          cases c <;> simp_all [isViewLoopCall, isRenderFrameCall]
    · subst hc; rfl

theorem PollEvents_cons (app : OpenXRTutorial) (e : XrEventDataBuffer)
    (evs : List XrEventDataBuffer) :
    app.PollEvents (e :: evs) = (PollEvents_event app e).PollEvents evs := rfl

theorem PollEvents_append_list (app : OpenXRTutorial) (evs1 evs2 : List XrEventDataBuffer) :
    app.PollEvents (evs1 ++ evs2) = (app.PollEvents evs1).PollEvents evs2 := by
  simp [PollEvents, List.foldl_append]

theorem static_cast_int32_t_small (x : Nat) (h : x < 2 ^ 31) :
    static_cast_int32_t x = (x : Int) := by
  have h32 : x % 2 ^ 32 = x := Nat.mod_eq_of_lt (by omega)
  unfold static_cast_int32_t
  rw [h32, if_pos h]

theorem static_cast_int32_t_large (x : Nat) (h1 : 2 ^ 31 ≤ x) (h2 : x < 2 ^ 32) :
    static_cast_int32_t x = (x : Int) - 2 ^ 32 := by
  have h32 : x % 2 ^ 32 = x := Nat.mod_eq_of_lt h2
  unfold static_cast_int32_t
  rw [h32, if_neg (by omega)]

theorem pickFirstSupported_eq {α : Type} [DecidableEq α] (runtime preferred : List α)
    (current : α) :
    pickFirstSupported runtime preferred current =
      (preferred.find? (fun m => decide (m ∈ runtime))).getD current := by
  induction preferred with
  | nil => rfl
  | cons m ms ih =>
      by_cases h : m ∈ runtime
      · simp [pickFirstSupported, List.find?, h]
      · simp [pickFirstSupported, List.find?, h, ih]

theorem GetViewConfigurationViews_m_environmentBlendMode (app : OpenXRTutorial)
    (rt : ViewConfigurationAnswers) :
    (app.GetViewConfigurationViews rt).m_environmentBlendMode = app.m_environmentBlendMode := by
  unfold GetViewConfigurationViews
  simp only [emit]
  split <;> rfl

theorem DestroySwapchains_view_calls_not_frame (color depth : Nat → SwapchainInfo) (is : List Nat)
    (c : Call)
    (h : c ∈ is.flatMap (fun i => DestroySwapchains_view_calls (color i) (depth i))) :
    isFrameCall c = false := by
  obtain ⟨i, _, hc⟩ := List.mem_flatMap.mp h
  simp only [DestroySwapchains_view_calls, List.mem_cons, List.mem_singleton,
    List.not_mem_nil, or_false] at hc
  rcases hc with hc | hc | hc | hc <;> subst hc <;> rfl

theorem RenderLayer_trace (app : OpenXRTutorial) (rt : XrFrameAnswers)
    (info : RenderLayerInfo) :
    (app.RenderLayer rt info).app.trace = app.trace ++
      .xrLocateViews app.m_session app.m_viewConfiguration info.predictedDisplayTime
          app.m_localSpace (app.m_viewConfigurationViews.length % 2 ^ 32) ::
        (if rt.locateResult = XR_SUCCESS then
          (List.range rt.views.length).flatMap (RenderLayer_view_emitted app rt)
        else []) := by
  by_cases h : rt.locateResult = XR_SUCCESS
  · rw [RenderLayer_eq app rt info h]
    simp [h, emit]
  · rw [(RenderLayer_failure app rt info h).2.2]
    simp [h, emit]

theorem RenderLayer_view_defined_spec (app : OpenXRTutorial) (rt : XrFrameAnswers) (i : Nat)
    (h : RenderLayer_view_defined app rt i = true) :
    app.m_colorSwapchainInfos[i]? = some (app.m_colorSwapchainInfos.getD i default) ∧
    app.m_depthSwapchainInfos[i]? = some (app.m_depthSwapchainInfos.getD i default) ∧
    (∃ rtv, (app.m_colorSwapchainInfos.getD i default).views[(rt.acquired.getD i (0, 0)).1]? =
      some (some rtv)) ∧
    (∃ dsv, (app.m_depthSwapchainInfos.getD i default).views[(rt.acquired.getD i (0, 0)).2]? =
      some (some dsv)) := by
  simp only [RenderLayer_view_defined, Bool.and_eq_true, decide_eq_true_eq] at h
  obtain ⟨⟨⟨⟨h1, h2⟩, _⟩, h4⟩, h5⟩ := h
  have key : ∀ (l : List (Option ITextureView)) (k : Nat),
      (l.getD k none).isSome = true → ∃ v, l[k]? = some (some v) := by
    intro l k hk
    rw [List.getD_eq_getElem?_getD] at hk
    cases hl : l[k]? with
    | none => simp [hl] at hk
    | some o =>
        cases o with
        | none => simp [hl] at hk
        | some v => exact ⟨v, rfl⟩
  refine ⟨?_, ?_, key _ _ h4, key _ _ h5⟩
  · simp [List.getD_eq_getElem?_getD, List.getElem?_eq_getElem h1]
  · simp [List.getD_eq_getElem?_getD, List.getElem?_eq_getElem h2]

/-! ## The specified properties -/

/-- C1: the loop of `Run` emits as many `xrBeginFrame` calls as `xrEndFrame` calls,
for every number of ticks and all answers of the runtime, and every call of
`RenderFrame` emits exactly one of each, whether or not a layer is rendered. -/
theorem C1_beginFrame_endFrame_paired :
    (∀ (app : OpenXRTutorial) (rt : XrFrameAnswers), ∃ calls : List Call,
        app.RenderFrame rt = app.emit calls ∧
        calls.countP isBeginFrame = 1 ∧ calls.countP isEndFrame = 1) ∧
    (∀ (ticks : List TickAnswers) (app : OpenXRTutorial), ∃ calls : List Call,
        (Run_loop ticks app).trace = app.trace ++ calls ∧
        calls.countP isBeginFrame = calls.countP isEndFrame) := by
  constructor
  · intro app rt
    obtain ⟨mid, info, h, p⟩ := RenderFrame_shape app rt
    refine ⟨_, h, ?_, ?_⟩
    · rw [← countP_filter_isFrameCall isBeginFrame isBeginFrame_isFrameCall]
      simp [List.filter_append, filter_isFrameCall_eq_nil mid p, isFrameCall, isBeginFrame]
    · rw [← countP_filter_isFrameCall isEndFrame isEndFrame_isFrameCall]
      simp [List.filter_append, filter_isFrameCall_eq_nil mid p, isFrameCall, isEndFrame]
  · intro ticks app
    obtain ⟨calls, frames, h, p⟩ := Run_loop_frames ticks app
    refine ⟨calls, h, ?_⟩
    rw [← countP_filter_isFrameCall isBeginFrame isBeginFrame_isFrameCall,
      ← countP_filter_isFrameCall isEndFrame isEndFrame_isFrameCall, p,
      countP_isBeginFrame_frames, countP_isEndFrame_frames]

/-- C2: once `PollEvents` has handled a session state change of the current session
to `EXITING` or to `LOSS_PENDING`, both `m_sessionRunning` and `m_applicationRunning`
are false, whatever the object was before and whatever events were handled before. -/
theorem C2_exiting_loss_pending_clear_flags (app : OpenXRTutorial)
    (evs : List XrEventDataBuffer) :
    ((app.PollEvents (evs ++ [XR_TYPE_EVENT_DATA_SESSION_STATE_CHANGED app.m_session
        XR_SESSION_STATE_EXITING])).m_sessionRunning = false ∧
     (app.PollEvents (evs ++ [XR_TYPE_EVENT_DATA_SESSION_STATE_CHANGED app.m_session
        XR_SESSION_STATE_EXITING])).m_applicationRunning = false) ∧
    ((app.PollEvents (evs ++ [XR_TYPE_EVENT_DATA_SESSION_STATE_CHANGED app.m_session
        XR_SESSION_STATE_LOSS_PENDING])).m_sessionRunning = false ∧
     (app.PollEvents (evs ++ [XR_TYPE_EVENT_DATA_SESSION_STATE_CHANGED app.m_session
        XR_SESSION_STATE_LOSS_PENDING])).m_applicationRunning = false) := by
  have hs := PollEvents_m_session evs app
  simp only [PollEvents_append]
  simp [PollEvents_event, hs]

/-- C3, as the claim states it, fails: after `EXITING` has been handled, a later
`READY` event for the same session changes the stored session state and sets
`m_sessionRunning` again. -/
theorem C3_counterexample :
    ¬ ((sample.PollEvents
          [XR_TYPE_EVENT_DATA_SESSION_STATE_CHANGED 1 XR_SESSION_STATE_EXITING,
           XR_TYPE_EVENT_DATA_SESSION_STATE_CHANGED 1 XR_SESSION_STATE_READY]).m_sessionState =
        (sample.PollEvents
          [XR_TYPE_EVENT_DATA_SESSION_STATE_CHANGED 1 XR_SESSION_STATE_EXITING]).m_sessionState ∧
       (sample.PollEvents
          [XR_TYPE_EVENT_DATA_SESSION_STATE_CHANGED 1 XR_SESSION_STATE_EXITING,
           XR_TYPE_EVENT_DATA_SESSION_STATE_CHANGED 1 XR_SESSION_STATE_READY]).m_sessionRunning =
        (sample.PollEvents
          [XR_TYPE_EVENT_DATA_SESSION_STATE_CHANGED 1 XR_SESSION_STATE_EXITING]).m_sessionRunning ∧
       (sample.PollEvents
          [XR_TYPE_EVENT_DATA_SESSION_STATE_CHANGED 1 XR_SESSION_STATE_EXITING,
           XR_TYPE_EVENT_DATA_SESSION_STATE_CHANGED 1 XR_SESSION_STATE_READY]).m_applicationRunning =
        (sample.PollEvents
          [XR_TYPE_EVENT_DATA_SESSION_STATE_CHANGED 1 XR_SESSION_STATE_EXITING]).m_applicationRunning) := by
  decide

/-- C3, amended: after a session state change of the current session to `EXITING`
or `LOSS_PENDING` has been handled, `m_applicationRunning` is false after every
later sequence of events; `m_sessionRunning` stays false as long as no later event
is a state change of the current session to `READY`; and the stored session state
stays the terminal state as long as no later event is a state change of the current
session. -/
theorem C3_terminal_amended (app : OpenXRTutorial) (state : XrSessionState)
    (hstate : state = XR_SESSION_STATE_EXITING ∨ state = XR_SESSION_STATE_LOSS_PENDING)
    (later : List XrEventDataBuffer) :
    (app.PollEvents (XR_TYPE_EVENT_DATA_SESSION_STATE_CHANGED app.m_session state :: later)
      ).m_applicationRunning = false ∧
    ((∀ e ∈ later,
        e ≠ XR_TYPE_EVENT_DATA_SESSION_STATE_CHANGED app.m_session XR_SESSION_STATE_READY) →
      (app.PollEvents (XR_TYPE_EVENT_DATA_SESSION_STATE_CHANGED app.m_session state :: later)
        ).m_sessionRunning = false) ∧
    ((∀ e ∈ later, ∀ state1,
        e ≠ XR_TYPE_EVENT_DATA_SESSION_STATE_CHANGED app.m_session state1) →
      (app.PollEvents (XR_TYPE_EVENT_DATA_SESSION_STATE_CHANGED app.m_session state :: later)
        ).m_sessionState = state) := by
  have hs := PollEvents_event_m_session app
    (XR_TYPE_EVENT_DATA_SESSION_STATE_CHANGED app.m_session state)
  have h1 : (PollEvents_event app
      (XR_TYPE_EVENT_DATA_SESSION_STATE_CHANGED app.m_session state)).m_applicationRunning = false ∧
      (PollEvents_event app
      (XR_TYPE_EVENT_DATA_SESSION_STATE_CHANGED app.m_session state)).m_sessionRunning = false ∧
      (PollEvents_event app
      (XR_TYPE_EVENT_DATA_SESSION_STATE_CHANGED app.m_session state)).m_sessionState = state := by
    rcases hstate with rfl | rfl <;> simp [PollEvents_event]
  refine ⟨PollEvents_applicationRunning later _ h1.1, ?_, ?_⟩
  · intro he
    refine PollEvents_sessionRunning later _ h1.2.1 ?_
    rw [hs]
    exact he
  · intro he
    have h2 := PollEvents_sessionState later (PollEvents_event app
      (XR_TYPE_EVENT_DATA_SESSION_STATE_CHANGED app.m_session state)) (by rw [hs]; exact he)
    simp only [PollEvents, List.foldl_cons] at h2 ⊢
    rw [h2, h1.2.2]

/-- Witness for C3 (amended): after `LOSS_PENDING`, an instance loss notification,
a stale state change and a lost-events notification leave the three values as they
were. -/
theorem C3_terminal_amended_witness :
    (sample.PollEvents
      [XR_TYPE_EVENT_DATA_SESSION_STATE_CHANGED 1 XR_SESSION_STATE_LOSS_PENDING,
       XR_TYPE_EVENT_DATA_INSTANCE_LOSS_PENDING 5,
       XR_TYPE_EVENT_DATA_SESSION_STATE_CHANGED 7 XR_SESSION_STATE_READY,
       XR_TYPE_EVENT_DATA_EVENTS_LOST 3]).m_applicationRunning = false ∧
    (sample.PollEvents
      [XR_TYPE_EVENT_DATA_SESSION_STATE_CHANGED 1 XR_SESSION_STATE_LOSS_PENDING,
       XR_TYPE_EVENT_DATA_INSTANCE_LOSS_PENDING 5,
       XR_TYPE_EVENT_DATA_SESSION_STATE_CHANGED 7 XR_SESSION_STATE_READY,
       XR_TYPE_EVENT_DATA_EVENTS_LOST 3]).m_sessionRunning = false ∧
    (sample.PollEvents
      [XR_TYPE_EVENT_DATA_SESSION_STATE_CHANGED 1 XR_SESSION_STATE_LOSS_PENDING,
       XR_TYPE_EVENT_DATA_INSTANCE_LOSS_PENDING 5,
       XR_TYPE_EVENT_DATA_SESSION_STATE_CHANGED 7 XR_SESSION_STATE_READY,
       XR_TYPE_EVENT_DATA_EVENTS_LOST 3]).m_sessionState = XR_SESSION_STATE_LOSS_PENDING :=
  have h := C3_terminal_amended sample XR_SESSION_STATE_LOSS_PENDING (Or.inr rfl)
    [XR_TYPE_EVENT_DATA_INSTANCE_LOSS_PENDING 5,
     XR_TYPE_EVENT_DATA_SESSION_STATE_CHANGED 7 XR_SESSION_STATE_READY,
     XR_TYPE_EVENT_DATA_EVENTS_LOST 3]
  ⟨h.1, h.2.1 (by decide), h.2.2 (by simp [sample])⟩

/-- C4: from a state with `m_sessionRunning = false` and `m_applicationRunning = true`,
handling `READY, SYNCHRONIZED, VISIBLE, STOPPING, EXITING` for the current session
one after another gives `m_sessionRunning` the values false, true, true, true,
false, false (before the first event and after each event) and
`m_applicationRunning` the values true, true, true, true, true, false. -/
theorem C4_lifecycle_scenario (app : OpenXRTutorial)
    (hs : app.m_sessionRunning = false) (ha : app.m_applicationRunning = true) :
    (List.range 6).map
        (fun k => (app.PollEvents ((lifecycleEvents app.m_session).take k)).m_sessionRunning) =
      [false, true, true, true, false, false] ∧
    (List.range 6).map
        (fun k => (app.PollEvents ((lifecycleEvents app.m_session).take k)).m_applicationRunning) =
      [true, true, true, true, true, false] := by
  cases app
  simp only at hs ha
  subst hs ha
  constructor <;>
    simp [List.range, List.range.loop, lifecycleEvents, PollEvents, PollEvents_event, emit]

/-- Witness for C4: the scenario run from the member initialisers of the class. -/
theorem C4_lifecycle_scenario_witness :
    initial.m_sessionRunning = false ∧ initial.m_applicationRunning = true ∧
    (List.range 6).map
        (fun k => (initial.PollEvents ((lifecycleEvents initial.m_session).take k)).m_sessionRunning) =
      [false, true, true, true, false, false] ∧
    (List.range 6).map
        (fun k =>
          (initial.PollEvents ((lifecycleEvents initial.m_session).take k)).m_applicationRunning) =
      [true, true, true, true, true, false] :=
  ⟨rfl, rfl, C4_lifecycle_scenario initial rfl rfl⟩

/-- C5: an event that carries a session handle other than `m_session` (a session
state change, an interaction profile change, a pending reference space change)
leaves the whole object as it was: the stored session state and both flags are
unchanged, and the trace is unchanged, so that no session call is issued. -/
theorem C5_stale_session_event_ignored (app : OpenXRTutorial) (session : XrSession)
    (state : XrSessionState) (h : session ≠ app.m_session) :
    app.PollEvents [XR_TYPE_EVENT_DATA_SESSION_STATE_CHANGED session state] = app ∧
    app.PollEvents [XR_TYPE_EVENT_DATA_INTERACTION_PROFILE_CHANGED session] = app ∧
    app.PollEvents [XR_TYPE_EVENT_DATA_REFERENCE_SPACE_CHANGE_PENDING session] = app := by
  simp [PollEvents, PollEvents_event, h]

/-- Witness for C5: events for session 9 while the current session is 1. -/
theorem C5_stale_session_event_ignored_witness :
    (9 : XrSession) ≠ sample.m_session ∧
    sample.PollEvents [XR_TYPE_EVENT_DATA_SESSION_STATE_CHANGED 9 XR_SESSION_STATE_READY] = sample ∧
    sample.PollEvents [XR_TYPE_EVENT_DATA_INTERACTION_PROFILE_CHANGED 9] = sample ∧
    sample.PollEvents [XR_TYPE_EVENT_DATA_REFERENCE_SPACE_CHANGE_PENDING 9] = sample :=
  ⟨by decide, C5_stale_session_event_ignored sample 9 XR_SESSION_STATE_READY (by decide)⟩

/-- C6: handling a state change of the current session to `READY` appends exactly
one call to the trace, `xrBeginSession` with `m_viewConfiguration` as primary view
configuration type, and leaves `m_sessionRunning` true; and for every event, the
number of `xrBeginSession` calls it appends is one if it is that event and zero
otherwise. -/
theorem C6_ready_begins_session (app : OpenXRTutorial) :
    (app.PollEvents [XR_TYPE_EVENT_DATA_SESSION_STATE_CHANGED app.m_session
        XR_SESSION_STATE_READY]).trace =
      app.trace ++ [.xrBeginSession app.m_session app.m_viewConfiguration] ∧
    (app.PollEvents [XR_TYPE_EVENT_DATA_SESSION_STATE_CHANGED app.m_session
        XR_SESSION_STATE_READY]).m_sessionRunning = true ∧
    ∀ e : XrEventDataBuffer, ∃ calls : List Call,
      (app.PollEvents [e]).trace = app.trace ++ calls ∧
      calls.countP isBeginSession =
        if e = XR_TYPE_EVENT_DATA_SESSION_STATE_CHANGED app.m_session XR_SESSION_STATE_READY
        then 1 else 0 := by
  refine ⟨by simp [PollEvents, PollEvents_event, emit],
    by simp [PollEvents, PollEvents_event, emit], ?_⟩
  intro e
  cases e with
  | XR_TYPE_EVENT_DATA_SESSION_STATE_CHANGED s1 state =>
      by_cases hs : s1 = app.m_session
      · subst hs
        by_cases hr : state = XR_SESSION_STATE_READY
        · subst hr
          exact ⟨[.xrBeginSession app.m_session app.m_viewConfiguration],
            by simp [PollEvents, PollEvents_event, emit], by simp [isBeginSession]⟩
        · by_cases hst : state = XR_SESSION_STATE_STOPPING
          · subst hst
            exact ⟨[.xrEndSession app.m_session],
              by simp [PollEvents, PollEvents_event, emit], by simp [isBeginSession]⟩
          · refine ⟨[], ?_, by simp [hr]⟩
            cases state <;> simp [PollEvents, PollEvents_event, emit] at hr hst ⊢
      · exact ⟨[], by simp [PollEvents, PollEvents_event, hs], by simp [hs]⟩
  | _ => exact ⟨[], by simp [PollEvents, PollEvents_event], by simp⟩

/-- C7: handling a state change of the current session to `STOPPING` appends exactly
one call to the trace, `xrEndSession`, leaves `m_sessionRunning` false, and leaves
`m_applicationRunning`, both lists of swapchains (handles and views) and the
reference space as they were. -/
theorem C7_stopping_ends_session (app : OpenXRTutorial) :
    (app.PollEvents [XR_TYPE_EVENT_DATA_SESSION_STATE_CHANGED app.m_session
        XR_SESSION_STATE_STOPPING]).trace = app.trace ++ [.xrEndSession app.m_session] ∧
    (app.PollEvents [XR_TYPE_EVENT_DATA_SESSION_STATE_CHANGED app.m_session
        XR_SESSION_STATE_STOPPING]).m_sessionRunning = false ∧
    (app.PollEvents [XR_TYPE_EVENT_DATA_SESSION_STATE_CHANGED app.m_session
        XR_SESSION_STATE_STOPPING]).m_applicationRunning = app.m_applicationRunning ∧
    (app.PollEvents [XR_TYPE_EVENT_DATA_SESSION_STATE_CHANGED app.m_session
        XR_SESSION_STATE_STOPPING]).m_colorSwapchainInfos = app.m_colorSwapchainInfos ∧
    (app.PollEvents [XR_TYPE_EVENT_DATA_SESSION_STATE_CHANGED app.m_session
        XR_SESSION_STATE_STOPPING]).m_depthSwapchainInfos = app.m_depthSwapchainInfos ∧
    (app.PollEvents [XR_TYPE_EVENT_DATA_SESSION_STATE_CHANGED app.m_session
        XR_SESSION_STATE_STOPPING]).m_localSpace = app.m_localSpace := by
  simp [PollEvents, PollEvents_event, emit]

/-- C8: in one pass through the loop body, `RenderFrame` runs exactly when
`m_sessionRunning` is true after `PollEvents` has handled the events of this tick.
So the frame calls the tick appends to the trace are those of one frame if the flag
is true at that point, and none at all if it is false, whatever `m_sessionRunning`
was when the tick began. -/
theorem C8_frame_gated_each_tick (app : OpenXRTutorial) (t : TickAnswers) :
    app.Run_tick t =
      (if ((app.PollSystemEvents t.destroyRequested).PollEvents t.events).m_sessionRunning
       then ((app.PollSystemEvents t.destroyRequested).PollEvents t.events).RenderFrame t.frame
       else (app.PollSystemEvents t.destroyRequested).PollEvents t.events) ∧
    ∃ calls : List Call,
      (app.Run_tick t).trace = app.trace ++ calls ∧
      if ((app.PollSystemEvents t.destroyRequested).PollEvents t.events).m_sessionRunning
      then ∃ info : XrFrameEndInfo, calls.filter isFrameCall = frameTriple app.m_session info
      else calls.filter isFrameCall = [] := by
  refine ⟨rfl, ?_⟩
  obtain ⟨calls, h, p⟩ := Run_tick_frames app t
  rcases p with ⟨hr, p⟩ | ⟨hr, p⟩
  · exact ⟨calls, h, by rw [hr]; exact p⟩
  · exact ⟨calls, h, by rw [hr]; exact p⟩

/-- C9: in the calls appended by the loop of `Run`, the frame calls taken alone are
a sequence of whole frames, each the three calls `xrWaitFrame`, `xrBeginFrame`,
`xrEndFrame` in this order; so every `xrWaitFrame` is directly followed by its one
`xrBeginFrame`, and the `xrEndFrame` of a frame comes before the `xrWaitFrame` of
the next. -/
theorem C9_frame_calls_are_triples (ticks : List TickAnswers) (app : OpenXRTutorial) :
    ∃ (calls : List Call) (frames : List XrFrameEndInfo),
      (Run_loop ticks app).trace = app.trace ++ calls ∧
      calls.filter isFrameCall = frames.flatMap (frameTriple app.m_session) :=
  Run_loop_frames ticks app

/-- C10: `RenderFrame` appends `xrWaitFrame`, `xrBeginFrame`, calls that are not
frame calls, and `xrEndFrame`.  If the stored session state is `SYNCHRONIZED`,
`VISIBLE` or `FOCUSED`, the runtime set `shouldRender` and `xrLocateViews` returned
`XR_SUCCESS`, the frame end info holds exactly one layer: the projection layer that
`RenderLayer` composed, which refers to `m_localSpace` and has one projection view
per located view.  In every other case the frame end info holds no layer, and none
of the calls of the frame acquires, waits for or releases a swapchain image. -/
theorem C10_layers_submitted (app : OpenXRTutorial) (rt : XrFrameAnswers) :
    ∃ (mid : List Call) (info : XrFrameEndInfo),
      app.RenderFrame rt = app.emit
        ([.xrWaitFrame app.m_session, .xrBeginFrame app.m_session] ++ mid ++
          [.xrEndFrame app.m_session info]) ∧
      (∀ c ∈ mid, isFrameCall c = false) ∧
      if activeState app.m_sessionState ∧ rt.shouldRender = true ∧ rt.locateResult = XR_SUCCESS
      then
        ∃ layer : XrCompositionLayerProjection,
          info.layers = [layer] ∧
          layer =
            (((app.emit [.xrWaitFrame app.m_session]).emit
                [.xrBeginFrame app.m_session]).RenderLayer rt
              ⟨rt.predictedDisplayTime, [], default, []⟩).renderLayerInfo.layerProjection ∧
          layer.space = app.m_localSpace ∧ layer.views.length = rt.views.length
      else
        info.layers = [] ∧ ∀ c ∈ mid, isSwapchainImageCall c = false := by
  obtain ⟨mid, h, p, hc⟩ := RenderFrame_layers_cases
    ((app.emit [.xrWaitFrame app.m_session]).emit [.xrBeginFrame app.m_session]) rt
  refine ⟨mid,
    { displayTime := rt.predictedDisplayTime
      environmentBlendMode := app.m_environmentBlendMode
      layers := (((app.emit [.xrWaitFrame app.m_session]).emit
        [.xrBeginFrame app.m_session]).RenderFrame_layers rt).2.layers }, ?_, p, ?_⟩
  · simp only [RenderFrame, emit_m_session]
    rw [h]
    simp [emit]
  · by_cases hcond :
        activeState app.m_sessionState ∧ rt.shouldRender = true ∧ rt.locateResult = XR_SUCCESS
    · rw [if_pos hcond]
      have hc1 := hc
      simp only [emit_m_sessionState] at hc1
      rw [if_pos hcond] at hc1
      obtain ⟨hsp, hlen⟩ := RenderLayer_success_layer
        ((app.emit [.xrWaitFrame app.m_session]).emit [.xrBeginFrame app.m_session]) rt
        ⟨rt.predictedDisplayTime, [], default, []⟩ hcond.2.2
      exact ⟨_, hc1, rfl, hsp, hlen⟩
    · rw [if_neg hcond]
      have hc1 := hc
      simp only [emit_m_sessionState] at hc1
      rw [if_neg hcond] at hc1
      exact hc1

/-- C11: when `xrLocateViews` does not return `XR_SUCCESS`, the frame still ends
with `xrEndFrame`, called with an empty layer list; no call of the frame acquires,
waits for or releases a swapchain image; `RenderFrame` leaves `m_sessionRunning`,
`m_applicationRunning` and the stored session state as they were; and the flag that
gates `RenderFrame` in the next tick is the one the next tick would have computed
without this frame. -/
theorem C11_locate_failure_keeps_envelope (app : OpenXRTutorial) (rt : XrFrameAnswers)
    (hfail : rt.locateResult ≠ XR_SUCCESS) :
    (∃ mid : List Call,
      app.RenderFrame rt = app.emit
        ([.xrWaitFrame app.m_session, .xrBeginFrame app.m_session] ++ mid ++
          [.xrEndFrame app.m_session
            { displayTime := rt.predictedDisplayTime
              environmentBlendMode := app.m_environmentBlendMode
              layers := [] }]) ∧
      (∀ c ∈ mid, isFrameCall c = false ∧ isSwapchainImageCall c = false)) ∧
    (app.RenderFrame rt).m_sessionRunning = app.m_sessionRunning ∧
    (app.RenderFrame rt).m_applicationRunning = app.m_applicationRunning ∧
    (app.RenderFrame rt).m_sessionState = app.m_sessionState ∧
    ∀ t : TickAnswers,
      (((app.RenderFrame rt).PollSystemEvents t.destroyRequested).PollEvents
          t.events).m_sessionRunning =
        ((app.PollSystemEvents t.destroyRequested).PollEvents t.events).m_sessionRunning := by
  obtain ⟨mid, h, p, hc⟩ := RenderFrame_layers_cases
    ((app.emit [.xrWaitFrame app.m_session]).emit [.xrBeginFrame app.m_session]) rt
  rw [if_neg (fun hh => hfail hh.2.2)] at hc
  have hframe : app.RenderFrame rt = app.emit
      ([.xrWaitFrame app.m_session, .xrBeginFrame app.m_session] ++ mid ++
        [.xrEndFrame app.m_session
          { displayTime := rt.predictedDisplayTime
            environmentBlendMode := app.m_environmentBlendMode
            layers := [] }]) := by
    simp only [RenderFrame, emit_m_session]
    rw [h, hc.1]
    simp [emit]
  refine ⟨⟨mid, hframe, fun c hmem => ⟨p c hmem, hc.2 c hmem⟩⟩, ?_, ?_, ?_, ?_⟩
  · rw [hframe]; rfl
  · rw [hframe]; rfl
  · rw [hframe]; rfl
  · intro t
    rw [hframe, emit_eq_setTrace, PollSystemEvents_setTrace]
    obtain ⟨tr1, h1⟩ := PollEvents_setTrace t.events (app.PollSystemEvents t.destroyRequested)
      (app.trace ++ ([.xrWaitFrame app.m_session, .xrBeginFrame app.m_session] ++ mid ++
        [.xrEndFrame app.m_session
          { displayTime := rt.predictedDisplayTime
            environmentBlendMode := app.m_environmentBlendMode
            layers := [] }]))
    rw [h1]
    rfl

/-- Witness for C11: a visible session, a frame the runtime wants rendered, and
`xrLocateViews` returning the error code `-1`. -/
theorem C11_locate_failure_keeps_envelope_witness :
    (-1 : XrResult) ≠ XR_SUCCESS ∧
    ∃ mid : List Call,
      sampleVisible.RenderFrame ⟨100, true, -1, 0, [], []⟩ =
        sampleVisible.emit
          ([Call.xrWaitFrame 1, Call.xrBeginFrame 1] ++ mid ++
            [Call.xrEndFrame 1 ⟨100, .XR_ENVIRONMENT_BLEND_MODE_OPAQUE, []⟩]) ∧
      (∀ c ∈ mid, isFrameCall c = false ∧ isSwapchainImageCall c = false) :=
  ⟨by decide, (C11_locate_failure_keeps_envelope sampleVisible ⟨100, true, -1, 0, [], []⟩
    (by decide)).1⟩

/-- C12: in every frame the display time passed to `xrLocateViews` and the display
time passed to `xrEndFrame` are both the predicted display time that `xrWaitFrame`
returned for this frame, and the blend mode passed to `xrEndFrame` is
`m_environmentBlendMode`. -/
theorem C12_display_time_and_blend_mode (app : OpenXRTutorial) (rt : XrFrameAnswers) :
    ∃ (mid : List Call) (layers : List XrCompositionLayerProjection),
      app.RenderFrame rt = app.emit
        ([.xrWaitFrame app.m_session, .xrBeginFrame app.m_session] ++ mid ++
          [.xrEndFrame app.m_session
            { displayTime := rt.predictedDisplayTime
              environmentBlendMode := app.m_environmentBlendMode
              layers := layers }]) ∧
      (∀ c ∈ mid, isFrameCall c = false) ∧
      ∀ (session : XrSession) (viewConfigurationType : XrViewConfigurationType)
        (displayTime : XrTime) (space : XrSpace) (viewCapacityInput : Nat),
        Call.xrLocateViews session viewConfigurationType displayTime space viewCapacityInput ∈ mid →
          displayTime = rt.predictedDisplayTime := by
  obtain ⟨mid, h, p⟩ := RenderFrame_layers_calls
    ((app.emit [.xrWaitFrame app.m_session]).emit [.xrBeginFrame app.m_session]) rt
  refine ⟨mid, (((app.emit [.xrWaitFrame app.m_session]).emit
        [.xrBeginFrame app.m_session]).RenderFrame_layers rt).2.layers, ?_, ?_, ?_⟩
  · simp only [RenderFrame, emit_m_session]
    rw [h]
    simp [emit]
  · rcases p with rfl | ⟨rest, rfl, prest⟩
    · simp
    · intro c hc
      rcases List.mem_cons.mp hc with rfl | hc
      · rfl
      · have := prest c hc
        cases c <;> simp_all [isViewLoopCall, isFrameCall]
  · intro s vc t sp n hmem
    rcases p with rfl | ⟨rest, rfl, prest⟩
    · simp at hmem
    · rcases List.mem_cons.mp hmem with heq | hc
      · injection heq with _ _ ht _ _
      · have := prest _ hc
        simp [isViewLoopCall] at this

/-- C13, as the claim states it, fails: in the format list `0, 37` the first entry
that is not a depth-stencil format is `0`, but the scan chooses `37` (texture format
28), because zero is the value by which the scan tells that nothing was chosen
yet. -/
theorem C13_counterexample :
    [(0 : Int), 37].find?
        (fun f => !sampleTable.IsDepthStencil (sampleTable.GetTextureFormatFromNative f)) =
      some 0 ∧
    (CreateSwapchains_scan sampleTable [0, 37] ⟨0, 0, 0, 0, 0⟩).nativeColorFormat = 37 ∧
    (CreateSwapchains_scan sampleTable [0, 37] ⟨0, 0, 0, 0, 0⟩).m_colorFormat = 28 ∧
    (CreateSwapchains_scan sampleTable [0, 37] ⟨0, 0, 0, 0, 0⟩).m_colorFormat ≠
      sampleTable.GetTextureFormatFromNative 0 := by
  decide

/-- C13, amended: for every format list, every format table and every value the
members had before, the scan started by `CreateSwapchains` chooses as depth format
the first entry other than zero that is a depth-stencil format, and as color format
the first entry other than zero that is not; when the list holds no such entry the
native format stays zero.  The choice depends on the list and the table alone. -/
theorem C13_scan_first_nonzero_match (table : TextureFormatTable) (formats : List Int)
    (colorFormat depthFormat : TEXTURE_FORMAT) :
    (match formats.find? (isDepthEntry table) with
      | some d =>
          (CreateSwapchains_scan table formats
            ⟨colorFormat, depthFormat, 0, 0, 0⟩).nativeDepthFormat = d ∧
          (CreateSwapchains_scan table formats
            ⟨colorFormat, depthFormat, 0, 0, 0⟩).m_depthFormat =
              table.GetTextureFormatFromNative d
      | none =>
          (CreateSwapchains_scan table formats
            ⟨colorFormat, depthFormat, 0, 0, 0⟩).nativeDepthFormat = 0) ∧
    (match formats.find? (isColorEntry table) with
      | some c =>
          (CreateSwapchains_scan table formats
            ⟨colorFormat, depthFormat, 0, 0, 0⟩).nativeColorFormat = c ∧
          (CreateSwapchains_scan table formats
            ⟨colorFormat, depthFormat, 0, 0, 0⟩).m_colorFormat =
              table.GetTextureFormatFromNative c
      | none =>
          (CreateSwapchains_scan table formats
            ⟨colorFormat, depthFormat, 0, 0, 0⟩).nativeColorFormat = 0) :=
  ⟨scan_depth_first table formats ⟨colorFormat, depthFormat, 0, 0, 0⟩ rfl,
   scan_color_first table formats ⟨colorFormat, depthFormat, 0, 0, 0⟩ rfl⟩

/-- C14: for a format list of four entries whose first is a depth-stencil format
and whose second is not, both with native codes other than zero, the scan chooses
the first entry as depth format and the second as color format, and it leaves the
loop after its second iteration, whatever the third and fourth entry are. -/
theorem C14_scan_scenario (table : TextureFormatTable) (d16 rgba8 bgra8 d32 : Int)
    (colorFormat depthFormat : TEXTURE_FORMAT)
    (hd16 : d16 ≠ 0) (hrgba8 : rgba8 ≠ 0)
    (hdepth : table.IsDepthStencil (table.GetTextureFormatFromNative d16) = true)
    (hcolor : table.IsDepthStencil (table.GetTextureFormatFromNative rgba8) = false) :
    CreateSwapchains_scan table [d16, rgba8, bgra8, d32] ⟨colorFormat, depthFormat, 0, 0, 0⟩ =
      { m_colorFormat := table.GetTextureFormatFromNative rgba8
        m_depthFormat := table.GetTextureFormatFromNative d16
        nativeColorFormat := rgba8
        nativeDepthFormat := d16
        iterations := 2 } := by
  simp [CreateSwapchains_scan, CreateSwapchains_scan_body, hd16, hrgba8, hdepth, hcolor]

/-- Witness for C14: the list `D16_UNORM, R8G8B8A8_UNORM, B8G8R8A8_UNORM, D32_SFLOAT`
in the native codes of Vulkan. -/
theorem C14_scan_scenario_witness :
    CreateSwapchains_scan sampleTable [124, 37, 44, 126] ⟨0, 0, 0, 0, 0⟩ =
      { m_colorFormat := 28
        m_depthFormat := 55
        nativeColorFormat := 37
        nativeDepthFormat := 124
        iterations := 2 } :=
  C14_scan_scenario sampleTable 124 37 44 126 0 0 (by decide) (by decide) (by decide) (by decide)

/-- C15, as the claim states it, fails when `DEBUG_BREAK` hands control back: with a
format list that holds a depth format only, `CreateSwapchains` writes its message
and then goes on to create the swapchains, the color swapchain with native
format zero. -/
theorem C15_counterexample :
    (∀ f ∈ [(124 : Int)],
      sampleTable.IsDepthStencil (sampleTable.GetTextureFormatFromNative f) = true) ∧
    (CreateSwapchains .returns sampleTable sampleSetup
      ⟨[124], [⟨10, 20, 3, 3⟩, ⟨11, 21, 3, 3⟩]⟩).stopped = none ∧
    Call.xrCreateSwapchain 1 ⟨0, 33, 0, 1, 1024, 1024, 1, 1, 1⟩ ∈
      (CreateSwapchains .returns sampleTable sampleSetup
        ⟨[124], [⟨10, 20, 3, 3⟩, ⟨11, 21, 3, 3⟩]⟩).app.trace := by
  decide

/-- C15, amended: `CreateSwapchains` has no error result of its own; for a missing
format it writes a message and executes `DEBUG_BREAK` before it creates any
swapchain.

When the format list holds no color format, the scan leaves the native color
format zero and the message is the one for the color format.  If `DEBUG_BREAK`
ends the program, the calls are the two format enumerations and that message, no
swapchain is created and both vectors of swapchains are as before.  If
`DEBUG_BREAK` hands control back, the function completes: after that message (and
after the message for the depth format, if the native depth format is zero too)
come the calls of the per view loop, which create the color swapchain of every
view with native format zero.

When the format list holds no depth-stencil format, the scan leaves the native
depth format zero.  If `DEBUG_BREAK` ends the program, the last call is the message
for the depth format, or the message for the color format if the native color
format is zero too (its check comes first), and no swapchain is created.  If
`DEBUG_BREAK` hands control back, the message for the depth format is the last call
before the calls of the per view loop, which create the depth swapchain of every
view with native format zero. -/
theorem C15_missing_format (table : TextureFormatTable) (app : OpenXRTutorial)
    (rt : CreateSwapchainsAnswers) :
    ((∀ f ∈ rt.formats, table.IsDepthStencil (table.GetTextureFormatFromNative f) = true) →
      (CreateSwapchains_scanned table app rt).nativeColorFormat = 0 ∧
      (CreateSwapchains .stops table app rt).stopped = some .noColorFormat ∧
      (CreateSwapchains .stops table app rt).app.trace =
        app.trace ++ [.xrEnumerateSwapchainFormats app.m_session 0,
          .xrEnumerateSwapchainFormats app.m_session rt.formats.length,
          .cerr .noColorFormat] ∧
      (CreateSwapchains .stops table app rt).app.m_colorSwapchainInfos =
        app.m_colorSwapchainInfos ∧
      (CreateSwapchains .stops table app rt).app.m_depthSwapchainInfos =
        app.m_depthSwapchainInfos ∧
      (CreateSwapchains .returns table app rt).stopped = none ∧
      (CreateSwapchains .returns table app rt).app.trace =
        app.trace ++
          ([.xrEnumerateSwapchainFormats app.m_session 0,
            .xrEnumerateSwapchainFormats app.m_session rt.formats.length,
            .cerr .noColorFormat] ++
           (if (CreateSwapchains_scanned table app rt).nativeDepthFormat = 0 then
              [.cerr .noDepthFormat] else []) ++
           (List.range app.m_viewConfigurationViews.length).flatMap (fun i =>
              CreateSwapchains_view_calls app.m_session 0
                (CreateSwapchains_scanned table app rt).nativeDepthFormat
                (app.m_viewConfigurationViews.getD i default)
                (rt.swapchains.getD i default)))) ∧
    ((∀ f ∈ rt.formats, table.IsDepthStencil (table.GetTextureFormatFromNative f) = false) →
      (CreateSwapchains_scanned table app rt).nativeDepthFormat = 0 ∧
      (CreateSwapchains .stops table app rt).stopped =
        some (if (CreateSwapchains_scanned table app rt).nativeColorFormat = 0
          then .noColorFormat else .noDepthFormat) ∧
      (CreateSwapchains .stops table app rt).app.trace =
        app.trace ++ [.xrEnumerateSwapchainFormats app.m_session 0,
          .xrEnumerateSwapchainFormats app.m_session rt.formats.length,
          .cerr (if (CreateSwapchains_scanned table app rt).nativeColorFormat = 0
            then .noColorFormat else .noDepthFormat)] ∧
      (CreateSwapchains .stops table app rt).app.m_colorSwapchainInfos =
        app.m_colorSwapchainInfos ∧
      (CreateSwapchains .stops table app rt).app.m_depthSwapchainInfos =
        app.m_depthSwapchainInfos ∧
      (CreateSwapchains .returns table app rt).stopped = none ∧
      (CreateSwapchains .returns table app rt).app.trace =
        app.trace ++
          ([.xrEnumerateSwapchainFormats app.m_session 0,
            .xrEnumerateSwapchainFormats app.m_session rt.formats.length] ++
           (if (CreateSwapchains_scanned table app rt).nativeColorFormat = 0 then
              [.cerr .noColorFormat] else []) ++
           [.cerr .noDepthFormat] ++
           (List.range app.m_viewConfigurationViews.length).flatMap (fun i =>
              CreateSwapchains_view_calls app.m_session
                (CreateSwapchains_scanned table app rt).nativeColorFormat 0
                (app.m_viewConfigurationViews.getD i default)
                (rt.swapchains.getD i default)))) := by
  have hloop : ∀ nc nd : Int,
      (CreateSwapchains_loop rt nc nd
        ((CreateSwapchains_stored table app rt).emit (CreateSwapchains_messages nc nd))).trace =
      app.trace ++
        ([.xrEnumerateSwapchainFormats app.m_session 0,
          .xrEnumerateSwapchainFormats app.m_session rt.formats.length] ++
         CreateSwapchains_messages nc nd ++
         (List.range app.m_viewConfigurationViews.length).flatMap (fun i =>
            CreateSwapchains_view_calls app.m_session nc nd
              (app.m_viewConfigurationViews.getD i default)
              (rt.swapchains.getD i default))) := by
    intro nc nd
    rw [(CreateSwapchains_loop_shape rt nc nd _).1]
    simp [emit, CreateSwapchains_stored, List.append_assoc]
  constructor
  · intro h
    have hc := scanned_no_color table app rt h
    refine ⟨hc, ?_, ?_, ?_, ?_, ?_, ?_⟩
    · rw [CreateSwapchains_eq, hc]
      simp [CreateSwapchains_create]
    · rw [CreateSwapchains_eq, hc]
      simp [CreateSwapchains_create, emit, CreateSwapchains_stored]
    · rw [CreateSwapchains_eq, hc]
      simp [CreateSwapchains_create, emit, CreateSwapchains_stored]
    · rw [CreateSwapchains_eq, hc]
      simp [CreateSwapchains_create, emit, CreateSwapchains_stored]
    · rw [CreateSwapchains_eq, CreateSwapchains_create_returns]
    · rw [CreateSwapchains_eq, CreateSwapchains_create_returns, hc]
      rw [hloop]
      simp [CreateSwapchains_messages, List.append_assoc]
  · intro h
    have hd := scanned_no_depth table app rt h
    refine ⟨hd, ?_, ?_, ?_, ?_, ?_, ?_⟩
    · rw [CreateSwapchains_eq, hd]
      by_cases hc : (CreateSwapchains_scanned table app rt).nativeColorFormat = 0 <;>
        simp [CreateSwapchains_create, hc]
    · rw [CreateSwapchains_eq, hd]
      by_cases hc : (CreateSwapchains_scanned table app rt).nativeColorFormat = 0 <;>
        simp [CreateSwapchains_create, emit, CreateSwapchains_stored, hc]
    · rw [CreateSwapchains_eq, hd]
      by_cases hc : (CreateSwapchains_scanned table app rt).nativeColorFormat = 0 <;>
        simp [CreateSwapchains_create, emit, CreateSwapchains_stored, hc]
    · rw [CreateSwapchains_eq, hd]
      by_cases hc : (CreateSwapchains_scanned table app rt).nativeColorFormat = 0 <;>
        simp [CreateSwapchains_create, emit, CreateSwapchains_stored, hc]
    · rw [CreateSwapchains_eq, CreateSwapchains_create_returns]
    · rw [CreateSwapchains_eq, CreateSwapchains_create_returns, hd]
      rw [hloop]
      simp [CreateSwapchains_messages, List.append_assoc]

/-- Witness for C15 (amended): a format list with a depth format only, for which
the program stops after the message for the color format, and a format list with a
color format only, for which it stops after the message for the depth format. -/
theorem C15_missing_format_witness :
    ((∀ f ∈ [(124 : Int)],
        sampleTable.IsDepthStencil (sampleTable.GetTextureFormatFromNative f) = true) ∧
      (CreateSwapchains .stops sampleTable sampleSetup
        ⟨[124], [⟨10, 20, 3, 3⟩, ⟨11, 21, 3, 3⟩]⟩).app.trace =
        sampleSetup.trace ++ [.xrEnumerateSwapchainFormats sampleSetup.m_session 0,
          .xrEnumerateSwapchainFormats sampleSetup.m_session 1, .cerr .noColorFormat]) ∧
    ((∀ f ∈ [(37 : Int)],
        sampleTable.IsDepthStencil (sampleTable.GetTextureFormatFromNative f) = false) ∧
      (CreateSwapchains .stops sampleTable sampleSetup
        ⟨[37], [⟨10, 20, 3, 3⟩, ⟨11, 21, 3, 3⟩]⟩).stopped =
        some .noDepthFormat ∧
      (CreateSwapchains .stops sampleTable sampleSetup
        ⟨[37], [⟨10, 20, 3, 3⟩, ⟨11, 21, 3, 3⟩]⟩).app.trace =
        sampleSetup.trace ++ [.xrEnumerateSwapchainFormats sampleSetup.m_session 0,
          .xrEnumerateSwapchainFormats sampleSetup.m_session 1, .cerr .noDepthFormat]) :=
  ⟨⟨by decide,
    ((C15_missing_format sampleTable sampleSetup ⟨[124], [⟨10, 20, 3, 3⟩, ⟨11, 21, 3, 3⟩]⟩).1
      (by decide)).2.2.1⟩,
   ⟨by decide,
    ((C15_missing_format sampleTable sampleSetup ⟨[37], [⟨10, 20, 3, 3⟩, ⟨11, 21, 3, 3⟩]⟩).2
      (by decide)).2.1,
    ((C15_missing_format sampleTable sampleSetup ⟨[37], [⟨10, 20, 3, 3⟩, ⟨11, 21, 3, 3⟩]⟩).2
      (by decide)).2.2.1⟩⟩

/-- C16 at a failing input: one of the views gets a color swapchain of three images
and a depth swapchain of two.  The color swapchain has three views, view `j` over
image `j`; the depth swapchain also has three entries, one more than its images,
and the third is a null view.  With two color images and three depth images the
depth swapchain has two views only, and no view over its image 2. -/
theorem C16_depth_views_follow_color_count :
    (CreateSwapchains .stops sampleTable sampleSetup
      ⟨[124, 37], [⟨10, 20, 3, 2⟩, ⟨11, 21, 2, 3⟩]⟩).app.m_colorSwapchainInfos.map
        SwapchainInfo.views =
      [[some ⟨10, 0⟩, some ⟨10, 1⟩, some ⟨10, 2⟩], [some ⟨11, 0⟩, some ⟨11, 1⟩]] ∧
    (CreateSwapchains .stops sampleTable sampleSetup
      ⟨[124, 37], [⟨10, 20, 3, 2⟩, ⟨11, 21, 2, 3⟩]⟩).app.m_depthSwapchainInfos.map
        SwapchainInfo.views =
      [[some ⟨20, 0⟩, some ⟨20, 1⟩, none], [some ⟨21, 0⟩, some ⟨21, 1⟩]] := by
  decide

/-- C17 at a failing input: two color images and three depth images per view, and
the runtime hands out color image 1 and depth image 2 for the first view.  The
color view is found; the depth vector has two entries only, so the lookup at
index 2 is outside the vector and the depth target bound is no view. -/
theorem C17_depth_lookup_out_of_range :
    ((CreateSwapchains .stops sampleTable sampleSetup
      ⟨[124, 37], [⟨10, 20, 2, 3⟩, ⟨11, 21, 2, 3⟩]⟩).app.m_depthSwapchainInfos.getD 0
        default).views.length = 2 ∧
    Call.SetRenderTargets (some ⟨10, 1⟩) none ∈
      ((CreateSwapchains .stops sampleTable sampleSetup
        ⟨[124, 37], [⟨10, 20, 2, 3⟩, ⟨11, 21, 2, 3⟩]⟩).app.RenderLayer
          ⟨100, true, 0, 3, [⟨⟨1⟩, ⟨2⟩⟩, ⟨⟨3⟩, ⟨4⟩⟩], [(1, 2), (0, 0)]⟩
          ⟨100, [], default, []⟩).app.trace := by
  decide

/-- C18: whenever `CreateSwapchains` is not stopped in `DEBUG_BREAK`, the calls of
`xrCreateSwapchain` it makes are, for every configured view in order, one for a
color swapchain and one for a depth swapchain, both with the recommended sample
count, width and height of that same view and with the native format the scan
chose; and both vectors of swapchains end with one entry per view. -/
theorem C18_swapchains_per_view (debugBreak : DEBUG_BREAK) (table : TextureFormatTable)
    (app : OpenXRTutorial) (rt : CreateSwapchainsAnswers)
    (h : (CreateSwapchains debugBreak table app rt).stopped = none) :
    (∃ calls : List Call,
      (CreateSwapchains debugBreak table app rt).app.trace = app.trace ++ calls ∧
      calls.filter isCreateSwapchain =
        app.m_viewConfigurationViews.flatMap (fun view =>
          [Call.xrCreateSwapchain app.m_session
              { createFlags := 0
                usageFlags :=
                  XR_SWAPCHAIN_USAGE_SAMPLED_BIT ||| XR_SWAPCHAIN_USAGE_COLOR_ATTACHMENT_BIT
                format := (CreateSwapchains_scanned table app rt).nativeColorFormat
                sampleCount := view.recommendedSwapchainSampleCount
                width := view.recommendedImageRectWidth
                height := view.recommendedImageRectHeight
                faceCount := 1
                arraySize := 1
                mipCount := 1 },
           Call.xrCreateSwapchain app.m_session
              { createFlags := 0
                usageFlags :=
                  XR_SWAPCHAIN_USAGE_SAMPLED_BIT |||
                    XR_SWAPCHAIN_USAGE_DEPTH_STENCIL_ATTACHMENT_BIT
                format := (CreateSwapchains_scanned table app rt).nativeDepthFormat
                sampleCount := view.recommendedSwapchainSampleCount
                width := view.recommendedImageRectWidth
                height := view.recommendedImageRectHeight
                faceCount := 1
                arraySize := 1
                mipCount := 1 }])) ∧
    (CreateSwapchains debugBreak table app rt).app.m_colorSwapchainInfos.length =
      app.m_viewConfigurationViews.length ∧
    (CreateSwapchains debugBreak table app rt).app.m_depthSwapchainInfos.length =
      app.m_viewConfigurationViews.length := by
  rw [CreateSwapchains_eq] at h ⊢
  obtain ⟨messages, hm, happ⟩ := CreateSwapchains_create_completed debugBreak rt _ _ _ h
  obtain ⟨calls, h1, h2⟩ := CreateSwapchains_loop_creates rt
    (CreateSwapchains_scanned table app rt).nativeColorFormat
    (CreateSwapchains_scanned table app rt).nativeDepthFormat
    ((CreateSwapchains_stored table app rt).emit messages)
  obtain ⟨_, k2, k3⟩ := CreateSwapchains_loop_shape rt
    (CreateSwapchains_scanned table app rt).nativeColorFormat
    (CreateSwapchains_scanned table app rt).nativeDepthFormat
    ((CreateSwapchains_stored table app rt).emit messages)
  rw [happ]
  refine ⟨⟨[.xrEnumerateSwapchainFormats app.m_session 0,
      .xrEnumerateSwapchainFormats app.m_session rt.formats.length] ++ messages ++ calls,
    ?_, ?_⟩, k2, k3⟩
  · rw [h1]
    simp [emit, CreateSwapchains_stored, List.append_assoc]
  · rw [List.filter_append, List.filter_append, hm, h2]
    rfl

/-- Witness for C18: two views of different sizes, and a format list with a depth
and a color format. -/
theorem C18_swapchains_per_view_witness :
    (CreateSwapchains .stops sampleTable
      { sampleSetup with m_viewConfigurationViews := [⟨1024, 1024, 1⟩, ⟨640, 480, 4⟩] }
      ⟨[124, 37], [⟨10, 20, 3, 3⟩, ⟨11, 21, 3, 3⟩]⟩).stopped = none ∧
    (CreateSwapchains .stops sampleTable
      { sampleSetup with m_viewConfigurationViews := [⟨1024, 1024, 1⟩, ⟨640, 480, 4⟩] }
      ⟨[124, 37], [⟨10, 20, 3, 3⟩, ⟨11, 21, 3, 3⟩]⟩).app.m_colorSwapchainInfos.length = 2 ∧
    (CreateSwapchains .stops sampleTable
      { sampleSetup with m_viewConfigurationViews := [⟨1024, 1024, 1⟩, ⟨640, 480, 4⟩] }
      ⟨[124, 37], [⟨10, 20, 3, 3⟩, ⟨11, 21, 3, 3⟩]⟩).app.m_depthSwapchainInfos.length = 2 :=
  ⟨by decide,
    (C18_swapchains_per_view .stops sampleTable
      { sampleSetup with m_viewConfigurationViews := [⟨1024, 1024, 1⟩, ⟨640, 480, 4⟩] }
      ⟨[124, 37], [⟨10, 20, 3, 3⟩, ⟨11, 21, 3, 3⟩]⟩ (by decide)).2⟩

/-- C19, as the claim states it, fails: a second call of `DestroySwapchains` does
not leave the object as the first call left it, because it appends four more calls
of `xrDestroySwapchain` for the two views of `sample`. -/
theorem C19_counterexample :
    sample.DestroySwapchains.DestroySwapchains ≠ sample.DestroySwapchains ∧
    sample.DestroySwapchains.trace.countP isDestroySwapchain = 4 ∧
    sample.DestroySwapchains.DestroySwapchains.trace.countP isDestroySwapchain = 8 := by
  decide

/-- C19, amended: a second call of `DestroySwapchains` leaves every member as the
first call left it, and it repeats the calls of the first: for every view it clears
the two (now empty) view vectors and calls `xrDestroySwapchain` again for the color
and for the depth swapchain of the view. -/
theorem C19_second_call_repeats_destroy (app : OpenXRTutorial) :
    app.DestroySwapchains.DestroySwapchains =
      app.DestroySwapchains.emit
        ((List.range app.m_viewConfigurationViews.length).flatMap (fun i =>
          [.views_clear (app.m_colorSwapchainInfos.getD i default).swapchain [],
           .views_clear (app.m_depthSwapchainInfos.getD i default).swapchain [],
           .xrDestroySwapchain (app.m_colorSwapchainInfos.getD i default).swapchain,
           .xrDestroySwapchain (app.m_depthSwapchainInfos.getD i default).swapchain])) := by
  have hcalls : (List.range app.m_viewConfigurationViews.length).flatMap (fun i =>
        DestroySwapchains_view_calls
          ((clearViewsPrefix app.m_viewConfigurationViews.length
            app.m_colorSwapchainInfos).getD i default)
          ((clearViewsPrefix app.m_viewConfigurationViews.length
            app.m_depthSwapchainInfos).getD i default)) =
      (List.range app.m_viewConfigurationViews.length).flatMap (fun i =>
        [.views_clear (app.m_colorSwapchainInfos.getD i default).swapchain [],
         .views_clear (app.m_depthSwapchainInfos.getD i default).swapchain [],
         .xrDestroySwapchain (app.m_colorSwapchainInfos.getD i default).swapchain,
         .xrDestroySwapchain (app.m_depthSwapchainInfos.getD i default).swapchain]) := by
    apply List.flatMap_congr
    intro i hi
    rw [clearViewsPrefix_getD_lt _ _ _ (List.mem_range.mp hi),
      clearViewsPrefix_getD_lt _ _ _ (List.mem_range.mp hi)]
    rfl
  rw [DestroySwapchains_eq app.DestroySwapchains]
  rw [DestroySwapchains_eq app]
  simp only [clearViewsPrefix_idem, hcalls, emit]

/-- C20: when the two vectors of swapchains have no more entries than there are
views, the calls of `DestroySwapchains` are, for every view in order: clear the
views of the color swapchain, clear the views of the depth swapchain, destroy the
color swapchain, destroy the depth swapchain.  So every `xrDestroySwapchain` comes
after the release of all views of the same swapchain, and afterwards the view list
of every swapchain is empty. -/
theorem C20_views_released_before_destroy (app : OpenXRTutorial)
    (hcolor : app.m_colorSwapchainInfos.length ≤ app.m_viewConfigurationViews.length)
    (hdepth : app.m_depthSwapchainInfos.length ≤ app.m_viewConfigurationViews.length) :
    (∃ calls : List Call,
      app.DestroySwapchains.trace = app.trace ++ calls ∧
      calls = (List.range app.m_viewConfigurationViews.length).flatMap (fun i =>
        [.views_clear (app.m_colorSwapchainInfos.getD i default).swapchain
            (app.m_colorSwapchainInfos.getD i default).views,
         .views_clear (app.m_depthSwapchainInfos.getD i default).swapchain
            (app.m_depthSwapchainInfos.getD i default).views,
         .xrDestroySwapchain (app.m_colorSwapchainInfos.getD i default).swapchain,
         .xrDestroySwapchain (app.m_depthSwapchainInfos.getD i default).swapchain]) ∧
      ∀ (pre post : List Call) (swapchain : XrSwapchain),
        calls = pre ++ .xrDestroySwapchain swapchain :: post →
          ∃ views, Call.views_clear swapchain views ∈ pre) ∧
    (∀ info ∈ app.DestroySwapchains.m_colorSwapchainInfos, info.views = []) ∧
    (∀ info ∈ app.DestroySwapchains.m_depthSwapchainInfos, info.views = []) := by
  rw [DestroySwapchains_eq app]
  refine ⟨⟨_, rfl, rfl, ?_⟩, ?_, ?_⟩
  · intro pre post swapchain h
    exact DestroySwapchains_calls_order
      (fun i => app.m_colorSwapchainInfos.getD i default)
      (fun i => app.m_depthSwapchainInfos.getD i default) _ pre post swapchain h
  · exact clearViewsPrefix_all _ _ hcolor
  · exact clearViewsPrefix_all _ _ hdepth

/-- Witness for C20: the object `sample`, with two views and two swapchains of
each kind. -/
theorem C20_views_released_before_destroy_witness :
    sample.m_colorSwapchainInfos.length ≤ sample.m_viewConfigurationViews.length ∧
    sample.m_depthSwapchainInfos.length ≤ sample.m_viewConfigurationViews.length ∧
    (∀ info ∈ sample.DestroySwapchains.m_colorSwapchainInfos, info.views = []) ∧
    (∀ info ∈ sample.DestroySwapchains.m_depthSwapchainInfos, info.views = []) :=
  ⟨by decide, by decide,
    (C20_views_released_before_destroy sample (by decide) (by decide)).2⟩

/-- C21: called as in `Run`, on an object whose `m_viewConfiguration` and
`m_environmentBlendMode` still hold the initial value `MAX_ENUM`, both negotiations
give a value for every list of the runtime: the first entry of the list of the
application, in its order, that the list of the runtime contains, and when there
is none, the default `XR_VIEW_CONFIGURATION_TYPE_PRIMARY_STEREO` respectively
`XR_ENVIRONMENT_BLEND_MODE_OPAQUE`, which the list of the runtime then does not
contain.  The same holds for the blend mode when `GetEnvironmentBlendModes` runs
after `GetViewConfigurationViews`, as in `Run`. -/
theorem C21_negotiation_soft_fallback (app : OpenXRTutorial) (rt : ViewConfigurationAnswers)
    (environmentBlendModes : List XrEnvironmentBlendMode)
    (hv : app.m_viewConfiguration = .XR_VIEW_CONFIGURATION_TYPE_MAX_ENUM)
    (hb : app.m_environmentBlendMode = .XR_ENVIRONMENT_BLEND_MODE_MAX_ENUM) :
    (app.GetViewConfigurationViews rt).m_viewConfiguration =
      (match m_applicationViewConfigurations.find?
          (fun m => decide (m ∈ rt.viewConfigurations)) with
        | some m => m
        | none => .XR_VIEW_CONFIGURATION_TYPE_PRIMARY_STEREO) ∧
    (m_applicationViewConfigurations.find? (fun m => decide (m ∈ rt.viewConfigurations)) = none →
      XrViewConfigurationType.XR_VIEW_CONFIGURATION_TYPE_PRIMARY_STEREO ∉ rt.viewConfigurations) ∧
    (app.GetEnvironmentBlendModes environmentBlendModes).m_environmentBlendMode =
      (match m_applicationEnvironmentBlendModes.find?
          (fun m => decide (m ∈ environmentBlendModes)) with
        | some m => m
        | none => .XR_ENVIRONMENT_BLEND_MODE_OPAQUE) ∧
    (m_applicationEnvironmentBlendModes.find? (fun m => decide (m ∈ environmentBlendModes)) = none →
      XrEnvironmentBlendMode.XR_ENVIRONMENT_BLEND_MODE_OPAQUE ∉ environmentBlendModes) ∧
    ((app.GetViewConfigurationViews rt).GetEnvironmentBlendModes
        environmentBlendModes).m_environmentBlendMode =
      (app.GetEnvironmentBlendModes environmentBlendModes).m_environmentBlendMode := by
  have hblend : ∀ a : OpenXRTutorial,
      a.m_environmentBlendMode = .XR_ENVIRONMENT_BLEND_MODE_MAX_ENUM →
      (a.GetEnvironmentBlendModes environmentBlendModes).m_environmentBlendMode =
        (match m_applicationEnvironmentBlendModes.find?
            (fun m => decide (m ∈ environmentBlendModes)) with
          | some m => m
          | none => .XR_ENVIRONMENT_BLEND_MODE_OPAQUE) := by
    intro a ha
    simp only [GetEnvironmentBlendModes, emit, ha, pickFirstSupported_eq,
      m_applicationEnvironmentBlendModes, List.find?]
    by_cases h1 : XrEnvironmentBlendMode.XR_ENVIRONMENT_BLEND_MODE_OPAQUE ∈ environmentBlendModes
    · simp [h1]
    · by_cases h2 : XrEnvironmentBlendMode.XR_ENVIRONMENT_BLEND_MODE_ADDITIVE ∈
          environmentBlendModes
      · simp [h1, h2]
      · simp [h1, h2]
  refine ⟨?_, ?_, hblend app hb, ?_, ?_⟩
  · simp only [GetViewConfigurationViews, emit, hv, pickFirstSupported_eq,
      m_applicationViewConfigurations, List.find?]
    by_cases h1 : XrViewConfigurationType.XR_VIEW_CONFIGURATION_TYPE_PRIMARY_STEREO ∈
        rt.viewConfigurations
    · simp [h1]
    · by_cases h2 : XrViewConfigurationType.XR_VIEW_CONFIGURATION_TYPE_PRIMARY_MONO ∈
          rt.viewConfigurations
      · simp [h1, h2]
      · simp [h1, h2]
  · intro hnone hmem
    simp [m_applicationViewConfigurations, List.find?, hmem] at hnone
  · intro hnone hmem
    simp [m_applicationEnvironmentBlendModes, List.find?, hmem] at hnone
  · rw [hblend app hb,
      hblend _ (by rw [GetViewConfigurationViews_m_environmentBlendMode]; exact hb)]

/-- Witness for C21: the freshly constructed object, a runtime that offers only the
mono view configuration, and a runtime that offers only the alpha blend mode. -/
theorem C21_negotiation_soft_fallback_witness :
    initial.m_viewConfiguration = .XR_VIEW_CONFIGURATION_TYPE_MAX_ENUM ∧
    initial.m_environmentBlendMode = .XR_ENVIRONMENT_BLEND_MODE_MAX_ENUM ∧
    (initial.GetViewConfigurationViews
      ⟨[.XR_VIEW_CONFIGURATION_TYPE_PRIMARY_MONO], [⟨1024, 1024, 1⟩]⟩).m_viewConfiguration =
        .XR_VIEW_CONFIGURATION_TYPE_PRIMARY_MONO ∧
    (initial.GetEnvironmentBlendModes
      [.XR_ENVIRONMENT_BLEND_MODE_ALPHA_BLEND]).m_environmentBlendMode =
        .XR_ENVIRONMENT_BLEND_MODE_OPAQUE :=
  ⟨rfl, rfl,
   (C21_negotiation_soft_fallback initial
      ⟨[.XR_VIEW_CONFIGURATION_TYPE_PRIMARY_MONO], [⟨1024, 1024, 1⟩]⟩
      [.XR_ENVIRONMENT_BLEND_MODE_ALPHA_BLEND] rfl rfl).1,
   (C21_negotiation_soft_fallback initial
      ⟨[.XR_VIEW_CONFIGURATION_TYPE_PRIMARY_MONO], [⟨1024, 1024, 1⟩]⟩
      [.XR_ENVIRONMENT_BLEND_MODE_ALPHA_BLEND] rfl rfl).2.2.1⟩

/-- C23: take a call of `RenderLayer` in which every access of the per view loop is
defined: each located view `i` has a color and a depth `SwapchainInfo` and a
configured view, and the image indices that the two acquire calls of view `i`
return are inside the view vectors of these swapchains, at entries that are not
null.  Then the calls of `RenderLayer` are `xrLocateViews` and, when it succeeded,
for every located view in order: acquire the color swapchain of the view, acquire
its depth swapchain, wait on the color swapchain, wait on the depth swapchain, set
as render targets the view stored at the acquired color index of the color
swapchain and the view stored at the acquired depth index of the depth swapchain,
release the color swapchain, release the depth swapchain.  Each of the six
swapchain calls occurs once per view, and the indices are those of the answers of
this frame: in a frame that follows another frame, the render targets are chosen
by the acquire calls of the later frame alone. -/
theorem C23_acquire_wait_release_per_view (app : OpenXRTutorial) (rt earlier : XrFrameAnswers)
    (info : RenderLayerInfo)
    (hdefined : ∀ i, i < rt.views.length → RenderLayer_view_defined app rt i = true) :
    ∃ (color depth : Nat → SwapchainInfo) (rtv dsv : Nat → ITextureView),
      (∀ i, i < rt.views.length →
        app.m_colorSwapchainInfos[i]? = some (color i) ∧
        app.m_depthSwapchainInfos[i]? = some (depth i) ∧
        (color i).views[(rt.acquired.getD i (0, 0)).1]? = some (some (rtv i)) ∧
        (depth i).views[(rt.acquired.getD i (0, 0)).2]? = some (some (dsv i))) ∧
      (app.RenderLayer rt info).app.trace = app.trace ++
        .xrLocateViews app.m_session app.m_viewConfiguration info.predictedDisplayTime
            app.m_localSpace (app.m_viewConfigurationViews.length % 2 ^ 32) ::
          (if rt.locateResult = XR_SUCCESS then
            (List.range rt.views.length).flatMap (fun i =>
              [.xrAcquireSwapchainImage (color i).swapchain,
               .xrAcquireSwapchainImage (depth i).swapchain,
               .xrWaitSwapchainImage (color i).swapchain XR_INFINITE_DURATION,
               .xrWaitSwapchainImage (depth i).swapchain XR_INFINITE_DURATION,
               .SetRenderTargets (some (rtv i)) (some (dsv i)),
               .xrReleaseSwapchainImage (color i).swapchain,
               .xrReleaseSwapchainImage (depth i).swapchain])
          else []) ∧
      ((app.RenderFrame earlier).RenderLayer rt info).app.trace =
        (app.RenderFrame earlier).trace ++
        .xrLocateViews app.m_session app.m_viewConfiguration info.predictedDisplayTime
            app.m_localSpace (app.m_viewConfigurationViews.length % 2 ^ 32) ::
          (if rt.locateResult = XR_SUCCESS then
            (List.range rt.views.length).flatMap (fun i =>
              [.xrAcquireSwapchainImage (color i).swapchain,
               .xrAcquireSwapchainImage (depth i).swapchain,
               .xrWaitSwapchainImage (color i).swapchain XR_INFINITE_DURATION,
               .xrWaitSwapchainImage (depth i).swapchain XR_INFINITE_DURATION,
               .SetRenderTargets (some (rtv i)) (some (dsv i)),
               .xrReleaseSwapchainImage (color i).swapchain,
               .xrReleaseSwapchainImage (depth i).swapchain])
          else []) := by
  have hrtv : ∀ i, i < rt.views.length →
      (app.m_colorSwapchainInfos.getD i default).views[(rt.acquired.getD i (0, 0)).1]? =
        some (some (((app.m_colorSwapchainInfos.getD i default).views.getD
          (rt.acquired.getD i (0, 0)).1 none).getD ⟨0, 0⟩)) := by
    intro i hi
    obtain ⟨v, hv⟩ := (RenderLayer_view_defined_spec app rt i (hdefined i hi)).2.2.1
    rw [hv, List.getD_eq_getElem?_getD, hv]
    rfl
  have hdsv : ∀ i, i < rt.views.length →
      (app.m_depthSwapchainInfos.getD i default).views[(rt.acquired.getD i (0, 0)).2]? =
        some (some (((app.m_depthSwapchainInfos.getD i default).views.getD
          (rt.acquired.getD i (0, 0)).2 none).getD ⟨0, 0⟩)) := by
    intro i hi
    obtain ⟨v, hv⟩ := (RenderLayer_view_defined_spec app rt i (hdefined i hi)).2.2.2
    rw [hv, List.getD_eq_getElem?_getD, hv]
    rfl
  have hcalls : (List.range rt.views.length).flatMap (RenderLayer_view_emitted app rt) =
      (List.range rt.views.length).flatMap (fun i =>
        [.xrAcquireSwapchainImage (app.m_colorSwapchainInfos.getD i default).swapchain,
         .xrAcquireSwapchainImage (app.m_depthSwapchainInfos.getD i default).swapchain,
         .xrWaitSwapchainImage (app.m_colorSwapchainInfos.getD i default).swapchain
            XR_INFINITE_DURATION,
         .xrWaitSwapchainImage (app.m_depthSwapchainInfos.getD i default).swapchain
            XR_INFINITE_DURATION,
         .SetRenderTargets
            (some (((app.m_colorSwapchainInfos.getD i default).views.getD
              (rt.acquired.getD i (0, 0)).1 none).getD ⟨0, 0⟩))
            (some (((app.m_depthSwapchainInfos.getD i default).views.getD
              (rt.acquired.getD i (0, 0)).2 none).getD ⟨0, 0⟩)),
         .xrReleaseSwapchainImage (app.m_colorSwapchainInfos.getD i default).swapchain,
         .xrReleaseSwapchainImage (app.m_depthSwapchainInfos.getD i default).swapchain]) := by
    apply List.flatMap_congr
    intro i hi
    have h1 := hrtv i (List.mem_range.mp hi)
    have h2 := hdsv i (List.mem_range.mp hi)
    have e1 : (app.m_colorSwapchainInfos.getD i default).views.getD
        (rt.acquired.getD i (0, 0)).1 none =
        some (((app.m_colorSwapchainInfos.getD i default).views.getD
          (rt.acquired.getD i (0, 0)).1 none).getD ⟨0, 0⟩) := by
      conv_lhs => rw [List.getD_eq_getElem?_getD, h1]
      rfl
    have e2 : (app.m_depthSwapchainInfos.getD i default).views.getD
        (rt.acquired.getD i (0, 0)).2 none =
        some (((app.m_depthSwapchainInfos.getD i default).views.getD
          (rt.acquired.getD i (0, 0)).2 none).getD ⟨0, 0⟩) := by
      conv_lhs => rw [List.getD_eq_getElem?_getD, h2]
      rfl
    simp only [RenderLayer_view_emitted]
    rw [← e1, ← e2]
  refine ⟨fun i => app.m_colorSwapchainInfos.getD i default,
    fun i => app.m_depthSwapchainInfos.getD i default,
    fun i => ((app.m_colorSwapchainInfos.getD i default).views.getD
      (rt.acquired.getD i (0, 0)).1 none).getD ⟨0, 0⟩,
    fun i => ((app.m_depthSwapchainInfos.getD i default).views.getD
      (rt.acquired.getD i (0, 0)).2 none).getD ⟨0, 0⟩, ?_, ?_, ?_⟩
  · intro i hi
    exact ⟨(RenderLayer_view_defined_spec app rt i (hdefined i hi)).1,
      (RenderLayer_view_defined_spec app rt i (hdefined i hi)).2.1, hrtv i hi, hdsv i hi⟩
  · rw [RenderLayer_trace, hcalls]
  · obtain ⟨calls, hc, _⟩ := RenderFrame_calls_kind app earlier
    rw [RenderLayer_trace, hc]
    have hsame : (List.range rt.views.length).flatMap
        (RenderLayer_view_emitted (app.emit calls) rt) =
        (List.range rt.views.length).flatMap (RenderLayer_view_emitted app rt) := rfl
    rw [hsame, hcalls]
    rfl

/-- Witness for C23: the frame `sampleFrame` of `sampleVisible`, whose swapchains
have three views each, and the calls of that frame. -/
theorem C23_acquire_wait_release_per_view_witness :
    (∀ i, i < sampleFrame.views.length →
      RenderLayer_view_defined sampleVisible sampleFrame i = true) ∧
    (∃ (color depth : Nat → SwapchainInfo) (rtv dsv : Nat → ITextureView),
      (∀ i, i < sampleFrame.views.length →
        sampleVisible.m_colorSwapchainInfos[i]? = some (color i) ∧
        sampleVisible.m_depthSwapchainInfos[i]? = some (depth i) ∧
        (color i).views[(sampleFrame.acquired.getD i (0, 0)).1]? = some (some (rtv i)) ∧
        (depth i).views[(sampleFrame.acquired.getD i (0, 0)).2]? = some (some (dsv i))) ∧
      (sampleVisible.RenderLayer sampleFrame ⟨100, [], default, []⟩).app.trace =
        sampleVisible.trace ++
        .xrLocateViews sampleVisible.m_session sampleVisible.m_viewConfiguration 100
            sampleVisible.m_localSpace (sampleVisible.m_viewConfigurationViews.length % 2 ^ 32) ::
          (if sampleFrame.locateResult = XR_SUCCESS then
            (List.range sampleFrame.views.length).flatMap (fun i =>
              [.xrAcquireSwapchainImage (color i).swapchain,
               .xrAcquireSwapchainImage (depth i).swapchain,
               .xrWaitSwapchainImage (color i).swapchain XR_INFINITE_DURATION,
               .xrWaitSwapchainImage (depth i).swapchain XR_INFINITE_DURATION,
               .SetRenderTargets (some (rtv i)) (some (dsv i)),
               .xrReleaseSwapchainImage (color i).swapchain,
               .xrReleaseSwapchainImage (depth i).swapchain])
          else [])) ∧
    (sampleVisible.RenderLayer sampleFrame ⟨100, [], default, []⟩).app.trace =
      [.xrLocateViews 1 .XR_VIEW_CONFIGURATION_TYPE_PRIMARY_STEREO 100 2 2,
       .xrAcquireSwapchainImage 10, .xrAcquireSwapchainImage 20,
       .xrWaitSwapchainImage 10 XR_INFINITE_DURATION,
       .xrWaitSwapchainImage 20 XR_INFINITE_DURATION,
       .SetRenderTargets (some ⟨10, 1⟩) (some ⟨20, 2⟩),
       .xrReleaseSwapchainImage 10, .xrReleaseSwapchainImage 20,
       .xrAcquireSwapchainImage 11, .xrAcquireSwapchainImage 21,
       .xrWaitSwapchainImage 11 XR_INFINITE_DURATION,
       .xrWaitSwapchainImage 21 XR_INFINITE_DURATION,
       .SetRenderTargets (some ⟨11, 0⟩) (some ⟨21, 0⟩),
       .xrReleaseSwapchainImage 11, .xrReleaseSwapchainImage 21] :=
  ⟨by decide,
   (C23_acquire_wait_release_per_view sampleVisible sampleFrame sampleFrame
      ⟨100, [], default, []⟩ (by decide)).imp fun _ h =>
        h.imp fun _ h => h.imp fun _ h => h.imp fun _ h => ⟨h.1, h.2.1⟩,
   by decide⟩

/-- C24: the calls that `Run` makes after its loop are, in this order: the calls of
`DestroySwapchains` (for every view, clear the views of and destroy the color and
the depth swapchain), `xrDestroySpace` for `m_localSpace`, `xrDestroySession` for
`m_session`, the destruction of the debug messenger if there is one, and
`xrDestroyInstance`.  So every `xrDestroySwapchain` and the `xrDestroySpace` come
before `xrDestroySession`, none comes after it, and none of the calls after the
loop is `xrWaitFrame`, `xrBeginFrame` or `xrEndFrame`. -/
theorem C24_teardown_order (ticks : List TickAnswers) (app : OpenXRTutorial) :
    ∃ (after : OpenXRTutorial) (swapchainCalls rest : List Call),
      after = Run_loop ticks app ∧
      (Run_after_setup ticks app).trace = after.trace ++
        (swapchainCalls ++
          [.xrDestroySpace after.m_localSpace, .xrDestroySession after.m_session] ++ rest) ∧
      swapchainCalls = (List.range after.m_viewConfigurationViews.length).flatMap (fun i =>
        [.views_clear (after.m_colorSwapchainInfos.getD i default).swapchain
            (after.m_colorSwapchainInfos.getD i default).views,
         .views_clear (after.m_depthSwapchainInfos.getD i default).swapchain
            (after.m_depthSwapchainInfos.getD i default).views,
         .xrDestroySwapchain (after.m_colorSwapchainInfos.getD i default).swapchain,
         .xrDestroySwapchain (after.m_depthSwapchainInfos.getD i default).swapchain]) ∧
      rest =
        (if after.m_debugUtilsMessenger ≠ XR_NULL_HANDLE then
          [.DestroyOpenXRDebugUtilsMessenger after.m_xrInstance after.m_debugUtilsMessenger]
        else []) ++ [.xrDestroyInstance after.m_xrInstance] ∧
      (∀ c ∈ rest, isDestroySwapchain c = false ∧ isDestroySpace c = false) ∧
      (∀ c ∈ swapchainCalls ++
          [.xrDestroySpace after.m_localSpace, .xrDestroySession after.m_session] ++ rest,
        isFrameCall c = false) := by
  refine ⟨Run_loop ticks app, _, _, rfl, ?_, rfl, rfl, ?_, ?_⟩
  · simp only [Run_after_setup, Run_teardown, DestroyReferenceSpace, DestroySession,
      DestroyDebugMessenger, DestroyInstance]
    rw [DestroySwapchains_eq]
    by_cases hm : (Run_loop ticks app).m_debugUtilsMessenger = XR_NULL_HANDLE
    · simp [emit, hm, DestroySwapchains_view_calls]
    · simp [emit, hm, DestroySwapchains_view_calls]
  · intro c hc
    by_cases hm : (Run_loop ticks app).m_debugUtilsMessenger = XR_NULL_HANDLE
    · simp [hm] at hc
      subst hc
      exact ⟨rfl, rfl⟩
    · simp [hm] at hc
      rcases hc with hc | hc <;> subst hc <;> exact ⟨rfl, rfl⟩
  · intro c hc
    rcases List.mem_append.mp hc with hc | hc
    · rcases List.mem_append.mp hc with hc | hc
      · exact DestroySwapchains_view_calls_not_frame
          (fun i => (Run_loop ticks app).m_colorSwapchainInfos.getD i default)
          (fun i => (Run_loop ticks app).m_depthSwapchainInfos.getD i default) _ c hc
      · simp at hc
        rcases hc with hc | hc <;> subst hc <;> rfl
    · by_cases hm : (Run_loop ticks app).m_debugUtilsMessenger = XR_NULL_HANDLE
      · simp [hm] at hc
        subst hc
        rfl
      · simp [hm] at hc
        rcases hc with hc | hc <;> subst hc <;> rfl

/-- C25, as the claim states it, fails: after `PollEvents` has handled a pending
reference space change addressed to the current session of `sampleVisible`, the
whole object is as before, with the same handle in `m_localSpace` and no call of
`xrDestroySpace` in the trace, and the frame rendered next locates the views in
that same space 2 and submits a layer that refers to it. -/
theorem C25_counterexample :
    sampleVisible.PollEvents
        [XR_TYPE_EVENT_DATA_REFERENCE_SPACE_CHANGE_PENDING sampleVisible.m_session] =
      sampleVisible ∧
    sampleVisible.m_localSpace = 2 ∧
    (sampleVisible.PollEvents
        [XR_TYPE_EVENT_DATA_REFERENCE_SPACE_CHANGE_PENDING sampleVisible.m_session]).m_localSpace
      = 2 ∧
    ((sampleVisible.PollEvents
        [XR_TYPE_EVENT_DATA_REFERENCE_SPACE_CHANGE_PENDING sampleVisible.m_session]).RenderFrame
          ⟨100, true, 0, 3, [⟨⟨1⟩, ⟨2⟩⟩, ⟨⟨3⟩, ⟨4⟩⟩], [(0, 0), (0, 0)]⟩).trace.take 3 =
      [.xrWaitFrame 1, .xrBeginFrame 1,
       .xrLocateViews 1 .XR_VIEW_CONFIGURATION_TYPE_PRIMARY_STEREO 100 2 2] ∧
    ((sampleVisible.PollEvents
        [XR_TYPE_EVENT_DATA_REFERENCE_SPACE_CHANGE_PENDING sampleVisible.m_session]).RenderFrame
          ⟨100, true, 0, 3, [⟨⟨1⟩, ⟨2⟩⟩, ⟨⟨3⟩, ⟨4⟩⟩], [(0, 0), (0, 0)]⟩).trace.countP
        isDestroySpace = 0 := by
  decide

/-- C25, amended: a pending reference space change, addressed to the current
session or to another one, changes nothing.  `PollEvents` returns the object as it
was, so no call is issued and `m_localSpace` keeps its handle; a call of
`RenderLayer` after the event passes that handle to `xrLocateViews`; and a tick of
the loop of `Run` that receives only this event issues no `xrDestroySpace` and no
`xrCreateReferenceSpace`.  The handle is stored by `CreateReferenceSpace`, which
creates a space of type `LOCAL`, and the space is destroyed by
`DestroyReferenceSpace`, which passes the handle in `m_localSpace` to
`xrDestroySpace`. -/
theorem C25_reference_space_change_only_logged (app : OpenXRTutorial) (session : XrSession)
    (rt : XrFrameAnswers) (info : RenderLayerInfo) :
    app.PollEvents [XR_TYPE_EVENT_DATA_REFERENCE_SPACE_CHANGE_PENDING session] = app ∧
    (app.PollEvents [XR_TYPE_EVENT_DATA_REFERENCE_SPACE_CHANGE_PENDING session]).m_localSpace =
      app.m_localSpace ∧
    (∃ rest,
      ((app.PollEvents
          [XR_TYPE_EVENT_DATA_REFERENCE_SPACE_CHANGE_PENDING session]).RenderLayer rt info).app.trace
        = app.trace ++
          .xrLocateViews app.m_session app.m_viewConfiguration info.predictedDisplayTime
            app.m_localSpace (app.m_viewConfigurationViews.length % 2 ^ 32) :: rest) ∧
    (∃ calls,
      (app.Run_tick ⟨false, [XR_TYPE_EVENT_DATA_REFERENCE_SPACE_CHANGE_PENDING session], rt⟩).trace
        = app.trace ++ calls ∧
      ∀ c ∈ calls, isDestroySpace c = false ∧ isCreateReferenceSpace c = false) ∧
    (∀ space : XrSpace,
      (app.CreateReferenceSpace space).m_localSpace = space ∧
      (app.CreateReferenceSpace space).trace = app.trace ++
        [.xrCreateReferenceSpace app.m_session .XR_REFERENCE_SPACE_TYPE_LOCAL]) ∧
    app.DestroyReferenceSpace.trace = app.trace ++ [.xrDestroySpace app.m_localSpace] := by
  have h : app.PollEvents [XR_TYPE_EVENT_DATA_REFERENCE_SPACE_CHANGE_PENDING session] = app := by
    simp [PollEvents, PollEvents_event]
  refine ⟨h, by rw [h], ?_, ?_, fun _ => ⟨rfl, rfl⟩, rfl⟩
  · rw [h]
    obtain ⟨rest, hr, _⟩ := RenderLayer_calls app rt info
    exact ⟨rest, by rw [hr]; rfl⟩
  · have hp : app.PollSystemEvents false = app := by simp [PollSystemEvents]
    simp only [Run_tick, hp, h]
    by_cases hr : app.m_sessionRunning = true
    · obtain ⟨calls, hc, p⟩ := RenderFrame_calls_kind app rt
      refine ⟨calls, by simp only [hr, if_true]; rw [hc]; rfl, ?_⟩
      intro c hmem
      have := p c hmem
      cases c <;> simp_all [isRenderFrameCall, isDestroySpace, isCreateReferenceSpace]
    · exact ⟨[], by simp [hr], by simp⟩

/-- C26: an events lost notification changes nothing.  `PollEvents` returns the
object as it was, so the stored session state, `m_sessionRunning` and
`m_applicationRunning` are as before and the trace is as before (no call is
issued); and in any event sequence the notification can be left out without
changing the outcome. -/
theorem C26_events_lost_changes_nothing (app : OpenXRTutorial) (lostEventCount : Nat)
    (before after : List XrEventDataBuffer) :
    app.PollEvents [XR_TYPE_EVENT_DATA_EVENTS_LOST lostEventCount] = app ∧
    (app.PollEvents [XR_TYPE_EVENT_DATA_EVENTS_LOST lostEventCount]).m_sessionState =
      app.m_sessionState ∧
    (app.PollEvents [XR_TYPE_EVENT_DATA_EVENTS_LOST lostEventCount]).m_sessionRunning =
      app.m_sessionRunning ∧
    (app.PollEvents [XR_TYPE_EVENT_DATA_EVENTS_LOST lostEventCount]).m_applicationRunning =
      app.m_applicationRunning ∧
    (app.PollEvents [XR_TYPE_EVENT_DATA_EVENTS_LOST lostEventCount]).trace = app.trace ∧
    app.PollEvents (before ++ XR_TYPE_EVENT_DATA_EVENTS_LOST lostEventCount :: after) =
      app.PollEvents (before ++ after) := by
  refine ⟨rfl, rfl, rfl, rfl, rfl, ?_⟩
  rw [PollEvents_append_list, PollEvents_append_list, PollEvents_cons]
  rfl

/-- C27: after `PollEvents` has handled a session state change addressed to the
current session, the stored session state is the state of the event, for every
state; and when that state is none of `READY`, `STOPPING`, `EXITING` and
`LOSS_PENDING`, nothing else changes: `m_sessionRunning`, `m_applicationRunning`
and the trace are as before, so neither `xrBeginSession` nor `xrEndSession` is
called. -/
theorem C27_state_stored_and_passive_states (app : OpenXRTutorial) (state : XrSessionState) :
    (app.PollEvents
      [XR_TYPE_EVENT_DATA_SESSION_STATE_CHANGED app.m_session state]).m_sessionState = state ∧
    (state ≠ XR_SESSION_STATE_READY → state ≠ XR_SESSION_STATE_STOPPING →
      state ≠ XR_SESSION_STATE_EXITING → state ≠ XR_SESSION_STATE_LOSS_PENDING →
      app.PollEvents [XR_TYPE_EVENT_DATA_SESSION_STATE_CHANGED app.m_session state] =
        { app with m_sessionState := state } ∧
      (app.PollEvents [XR_TYPE_EVENT_DATA_SESSION_STATE_CHANGED app.m_session
        state]).m_sessionRunning = app.m_sessionRunning ∧
      (app.PollEvents [XR_TYPE_EVENT_DATA_SESSION_STATE_CHANGED app.m_session
        state]).m_applicationRunning = app.m_applicationRunning ∧
      (app.PollEvents [XR_TYPE_EVENT_DATA_SESSION_STATE_CHANGED app.m_session
        state]).trace = app.trace) := by
  constructor
  · cases state <;> simp [PollEvents, PollEvents_event, emit]
  · intro h1 h2 h3 h4
    simp [PollEvents, PollEvents_event, h1, h2, h3, h4]

/-- Witness for C27: the events for the states `IDLE`, `SYNCHRONIZED`, `VISIBLE` and
`FOCUSED`, handled by `sampleVisible`. -/
theorem C27_state_stored_and_passive_states_witness :
    (sampleVisible.PollEvents
      [XR_TYPE_EVENT_DATA_SESSION_STATE_CHANGED sampleVisible.m_session
        XR_SESSION_STATE_FOCUSED] =
        { sampleVisible with m_sessionState := XR_SESSION_STATE_FOCUSED }) ∧
    (sampleVisible.PollEvents
      [XR_TYPE_EVENT_DATA_SESSION_STATE_CHANGED sampleVisible.m_session
        XR_SESSION_STATE_IDLE]).m_sessionRunning = true ∧
    (sampleVisible.PollEvents
      [XR_TYPE_EVENT_DATA_SESSION_STATE_CHANGED sampleVisible.m_session
        XR_SESSION_STATE_SYNCHRONIZED]).m_applicationRunning = true ∧
    (sampleVisible.PollEvents
      [XR_TYPE_EVENT_DATA_SESSION_STATE_CHANGED sampleVisible.m_session
        XR_SESSION_STATE_VISIBLE]).trace = [] :=
  ⟨((C27_state_stored_and_passive_states sampleVisible XR_SESSION_STATE_FOCUSED).2
      (by decide) (by decide) (by decide) (by decide)).1,
   ((C27_state_stored_and_passive_states sampleVisible XR_SESSION_STATE_IDLE).2
      (by decide) (by decide) (by decide) (by decide)).2.1,
   ((C27_state_stored_and_passive_states sampleVisible XR_SESSION_STATE_SYNCHRONIZED).2
      (by decide) (by decide) (by decide) (by decide)).2.2.1,
   ((C27_state_stored_and_passive_states sampleVisible XR_SESSION_STATE_VISIBLE).2
      (by decide) (by decide) (by decide) (by decide)).2.2.2⟩

/-- C28: `m_applicationRunning` only ever goes from true to false under event
processing.  No single event leaves it true unless it was true before; so when it
is false, it is false after every event sequence, and when it is false after the
first events of a sequence, it is false after every longer part of the sequence. -/
theorem C28_applicationRunning_monotone (app : OpenXRTutorial) :
    (∀ e : XrEventDataBuffer,
      (PollEvents_event app e).m_applicationRunning = true → app.m_applicationRunning = true) ∧
    (∀ evs : List XrEventDataBuffer,
      app.m_applicationRunning = false → (app.PollEvents evs).m_applicationRunning = false) ∧
    (∀ evs later : List XrEventDataBuffer,
      (app.PollEvents evs).m_applicationRunning = false →
        (app.PollEvents (evs ++ later)).m_applicationRunning = false) := by
  refine ⟨?_, ?_, ?_⟩
  · intro e h
    by_contra hn
    have hf : app.m_applicationRunning = false := by simpa using hn
    rw [PollEvents_event_applicationRunning app e hf] at h
    exact Bool.noConfusion h
  · intro evs h
    exact PollEvents_applicationRunning evs app h
  · intro evs later h
    rw [PollEvents_append_list]
    exact PollEvents_applicationRunning later _ h

/-- Witness for C28: after `EXITING`, the flag stays false through a later `READY`
and `FOCUSED` for the same session. -/
theorem C28_applicationRunning_monotone_witness :
    (sample.PollEvents
      [XR_TYPE_EVENT_DATA_SESSION_STATE_CHANGED 1 XR_SESSION_STATE_EXITING]).m_applicationRunning
        = false ∧
    (sample.PollEvents
      ([XR_TYPE_EVENT_DATA_SESSION_STATE_CHANGED 1 XR_SESSION_STATE_EXITING] ++
       [XR_TYPE_EVENT_DATA_SESSION_STATE_CHANGED 1 XR_SESSION_STATE_READY,
        XR_TYPE_EVENT_DATA_SESSION_STATE_CHANGED 1 XR_SESSION_STATE_FOCUSED])).m_applicationRunning
        = false :=
  ⟨by decide,
   (C28_applicationRunning_monotone sample).2.2
     [XR_TYPE_EVENT_DATA_SESSION_STATE_CHANGED 1 XR_SESSION_STATE_EXITING]
     [XR_TYPE_EVENT_DATA_SESSION_STATE_CHANGED 1 XR_SESSION_STATE_READY,
      XR_TYPE_EVENT_DATA_SESSION_STATE_CHANGED 1 XR_SESSION_STATE_FOCUSED] (by decide)⟩

/-- C29: an instance loss pending event, which carries a time and no session
handle, clears `m_sessionRunning` and `m_applicationRunning` whatever the object
was before, and changes nothing else: the stored session state is as before and
the trace is as before, so `xrEndSession` is not called. -/
theorem C29_instance_loss_pending (app : OpenXRTutorial) (lossTime : XrTime) :
    app.PollEvents [XR_TYPE_EVENT_DATA_INSTANCE_LOSS_PENDING lossTime] =
      { app with m_sessionRunning := false, m_applicationRunning := false } ∧
    (app.PollEvents [XR_TYPE_EVENT_DATA_INSTANCE_LOSS_PENDING lossTime]).m_sessionRunning =
      false ∧
    (app.PollEvents [XR_TYPE_EVENT_DATA_INSTANCE_LOSS_PENDING lossTime]).m_applicationRunning =
      false ∧
    (app.PollEvents [XR_TYPE_EVENT_DATA_INSTANCE_LOSS_PENDING lossTime]).m_sessionState =
      app.m_sessionState ∧
    (app.PollEvents [XR_TYPE_EVENT_DATA_INSTANCE_LOSS_PENDING lossTime]).trace = app.trace ∧
    (app.PollEvents [XR_TYPE_EVENT_DATA_INSTANCE_LOSS_PENDING lossTime]).trace.countP
      isEndSession = app.trace.countP isEndSession :=
  ⟨rfl, rfl, rfl, rfl, rfl, rfl⟩

/-- C30, as the claim states it, fails: the first view of `sampleWide` has the
recommended width 2147483648, and the extent of the first projection view that
`RenderLayer` composes has the width -2147483648, which is what
`static_cast<int32_t>` makes of that width. -/
theorem C30_counterexample :
    (sampleWide.RenderLayer ⟨100, true, 0, 3, [⟨⟨1⟩, ⟨2⟩⟩, ⟨⟨3⟩, ⟨4⟩⟩], [(0, 0), (0, 0)]⟩
      ⟨100, [], default, []⟩).returned = true ∧
    sampleWide.m_viewConfigurationViews.map (fun view => view.recommendedImageRectWidth) =
      [2147483648, 1024] ∧
    (sampleWide.RenderLayer ⟨100, true, 0, 3, [⟨⟨1⟩, ⟨2⟩⟩, ⟨⟨3⟩, ⟨4⟩⟩], [(0, 0), (0, 0)]⟩
      ⟨100, [], default, []⟩).renderLayerInfo.layerProjection.views.map
        (fun pv => pv.subImage_imageRect_extent_width) = [-2147483648, 1024] := by
  decide

/-- C30, amended: when `xrLocateViews` succeeds with a view count `n` that is at
most the number of configured views, `RenderLayer` returns true, its projection
layer has exactly `n` projection views and refers to `m_localSpace`, and for every
`i < n` projection view `i` carries the pose and the field of view located for
view `i`, the color swapchain of view `i`, the image rectangle offset (0, 0), the
image array index 0, and as extent the recommended width and height of view `i`
converted to `int32_t`: the same numbers when they are below 2^31, and the numbers
less 2^32 otherwise. -/
theorem C30_projection_layer_composed (app : OpenXRTutorial) (rt : XrFrameAnswers)
    (info : RenderLayerInfo) (h : rt.locateResult = XR_SUCCESS)
    (hn : rt.views.length ≤ app.m_viewConfigurationViews.length) :
    (app.RenderLayer rt info).returned = true ∧
    (app.RenderLayer rt info).renderLayerInfo.layerProjection.views.length = rt.views.length ∧
    (app.RenderLayer rt info).renderLayerInfo.layerProjection.space = app.m_localSpace ∧
    ∀ i, i < rt.views.length →
      ∃ pv view configured,
        (app.RenderLayer rt info).renderLayerInfo.layerProjection.views[i]? = some pv ∧
        rt.views[i]? = some view ∧
        app.m_viewConfigurationViews[i]? = some configured ∧
        pv.pose = view.pose ∧
        pv.fov = view.fov ∧
        pv.subImage_swapchain = (app.m_colorSwapchainInfos.getD i default).swapchain ∧
        pv.subImage_imageRect_offset_x = 0 ∧
        pv.subImage_imageRect_offset_y = 0 ∧
        pv.subImage_imageArrayIndex = 0 ∧
        pv.subImage_imageRect_extent_width =
          static_cast_int32_t configured.recommendedImageRectWidth ∧
        pv.subImage_imageRect_extent_height =
          static_cast_int32_t configured.recommendedImageRectHeight ∧
        (configured.recommendedImageRectWidth < 2 ^ 31 →
          pv.subImage_imageRect_extent_width = configured.recommendedImageRectWidth) ∧
        (configured.recommendedImageRectHeight < 2 ^ 31 →
          pv.subImage_imageRect_extent_height = configured.recommendedImageRectHeight) ∧
        (2 ^ 31 ≤ configured.recommendedImageRectWidth →
          configured.recommendedImageRectWidth < 2 ^ 32 →
          pv.subImage_imageRect_extent_width =
            (configured.recommendedImageRectWidth : Int) - 2 ^ 32) ∧
        (2 ^ 31 ≤ configured.recommendedImageRectHeight →
          configured.recommendedImageRectHeight < 2 ^ 32 →
          pv.subImage_imageRect_extent_height =
            (configured.recommendedImageRectHeight : Int) - 2 ^ 32) := by
  rw [RenderLayer_eq app rt info h]
  refine ⟨rfl, by simp, rfl, ?_⟩
  intro i hi
  have hc : i < app.m_viewConfigurationViews.length := by omega
  refine ⟨RenderLayer_projectionView app rt i, rt.views[i], app.m_viewConfigurationViews[i],
    by simp [hi], by simp [hi], by simp [hc], ?_, ?_, rfl, rfl, rfl, rfl, ?_, ?_, ?_, ?_, ?_, ?_⟩
  · simp [RenderLayer_projectionView, List.getD_eq_getElem?_getD, List.getElem?_eq_getElem hi]
  · simp [RenderLayer_projectionView, List.getD_eq_getElem?_getD, List.getElem?_eq_getElem hi]
  · simp [RenderLayer_projectionView, List.getD_eq_getElem?_getD, List.getElem?_eq_getElem hc]
  · simp [RenderLayer_projectionView, List.getD_eq_getElem?_getD, List.getElem?_eq_getElem hc]
  · intro hw
    simp only [RenderLayer_projectionView, List.getD_eq_getElem?_getD,
      List.getElem?_eq_getElem hc, Option.getD_some]
    exact static_cast_int32_t_small _ hw
  · intro hw
    simp only [RenderLayer_projectionView, List.getD_eq_getElem?_getD,
      List.getElem?_eq_getElem hc, Option.getD_some]
    exact static_cast_int32_t_small _ hw
  · intro hw1 hw2
    simp only [RenderLayer_projectionView, List.getD_eq_getElem?_getD,
      List.getElem?_eq_getElem hc, Option.getD_some]
    exact static_cast_int32_t_large _ hw1 hw2
  · intro hw1 hw2
    simp only [RenderLayer_projectionView, List.getD_eq_getElem?_getD,
      List.getElem?_eq_getElem hc, Option.getD_some]
    exact static_cast_int32_t_large _ hw1 hw2

/-- Witness for C30: a frame of `sampleVisible` with two located views; the layer
has two projection views and refers to the space 2. -/
theorem C30_projection_layer_composed_witness :
    (0 : XrResult) = XR_SUCCESS ∧
    (2 : Nat) ≤ sampleVisible.m_viewConfigurationViews.length ∧
    (sampleVisible.RenderLayer ⟨100, true, 0, 3, [⟨⟨1⟩, ⟨2⟩⟩, ⟨⟨3⟩, ⟨4⟩⟩], [(0, 0), (0, 0)]⟩
      ⟨100, [], default, []⟩).renderLayerInfo.layerProjection.views.length = 2 ∧
    (sampleVisible.RenderLayer ⟨100, true, 0, 3, [⟨⟨1⟩, ⟨2⟩⟩, ⟨⟨3⟩, ⟨4⟩⟩], [(0, 0), (0, 0)]⟩
      ⟨100, [], default, []⟩).renderLayerInfo.layerProjection.space = 2 :=
  ⟨by decide, by decide,
   (C30_projection_layer_composed sampleVisible
      ⟨100, true, 0, 3, [⟨⟨1⟩, ⟨2⟩⟩, ⟨⟨3⟩, ⟨4⟩⟩], [(0, 0), (0, 0)]⟩ ⟨100, [], default, []⟩
      (by decide) (by decide)).2.1,
   (C30_projection_layer_composed sampleVisible
      ⟨100, true, 0, 3, [⟨⟨1⟩, ⟨2⟩⟩, ⟨⟨3⟩, ⟨4⟩⟩], [(0, 0), (0, 0)]⟩ ⟨100, [], default, []⟩
      (by decide) (by decide)).2.2.1⟩


end OpenXRTutorial
